import Mathlib

/-!
# StarFive JH7110 MIPI D-PHY TX driver: register programming model

A shallow embedding of `drivers/phy/starfive/phy-jh7110-dphy-tx.c`.

* The memory-mapped register window `dphy->topsys` is a map from byte offset to
  the 32-bit word stored there (`Regs`).  The driver only performs 32-bit
  accesses (`readl`/`writel`) at the word offsets `STF_DPHY_APBIFSAIF_SYSCFG(x)`.
* `u32` values are natural numbers, reduced `% 2 ^ 32` wherever C truncates.
* Functions that write registers take the register state and return the new one.
-/

namespace StfDphy

/-! ## Kernel bit helpers -/

/-- Modelled from the spec: the kernel helper `BIT(n)` of `include/linux/bits.h`
(not among the sources), the word with only bit `n` set. -/
def BIT (n : Nat) : Nat := 2 ^ n

/-- Modelled from the spec: the kernel helper `GENMASK(h, l)` of
`include/linux/bits.h` (not among the sources), the word with exactly the bits
`l..h` set, as the bit ranges of the register fields are named. -/
def GENMASK (h l : Nat) : Nat := 2 ^ (h + 1) - 2 ^ l

/-- Bitwise complement `~x` of a `u32`. -/
def not32 (x : Nat) : Nat := 0xFFFFFFFF ^^^ (x % 2 ^ 32)

/-! ## Register field constants (lines 22-113 of the source) -/

def STF_DPHY_APBIFSAIF_SYSCFG (x : Nat) : Nat := x

def STF_DPHY_AON_POWER_READY_N_ACTIVE : Nat := 0
def STF_DPHY_AON_POWER_READY_N_SHIFT : Nat := 0x0
def STF_DPHY_AON_POWER_READY_N_MASK : Nat := BIT 0
def STF_DPHY_CFG_L0_SWAP_SEL_SHIFT : Nat := 0xc
def STF_DPHY_CFG_L0_SWAP_SEL_MASK : Nat := GENMASK 14 12
def STF_DPHY_CFG_L1_SWAP_SEL_SHIFT : Nat := 0xf
def STF_DPHY_CFG_L1_SWAP_SEL_MASK : Nat := GENMASK 17 15
def STF_DPHY_CFG_L2_SWAP_SEL_SHIFT : Nat := 0x12
def STF_DPHY_CFG_L2_SWAP_SEL_MASK : Nat := GENMASK 20 18
def STF_DPHY_CFG_L3_SWAP_SEL_SHIFT : Nat := 0x15
def STF_DPHY_CFG_L3_SWAP_SEL_MASK : Nat := GENMASK 23 21
def STF_DPHY_CFG_L4_SWAP_SEL_SHIFT : Nat := 0x18
def STF_DPHY_CFG_L4_SWAP_SEL_MASK : Nat := GENMASK 26 24
def STF_DPHY_RGS_CDTX_PLL_UNLOCK_SHIFT : Nat := 0x12
def STF_DPHY_RGS_CDTX_PLL_UNLOCK_MASK : Nat := BIT 18
def STF_DPHY_RG_CDTX_L0N_HSTX_RES_SHIFT : Nat := 0x13
def STF_DPHY_RG_CDTX_L0N_HSTX_RES_MASK : Nat := GENMASK 23 19
def STF_DPHY_RG_CDTX_L0P_HSTX_RES_SHIFT : Nat := 0x18
def STF_DPHY_RG_CDTX_L0P_HSTX_RES_MASK : Nat := GENMASK 28 24

def STF_DPHY_RG_CDTX_L1P_HSTX_RES_SHIFT : Nat := 0x5
def STF_DPHY_RG_CDTX_L1P_HSTX_RES_MASK : Nat := GENMASK 9 5
def STF_DPHY_RG_CDTX_L2N_HSTX_RES_SHIFT : Nat := 0xa
def STF_DPHY_RG_CDTX_L2N_HSTX_RES_MASK : Nat := GENMASK 14 10
def STF_DPHY_RG_CDTX_L2P_HSTX_RES_SHIFT : Nat := 0xf
def STF_DPHY_RG_CDTX_L2P_HSTX_RES_MASK : Nat := GENMASK 19 15
def STF_DPHY_RG_CDTX_L3N_HSTX_RES_SHIFT : Nat := 0x14
def STF_DPHY_RG_CDTX_L3N_HSTX_RES_MASK : Nat := GENMASK 24 20
def STF_DPHY_RG_CDTX_L3P_HSTX_RES_SHIFT : Nat := 0x19
def STF_DPHY_RG_CDTX_L3P_HSTX_RES_MASK : Nat := GENMASK 29 25

def STF_DPHY_RG_CDTX_L4N_HSTX_RES_SHIFT : Nat := 0x0
def STF_DPHY_RG_CDTX_L4N_HSTX_RES_MASK : Nat := GENMASK 4 0
def STF_DPHY_RG_CDTX_L4P_HSTX_RES_SHIFT : Nat := 0x5
def STF_DPHY_RG_CDTX_L4P_HSTX_RES_MASK : Nat := GENMASK 9 5
def STF_DPHY_RG_CDTX_PLL_FBK_FRA_SHIFT : Nat := 0x0
def STF_DPHY_RG_CDTX_PLL_FBK_FRA_MASK : Nat := GENMASK 23 0

def STF_DPHY_RG_CDTX_PLL_FBK_INT_SHIFT : Nat := 0x0
def STF_DPHY_RG_CDTX_PLL_FBK_INT_MASK : Nat := GENMASK 8 0
def STF_DPHY_RG_CDTX_PLL_FM_EN_SHIFT : Nat := 0x9
def STF_DPHY_RG_CDTX_PLL_FM_EN_MASK : Nat := BIT 9
def STF_DPHY_RG_CDTX_PLL_LDO_STB_X2_EN_SHIFT : Nat := 0xa
def STF_DPHY_RG_CDTX_PLL_LDO_STB_X2_EN_MASK : Nat := BIT 10
def STF_DPHY_RG_CDTX_PLL_PRE_DIV_SHIFT : Nat := 0xb
def STF_DPHY_RG_CDTX_PLL_PRE_DIV_MASK : Nat := GENMASK 12 11

def STF_DPHY_RG_CDTX_PLL_SSC_EN_SHIFT : Nat := 0x12
def STF_DPHY_RG_CDTX_PLL_SSC_EN_MASK : Nat := 0x40000

def STF_DPHY_RG_CLANE_HS_CLK_POST_TIME_SHIFT : Nat := 0x0
def STF_DPHY_RG_CLANE_HS_CLK_POST_TIME_MASK : Nat := GENMASK 7 0
def STF_DPHY_RG_CLANE_HS_CLK_PRE_TIME_SHIFT : Nat := 0x8
def STF_DPHY_RG_CLANE_HS_CLK_PRE_TIME_MASK : Nat := GENMASK 15 8
def STF_DPHY_RG_CLANE_HS_PRE_TIME_SHIFT : Nat := 0x10
def STF_DPHY_RG_CLANE_HS_PRE_TIME_MASK : Nat := GENMASK 23 16
def STF_DPHY_RG_CLANE_HS_TRAIL_TIME_SHIFT : Nat := 0x18
def STF_DPHY_RG_CLANE_HS_TRAIL_TIME_MASK : Nat := GENMASK 31 24

def STF_DPHY_RG_CLANE_HS_ZERO_TIME_SHIFT : Nat := 0x0
def STF_DPHY_RG_CLANE_HS_ZERO_TIME_MASK : Nat := GENMASK 7 0
def STF_DPHY_RG_DLANE_HS_PRE_TIME_SHIFT : Nat := 0x8
def STF_DPHY_RG_DLANE_HS_PRE_TIME_MASK : Nat := GENMASK 15 8
def STF_DPHY_RG_DLANE_HS_TRAIL_TIME_SHIFT : Nat := 0x10
def STF_DPHY_RG_DLANE_HS_TRAIL_TIME_MASK : Nat := GENMASK 23 16
def STF_DPHY_RG_DLANE_HS_ZERO_TIME_SHIFT : Nat := 0x18
def STF_DPHY_RG_DLANE_HS_ZERO_TIME_MASK : Nat := GENMASK 31 24

def STF_DPHY_RG_EXTD_CYCLE_SEL_SHIFT : Nat := 0x0
def STF_DPHY_RG_EXTD_CYCLE_SEL_MASK : Nat := GENMASK 2 0
def STF_DPHY_SCFG_C_HS_PRE_ZERO_TIME_SHIFT : Nat := 0x0
def STF_DPHY_SCFG_C_HS_PRE_ZERO_TIME_MASK : Nat := GENMASK 31 0

def STF_DPHY_SCFG_DSI_TXREADY_ESC_SEL_SHIFT : Nat := 0x1
def STF_DPHY_SCFG_DSI_TXREADY_ESC_SEL_MASK : Nat := GENMASK 2 1
def STF_DPHY_SCFG_PPI_C_READY_SEL_SHIFT : Nat := 0x3
def STF_DPHY_SCFG_PPI_C_READY_SEL_MASK : Nat := GENMASK 4 3

def STF_DPHY_REFCLK_IN_SEL_SHIFT : Nat := 0x1a
def STF_DPHY_REFCLK_IN_SEL_MASK : Nat := GENMASK 28 26
def STF_DPHY_RESETB_SHIFT : Nat := 0x1d
def STF_DPHY_RESETB_MASK : Nat := BIT 29

def STF_DPHY_REFCLK_12M : Nat := 1
def STF_DPHY_BITRATE_ALIGN : Nat := 10000000

def STF_MAP_LANES_NUM : Nat := 5

def STF_DPHY_LSHIFT_16 (x : Nat) : Nat := x <<< 16
def STF_DPHY_LSHIFT_8 (x : Nat) : Nat := x <<< 8

/-! ## The configuration table -/

/-- One row of the PLL/timing table (`struct m31_dphy_config`). -/
structure m31_dphy_config where
  ref_clk : Int
  bitrate : Nat
  pll_prev_div : Nat
  pll_fbk_int : Nat
  pll_fbk_fra : Nat
  extd_cycle_sel : Nat
  dlane_hs_pre_time : Nat
  dlane_hs_zero_time : Nat
  dlane_hs_trail_time : Nat
  clane_hs_pre_time : Nat
  clane_hs_zero_time : Nat
  clane_hs_trail_time : Nat
  clane_hs_clk_pre_time : Nat
  clane_hs_clk_post_time : Nat
  deriving DecidableEq, Repr

/-- The static table `m31_dphy_configs[]`, rows in declaration order. -/
def m31_dphy_configs : List m31_dphy_config := [
  m31_dphy_config.mk 12000000 160000000 0x0 0x6a (STF_DPHY_LSHIFT_16 0xaa ||| STF_DPHY_LSHIFT_8 0xaa ||| 0xaa) 0x3 0xa 0x17 0x11 0x5 0x2b 0xd 0x7 0x3d,
  m31_dphy_config.mk 12000000 170000000 0x0 0x71 (STF_DPHY_LSHIFT_16 0x55 ||| STF_DPHY_LSHIFT_8 0x55 ||| 0x55) 0x3 0xb 0x18 0x11 0x5 0x2e 0xd 0x7 0x3d,
  m31_dphy_config.mk 12000000 180000000 0x0 0x78 (STF_DPHY_LSHIFT_16 0x0 ||| STF_DPHY_LSHIFT_8 0x0 ||| 0x0) 0x3 0xb 0x19 0x12 0x6 0x30 0xe 0x7 0x3e,
  m31_dphy_config.mk 12000000 190000000 0x0 0x7e (STF_DPHY_LSHIFT_16 0xaa ||| STF_DPHY_LSHIFT_8 0xaa ||| 0xaa) 0x3 0xc 0x1a 0x12 0x6 0x33 0xe 0x7 0x3e,
  m31_dphy_config.mk 12000000 200000000 0x0 0x85 (STF_DPHY_LSHIFT_16 0x55 ||| STF_DPHY_LSHIFT_8 0x55 ||| 0x55) 0x3 0xc 0x1b 0x13 0x7 0x35 0xf 0x7 0x3f,
  m31_dphy_config.mk 12000000 320000000 0x0 0x6a (STF_DPHY_LSHIFT_16 0xaa ||| STF_DPHY_LSHIFT_8 0xaa ||| 0xaa) 0x2 0x8 0x14 0xf 0x5 0x2b 0xd 0x3 0x23,
  m31_dphy_config.mk 12000000 330000000 0x0 0x6e (STF_DPHY_LSHIFT_16 0x0 ||| STF_DPHY_LSHIFT_8 0x0 ||| 0x0) 0x2 0x8 0x15 0xf 0x5 0x2d 0xd 0x3 0x23,
  m31_dphy_config.mk 12000000 340000000 0x0 0x71 (STF_DPHY_LSHIFT_16 0x55 ||| STF_DPHY_LSHIFT_8 0x55 ||| 0x55) 0x2 0x9 0x15 0xf 0x5 0x2e 0xd 0x3 0x23,
  m31_dphy_config.mk 12000000 350000000 0x0 0x74 (STF_DPHY_LSHIFT_16 0xaa ||| STF_DPHY_LSHIFT_8 0xaa ||| 0xaa) 0x2 0x9 0x15 0x10 0x6 0x2f 0xe 0x3 0x24,
  m31_dphy_config.mk 12000000 360000000 0x0 0x78 (STF_DPHY_LSHIFT_16 0x0 ||| STF_DPHY_LSHIFT_8 0x0 ||| 0x0) 0x2 0x9 0x16 0x10 0x6 0x30 0xe 0x3 0x24,
  m31_dphy_config.mk 12000000 370000000 0x0 0x7b (STF_DPHY_LSHIFT_16 0x55 ||| STF_DPHY_LSHIFT_8 0x55 ||| 0x55) 0x2 0x9 0x17 0x10 0x6 0x32 0xe 0x3 0x24,
  m31_dphy_config.mk 12000000 380000000 0x0 0x7e (STF_DPHY_LSHIFT_16 0xaa ||| STF_DPHY_LSHIFT_8 0xaa ||| 0xaa) 0x2 0xa 0x17 0x10 0x6 0x33 0xe 0x3 0x24,
  m31_dphy_config.mk 12000000 390000000 0x0 0x82 (STF_DPHY_LSHIFT_16 0x0 ||| STF_DPHY_LSHIFT_8 0x0 ||| 0x0) 0x2 0xa 0x17 0x11 0x6 0x35 0xf 0x3 0x25,
  m31_dphy_config.mk 12000000 400000000 0x0 0x85 (STF_DPHY_LSHIFT_16 0x55 ||| STF_DPHY_LSHIFT_8 0x55 ||| 0x55) 0x2 0xa 0x18 0x11 0x7 0x35 0xf 0x3 0x25,
  m31_dphy_config.mk 12000000 410000000 0x0 0x88 (STF_DPHY_LSHIFT_16 0xaa ||| STF_DPHY_LSHIFT_8 0xaa ||| 0xaa) 0x2 0xa 0x19 0x11 0x7 0x37 0xf 0x3 0x25,
  m31_dphy_config.mk 12000000 420000000 0x0 0x8c (STF_DPHY_LSHIFT_16 0x0 ||| STF_DPHY_LSHIFT_8 0x0 ||| 0x0) 0x2 0xa 0x19 0x12 0x7 0x38 0x10 0x3 0x26,
  m31_dphy_config.mk 12000000 430000000 0x0 0x8f (STF_DPHY_LSHIFT_16 0x55 ||| STF_DPHY_LSHIFT_8 0x55 ||| 0x55) 0x2 0xb 0x19 0x12 0x7 0x39 0x10 0x3 0x26,
  m31_dphy_config.mk 12000000 440000000 0x0 0x92 (STF_DPHY_LSHIFT_16 0xaa ||| STF_DPHY_LSHIFT_8 0xaa ||| 0xaa) 0x2 0xb 0x1a 0x12 0x7 0x3b 0x10 0x3 0x26,
  m31_dphy_config.mk 12000000 450000000 0x0 0x96 (STF_DPHY_LSHIFT_16 0x0 ||| STF_DPHY_LSHIFT_8 0x0 ||| 0x0) 0x2 0xb 0x1b 0x12 0x8 0x3c 0x10 0x3 0x26,
  m31_dphy_config.mk 12000000 460000000 0x0 0x99 (STF_DPHY_LSHIFT_16 0x55 ||| STF_DPHY_LSHIFT_8 0x55 ||| 0x55) 0x2 0xb 0x1b 0x13 0x8 0x3d 0x11 0x3 0x27,
  m31_dphy_config.mk 12000000 470000000 0x0 0x9c (STF_DPHY_LSHIFT_16 0xaa ||| STF_DPHY_LSHIFT_8 0xaa ||| 0xaa) 0x2 0xc 0x1b 0x13 0x8 0x3e 0x11 0x3 0x27,
  m31_dphy_config.mk 12000000 480000000 0x0 0xa0 (STF_DPHY_LSHIFT_16 0x0 ||| STF_DPHY_LSHIFT_8 0x0 ||| 0x0) 0x2 0xc 0x1c 0x13 0x8 0x40 0x11 0x3 0x27,
  m31_dphy_config.mk 12000000 490000000 0x0 0xa3 (STF_DPHY_LSHIFT_16 0x55 ||| STF_DPHY_LSHIFT_8 0x55 ||| 0x55) 0x2 0xc 0x1d 0x14 0x8 0x42 0x12 0x3 0x28,
  m31_dphy_config.mk 12000000 500000000 0x0 0xa6 (STF_DPHY_LSHIFT_16 0xaa ||| STF_DPHY_LSHIFT_8 0xaa ||| 0xaa) 0x2 0xc 0x1d 0x14 0x9 0x42 0x12 0x3 0x28,
  m31_dphy_config.mk 12000000 510000000 0x0 0xaa (STF_DPHY_LSHIFT_16 0x0 ||| STF_DPHY_LSHIFT_8 0x0 ||| 0x0) 0x2 0xc 0x1e 0x14 0x9 0x44 0x12 0x3 0x28,
  m31_dphy_config.mk 12000000 520000000 0x0 0xad (STF_DPHY_LSHIFT_16 0x55 ||| STF_DPHY_LSHIFT_8 0x55 ||| 0x55) 0x2 0xd 0x1e 0x15 0x9 0x45 0x13 0x3 0x29,
  m31_dphy_config.mk 12000000 530000000 0x0 0xb0 (STF_DPHY_LSHIFT_16 0xaa ||| STF_DPHY_LSHIFT_8 0xaa ||| 0xaa) 0x2 0xd 0x1e 0x15 0x9 0x47 0x13 0x3 0x29,
  m31_dphy_config.mk 12000000 540000000 0x0 0xb4 (STF_DPHY_LSHIFT_16 0x0 ||| STF_DPHY_LSHIFT_8 0x0 ||| 0x0) 0x2 0xd 0x1f 0x15 0x9 0x48 0x13 0x3 0x29,
  m31_dphy_config.mk 12000000 550000000 0x0 0xb7 (STF_DPHY_LSHIFT_16 0x55 ||| STF_DPHY_LSHIFT_8 0x55 ||| 0x55) 0x2 0xd 0x20 0x16 0x9 0x4a 0x14 0x3 0x2a,
  m31_dphy_config.mk 12000000 560000000 0x0 0xba (STF_DPHY_LSHIFT_16 0xaa ||| STF_DPHY_LSHIFT_8 0xaa ||| 0xaa) 0x2 0xe 0x20 0x16 0xa 0x4a 0x14 0x3 0x2a,
  m31_dphy_config.mk 12000000 570000000 0x0 0xbe (STF_DPHY_LSHIFT_16 0x0 ||| STF_DPHY_LSHIFT_8 0x0 ||| 0x0) 0x2 0xe 0x20 0x16 0xa 0x4c 0x14 0x3 0x2a,
  m31_dphy_config.mk 12000000 580000000 0x0 0xc1 (STF_DPHY_LSHIFT_16 0x55 ||| STF_DPHY_LSHIFT_8 0x55 ||| 0x55) 0x2 0xe 0x21 0x16 0xa 0x4d 0x14 0x3 0x2a,
  m31_dphy_config.mk 12000000 590000000 0x0 0xc4 (STF_DPHY_LSHIFT_16 0xaa ||| STF_DPHY_LSHIFT_8 0xaa ||| 0xaa) 0x2 0xe 0x22 0x17 0xa 0x4f 0x15 0x3 0x2b,
  m31_dphy_config.mk 12000000 600000000 0x0 0xc8 (STF_DPHY_LSHIFT_16 0x0 ||| STF_DPHY_LSHIFT_8 0x0 ||| 0x0) 0x2 0xe 0x23 0x17 0xa 0x50 0x15 0x3 0x2b,
  m31_dphy_config.mk 12000000 610000000 0x0 0xcb (STF_DPHY_LSHIFT_16 0x55 ||| STF_DPHY_LSHIFT_8 0x55 ||| 0x55) 0x2 0xf 0x22 0x17 0xb 0x50 0x15 0x3 0x2b,
  m31_dphy_config.mk 12000000 620000000 0x0 0xce (STF_DPHY_LSHIFT_16 0xaa ||| STF_DPHY_LSHIFT_8 0xaa ||| 0xaa) 0x2 0xf 0x23 0x18 0xb 0x52 0x16 0x3 0x2c,
  m31_dphy_config.mk 12000000 630000000 0x0 0x69 (STF_DPHY_LSHIFT_16 0x0 ||| STF_DPHY_LSHIFT_8 0x0 ||| 0x0) 0x1 0x7 0x12 0xd 0x5 0x2a 0xc 0x1 0x15,
  m31_dphy_config.mk 12000000 640000000 0x0 0x6a (STF_DPHY_LSHIFT_16 0xaa ||| STF_DPHY_LSHIFT_8 0xaa ||| 0xaa) 0x1 0x7 0x13 0xe 0x5 0x2b 0xd 0x1 0x16,
  m31_dphy_config.mk 12000000 650000000 0x0 0x6c (STF_DPHY_LSHIFT_16 0x55 ||| STF_DPHY_LSHIFT_8 0x55 ||| 0x55) 0x1 0x7 0x13 0xe 0x5 0x2c 0xd 0x1 0x16,
  m31_dphy_config.mk 12000000 660000000 0x0 0x6e (STF_DPHY_LSHIFT_16 0x0 ||| STF_DPHY_LSHIFT_8 0x0 ||| 0x0) 0x1 0x7 0x13 0xe 0x5 0x2d 0xd 0x1 0x16,
  m31_dphy_config.mk 12000000 670000000 0x0 0x6f (STF_DPHY_LSHIFT_16 0xaa ||| STF_DPHY_LSHIFT_8 0xaa ||| 0xaa) 0x1 0x8 0x13 0xe 0x5 0x2d 0xd 0x1 0x16,
  m31_dphy_config.mk 12000000 680000000 0x0 0x71 (STF_DPHY_LSHIFT_16 0x55 ||| STF_DPHY_LSHIFT_8 0x55 ||| 0x55) 0x1 0x8 0x13 0xe 0x5 0x2e 0xd 0x1 0x16,
  m31_dphy_config.mk 12000000 690000000 0x0 0x73 (STF_DPHY_LSHIFT_16 0x0 ||| STF_DPHY_LSHIFT_8 0x0 ||| 0x0) 0x1 0x8 0x14 0xe 0x6 0x2e 0xd 0x1 0x16,
  m31_dphy_config.mk 12000000 700000000 0x0 0x74 (STF_DPHY_LSHIFT_16 0xaa ||| STF_DPHY_LSHIFT_8 0xaa ||| 0xaa) 0x1 0x8 0x14 0xf 0x6 0x2f 0xe 0x1 0x16,
  m31_dphy_config.mk 12000000 710000000 0x0 0x76 (STF_DPHY_LSHIFT_16 0x55 ||| STF_DPHY_LSHIFT_8 0x55 ||| 0x55) 0x1 0x8 0x14 0xf 0x6 0x2f 0xe 0x1 0x17,
  m31_dphy_config.mk 12000000 720000000 0x0 0x78 (STF_DPHY_LSHIFT_16 0x0 ||| STF_DPHY_LSHIFT_8 0x0 ||| 0x0) 0x1 0x8 0x15 0xf 0x6 0x30 0xe 0x1 0x17,
  m31_dphy_config.mk 12000000 730000000 0x0 0x79 (STF_DPHY_LSHIFT_16 0xaa ||| STF_DPHY_LSHIFT_8 0xaa ||| 0xaa) 0x1 0x8 0x15 0xf 0x6 0x31 0xe 0x1 0x17,
  m31_dphy_config.mk 12000000 740000000 0x0 0x7b (STF_DPHY_LSHIFT_16 0x55 ||| STF_DPHY_LSHIFT_8 0x55 ||| 0x55) 0x1 0x8 0x15 0xf 0x6 0x32 0xe 0x1 0x17,
  m31_dphy_config.mk 12000000 750000000 0x0 0x7d (STF_DPHY_LSHIFT_16 0x0 ||| STF_DPHY_LSHIFT_8 0x0 ||| 0x0) 0x1 0x8 0x16 0xf 0x6 0x32 0xe 0x1 0x17,
  m31_dphy_config.mk 12000000 760000000 0x0 0x7e (STF_DPHY_LSHIFT_16 0xaa ||| STF_DPHY_LSHIFT_8 0xaa ||| 0xaa) 0x1 0x9 0x15 0xf 0x6 0x33 0xe 0x1 0x17,
  m31_dphy_config.mk 12000000 770000000 0x0 0x80 (STF_DPHY_LSHIFT_16 0x55 ||| STF_DPHY_LSHIFT_8 0x55 ||| 0x55) 0x1 0x9 0x15 0x10 0x6 0x34 0xf 0x1 0x18,
  m31_dphy_config.mk 12000000 780000000 0x0 0x82 (STF_DPHY_LSHIFT_16 0x0 ||| STF_DPHY_LSHIFT_8 0x0 ||| 0x0) 0x1 0x9 0x16 0x10 0x6 0x35 0xf 0x1 0x18,
  m31_dphy_config.mk 12000000 790000000 0x0 0x83 (STF_DPHY_LSHIFT_16 0xaa ||| STF_DPHY_LSHIFT_8 0xaa ||| 0xaa) 0x1 0x9 0x16 0x10 0x7 0x34 0xf 0x1 0x18,
  m31_dphy_config.mk 12000000 800000000 0x0 0x85 (STF_DPHY_LSHIFT_16 0x55 ||| STF_DPHY_LSHIFT_8 0x55 ||| 0x55) 0x1 0x9 0x17 0x10 0x7 0x35 0xf 0x1 0x18,
  m31_dphy_config.mk 12000000 810000000 0x0 0x87 (STF_DPHY_LSHIFT_16 0x0 ||| STF_DPHY_LSHIFT_8 0x0 ||| 0x0) 0x1 0x9 0x17 0x10 0x7 0x36 0xf 0x1 0x18,
  m31_dphy_config.mk 12000000 820000000 0x0 0x88 (STF_DPHY_LSHIFT_16 0xaa ||| STF_DPHY_LSHIFT_8 0xaa ||| 0xaa) 0x1 0x9 0x17 0x10 0x7 0x37 0xf 0x1 0x18,
  m31_dphy_config.mk 12000000 830000000 0x0 0x8a (STF_DPHY_LSHIFT_16 0x55 ||| STF_DPHY_LSHIFT_8 0x55 ||| 0x55) 0x1 0x9 0x18 0x10 0x7 0x37 0xf 0x1 0x18,
  m31_dphy_config.mk 12000000 840000000 0x0 0x8c (STF_DPHY_LSHIFT_16 0x0 ||| STF_DPHY_LSHIFT_8 0x0 ||| 0x0) 0x1 0x9 0x18 0x11 0x7 0x38 0x10 0x1 0x19,
  m31_dphy_config.mk 12000000 850000000 0x0 0x8d (STF_DPHY_LSHIFT_16 0xaa ||| STF_DPHY_LSHIFT_8 0xaa ||| 0xaa) 0x1 0xa 0x17 0x11 0x7 0x39 0x10 0x1 0x19,
  m31_dphy_config.mk 12000000 860000000 0x0 0x8f (STF_DPHY_LSHIFT_16 0x55 ||| STF_DPHY_LSHIFT_8 0x55 ||| 0x55) 0x1 0xa 0x18 0x11 0x7 0x39 0x10 0x1 0x19,
  m31_dphy_config.mk 12000000 870000000 0x0 0x91 (STF_DPHY_LSHIFT_16 0x0 ||| STF_DPHY_LSHIFT_8 0x0 ||| 0x0) 0x1 0xa 0x18 0x11 0x7 0x3a 0x10 0x1 0x19,
  m31_dphy_config.mk 12000000 880000000 0x0 0x92 (STF_DPHY_LSHIFT_16 0xaa ||| STF_DPHY_LSHIFT_8 0xaa ||| 0xaa) 0x1 0xa 0x18 0x11 0x7 0x3b 0x10 0x1 0x19,
  m31_dphy_config.mk 12000000 890000000 0x0 0x94 (STF_DPHY_LSHIFT_16 0x55 ||| STF_DPHY_LSHIFT_8 0x55 ||| 0x55) 0x1 0xa 0x19 0x11 0x7 0x3c 0x10 0x1 0x19,
  m31_dphy_config.mk 12000000 900000000 0x0 0x96 (STF_DPHY_LSHIFT_16 0x0 ||| STF_DPHY_LSHIFT_8 0x0 ||| 0x0) 0x1 0xa 0x19 0x12 0x8 0x3c 0x10 0x1 0x19,
  m31_dphy_config.mk 12000000 910000000 0x0 0x97 (STF_DPHY_LSHIFT_16 0xaa ||| STF_DPHY_LSHIFT_8 0xaa ||| 0xaa) 0x1 0xa 0x19 0x12 0x8 0x3c 0x11 0x1 0x1a,
  m31_dphy_config.mk 12000000 920000000 0x0 0x99 (STF_DPHY_LSHIFT_16 0x55 ||| STF_DPHY_LSHIFT_8 0x55 ||| 0x55) 0x1 0xa 0x1a 0x12 0x8 0x3d 0x11 0x1 0x1a,
  m31_dphy_config.mk 12000000 930000000 0x0 0x9b (STF_DPHY_LSHIFT_16 0x0 ||| STF_DPHY_LSHIFT_8 0x0 ||| 0x0) 0x1 0xa 0x1a 0x12 0x8 0x3e 0x11 0x1 0x1a,
  m31_dphy_config.mk 12000000 940000000 0x0 0x9c (STF_DPHY_LSHIFT_16 0xaa ||| STF_DPHY_LSHIFT_8 0xaa ||| 0xaa) 0x1 0xb 0x1a 0x12 0x8 0x3e 0x11 0x1 0x1a,
  m31_dphy_config.mk 12000000 950000000 0x0 0x9e (STF_DPHY_LSHIFT_16 0x55 ||| STF_DPHY_LSHIFT_8 0x55 ||| 0x55) 0x1 0xb 0x1a 0x12 0x8 0x3f 0x11 0x1 0x1a,
  m31_dphy_config.mk 12000000 960000000 0x0 0xa0 (STF_DPHY_LSHIFT_16 0x0 ||| STF_DPHY_LSHIFT_8 0x0 ||| 0x0) 0x1 0xb 0x1a 0x12 0x8 0x40 0x11 0x1 0x1a,
  m31_dphy_config.mk 12000000 970000000 0x0 0xa1 (STF_DPHY_LSHIFT_16 0xaa ||| STF_DPHY_LSHIFT_8 0xaa ||| 0xaa) 0x1 0xb 0x1b 0x13 0x8 0x41 0x12 0x1 0x1b,
  m31_dphy_config.mk 12000000 980000000 0x0 0xa3 (STF_DPHY_LSHIFT_16 0x55 ||| STF_DPHY_LSHIFT_8 0x55 ||| 0x55) 0x1 0xb 0x1b 0x13 0x8 0x42 0x12 0x1 0x1b,
  m31_dphy_config.mk 12000000 990000000 0x0 0xa5 (STF_DPHY_LSHIFT_16 0x0 ||| STF_DPHY_LSHIFT_8 0x0 ||| 0x0) 0x1 0xb 0x1b 0x13 0x8 0x42 0x12 0x1 0x1b,
  m31_dphy_config.mk 12000000 1000000000 0x0 0xa6 (STF_DPHY_LSHIFT_16 0xaa ||| STF_DPHY_LSHIFT_8 0xaa ||| 0xaa) 0x1 0xb 0x1c 0x13 0x9 0x42 0x12 0x1 0x1b
]

/-! ## Driver state -/

/-- Board description `struct stf_dphy_info`: `maps[STF_MAP_LANES_NUM]`, the
physical lane of each logical lane `[data0, data1, data2, data3, clk]`. -/
structure stf_dphy_info where
  maps : Fin 5 → Nat

/-- The board table `starfive_dphy_info`. -/
def starfive_dphy_info : stf_dphy_info := ⟨fun i => i.val⟩

/-- The register window: byte offset to the word stored there. -/
abbrev Regs := Nat → Nat

/-- The 32-bit read `readl(io_addr + addr)`. -/
def readl (regs : Regs) (addr : Nat) : Nat := regs addr % 2 ^ 32

/-- The 32-bit write `writel(v, io_addr + addr)`. -/
def writel (v : Nat) (regs : Regs) (addr : Nat) : Regs :=
  fun a => if a = addr then v % 2 ^ 32 else regs a

/-! ## Register access primitives (lines 381-398) -/

/-- The field read `stf_dphy_get_reg`: the source reads `readl(io_addr)`, the
word at offset 0 of the window, whatever `addr` is. -/
def stf_dphy_get_reg (regs : Regs) (addr shift mask : Nat) : Nat :=
  let tmp := readl regs 0
  let tmp := (tmp &&& mask) >>> shift
  tmp

/-- The field write `stf_dphy_set_reg`: read-modify-write of the word at
`io_addr + addr`; `data << shift` is a `u32` shift. -/
def stf_dphy_set_reg (regs : Regs) (addr data shift mask : Nat) : Regs :=
  let tmp := readl regs addr
  let tmp := tmp &&& not32 mask
  let tmp := tmp ||| (((data <<< shift) % 2 ^ 32) &&& mask)
  writel tmp regs addr

/-! ## `stf_dphy_configure` (lines 420-549) -/

/-- The ten output-resistance preset writes at the head of `stf_dphy_configure`. -/
def hstx_res_presets (regs : Regs) : Regs :=
  let regs := stf_dphy_set_reg regs (STF_DPHY_APBIFSAIF_SYSCFG 8) 0x10
    STF_DPHY_RG_CDTX_L0N_HSTX_RES_SHIFT STF_DPHY_RG_CDTX_L0N_HSTX_RES_MASK
  let regs := stf_dphy_set_reg regs (STF_DPHY_APBIFSAIF_SYSCFG 12) 0x10
    STF_DPHY_RG_CDTX_L0N_HSTX_RES_SHIFT STF_DPHY_RG_CDTX_L0N_HSTX_RES_MASK
  let regs := stf_dphy_set_reg regs (STF_DPHY_APBIFSAIF_SYSCFG 12) 0x10
    STF_DPHY_RG_CDTX_L2N_HSTX_RES_SHIFT STF_DPHY_RG_CDTX_L2N_HSTX_RES_MASK
  let regs := stf_dphy_set_reg regs (STF_DPHY_APBIFSAIF_SYSCFG 12) 0x10
    STF_DPHY_RG_CDTX_L3N_HSTX_RES_SHIFT STF_DPHY_RG_CDTX_L3N_HSTX_RES_MASK
  let regs := stf_dphy_set_reg regs (STF_DPHY_APBIFSAIF_SYSCFG 16) 0x10
    STF_DPHY_RG_CDTX_L4N_HSTX_RES_SHIFT STF_DPHY_RG_CDTX_L4N_HSTX_RES_MASK
  let regs := stf_dphy_set_reg regs (STF_DPHY_APBIFSAIF_SYSCFG 8) 0x10
    STF_DPHY_RG_CDTX_L0P_HSTX_RES_SHIFT STF_DPHY_RG_CDTX_L0P_HSTX_RES_MASK
  let regs := stf_dphy_set_reg regs (STF_DPHY_APBIFSAIF_SYSCFG 12) 0x10
    STF_DPHY_RG_CDTX_L1P_HSTX_RES_SHIFT STF_DPHY_RG_CDTX_L1P_HSTX_RES_MASK
  let regs := stf_dphy_set_reg regs (STF_DPHY_APBIFSAIF_SYSCFG 12) 0x10
    STF_DPHY_RG_CDTX_L2P_HSTX_RES_SHIFT STF_DPHY_RG_CDTX_L2P_HSTX_RES_MASK
  let regs := stf_dphy_set_reg regs (STF_DPHY_APBIFSAIF_SYSCFG 12) 0x10
    STF_DPHY_RG_CDTX_L3P_HSTX_RES_SHIFT STF_DPHY_RG_CDTX_L3P_HSTX_RES_MASK
  let regs := stf_dphy_set_reg regs (STF_DPHY_APBIFSAIF_SYSCFG 16) 0x10
    STF_DPHY_RG_CDTX_L4P_HSTX_RES_SHIFT STF_DPHY_RG_CDTX_L4P_HSTX_RES_MASK
  regs

/-- The rounding of the `u32 bitrate` (lines 452-454): `alignment` is an
`unsigned long`, the sum is stored back into the `u32`. -/
def round_bitrate (bitrate : Nat) : Nat :=
  let alignment := STF_DPHY_BITRATE_ALIGN
  if bitrate % alignment ≠ 0 then
    (bitrate + (alignment - bitrate % alignment)) % 2 ^ 32
  else bitrate

/-- The body of the `if (p->bitrate == bitrate)` branch (lines 459-542): the
register writes made for the matching row `p`. -/
def program_row (info : stf_dphy_info) (p : m31_dphy_config) (regs : Regs) : Regs :=
  let regs := stf_dphy_set_reg regs (STF_DPHY_APBIFSAIF_SYSCFG 100)
    STF_DPHY_REFCLK_12M STF_DPHY_REFCLK_IN_SEL_SHIFT STF_DPHY_REFCLK_IN_SEL_MASK
  let regs := stf_dphy_set_reg regs (STF_DPHY_APBIFSAIF_SYSCFG 0)
    STF_DPHY_AON_POWER_READY_N_ACTIVE STF_DPHY_AON_POWER_READY_N_SHIFT
    STF_DPHY_AON_POWER_READY_N_MASK
  let regs := stf_dphy_set_reg regs (STF_DPHY_APBIFSAIF_SYSCFG 0) (info.maps 0)
    STF_DPHY_CFG_L0_SWAP_SEL_SHIFT STF_DPHY_CFG_L0_SWAP_SEL_MASK
  let regs := stf_dphy_set_reg regs (STF_DPHY_APBIFSAIF_SYSCFG 0) (info.maps 1)
    STF_DPHY_CFG_L1_SWAP_SEL_SHIFT STF_DPHY_CFG_L1_SWAP_SEL_MASK
  let regs := stf_dphy_set_reg regs (STF_DPHY_APBIFSAIF_SYSCFG 0) (info.maps 2)
    STF_DPHY_CFG_L2_SWAP_SEL_SHIFT STF_DPHY_CFG_L2_SWAP_SEL_MASK
  let regs := stf_dphy_set_reg regs (STF_DPHY_APBIFSAIF_SYSCFG 0) (info.maps 3)
    STF_DPHY_CFG_L3_SWAP_SEL_SHIFT STF_DPHY_CFG_L3_SWAP_SEL_MASK
  let regs := stf_dphy_set_reg regs (STF_DPHY_APBIFSAIF_SYSCFG 0) (info.maps 4)
    STF_DPHY_CFG_L4_SWAP_SEL_SHIFT STF_DPHY_CFG_L4_SWAP_SEL_MASK
  let regs := stf_dphy_set_reg regs (STF_DPHY_APBIFSAIF_SYSCFG 28) 0x0
    STF_DPHY_RG_CDTX_PLL_SSC_EN_SHIFT STF_DPHY_RG_CDTX_PLL_SSC_EN_MASK
  let regs := stf_dphy_set_reg regs (STF_DPHY_APBIFSAIF_SYSCFG 24) 0x1
    STF_DPHY_RG_CDTX_PLL_LDO_STB_X2_EN_SHIFT STF_DPHY_RG_CDTX_PLL_LDO_STB_X2_EN_MASK
  let regs := stf_dphy_set_reg regs (STF_DPHY_APBIFSAIF_SYSCFG 24) 0x1
    STF_DPHY_RG_CDTX_PLL_FM_EN_SHIFT STF_DPHY_RG_CDTX_PLL_FM_EN_MASK
  let regs := stf_dphy_set_reg regs (STF_DPHY_APBIFSAIF_SYSCFG 24) p.pll_prev_div
    STF_DPHY_RG_CDTX_PLL_PRE_DIV_SHIFT STF_DPHY_RG_CDTX_PLL_PRE_DIV_MASK
  let regs := stf_dphy_set_reg regs (STF_DPHY_APBIFSAIF_SYSCFG 24) p.pll_fbk_int
    STF_DPHY_RG_CDTX_PLL_FBK_INT_SHIFT STF_DPHY_RG_CDTX_PLL_FBK_INT_MASK
  let regs := stf_dphy_set_reg regs (STF_DPHY_APBIFSAIF_SYSCFG 20) p.pll_fbk_fra
    STF_DPHY_RG_CDTX_PLL_FBK_FRA_SHIFT STF_DPHY_RG_CDTX_PLL_FBK_FRA_MASK
  let regs := stf_dphy_set_reg regs (STF_DPHY_APBIFSAIF_SYSCFG 40) p.extd_cycle_sel
    STF_DPHY_RG_EXTD_CYCLE_SEL_SHIFT STF_DPHY_RG_EXTD_CYCLE_SEL_MASK
  let regs := stf_dphy_set_reg regs (STF_DPHY_APBIFSAIF_SYSCFG 36) p.dlane_hs_pre_time
    STF_DPHY_RG_DLANE_HS_PRE_TIME_SHIFT STF_DPHY_RG_DLANE_HS_PRE_TIME_MASK
  let regs := stf_dphy_set_reg regs (STF_DPHY_APBIFSAIF_SYSCFG 36) p.dlane_hs_pre_time
    STF_DPHY_RG_DLANE_HS_PRE_TIME_SHIFT STF_DPHY_RG_DLANE_HS_PRE_TIME_MASK
  let regs := stf_dphy_set_reg regs (STF_DPHY_APBIFSAIF_SYSCFG 36) p.dlane_hs_zero_time
    STF_DPHY_RG_DLANE_HS_ZERO_TIME_SHIFT STF_DPHY_RG_DLANE_HS_ZERO_TIME_MASK
  let regs := stf_dphy_set_reg regs (STF_DPHY_APBIFSAIF_SYSCFG 36) p.dlane_hs_trail_time
    STF_DPHY_RG_DLANE_HS_TRAIL_TIME_SHIFT STF_DPHY_RG_DLANE_HS_TRAIL_TIME_MASK
  let regs := stf_dphy_set_reg regs (STF_DPHY_APBIFSAIF_SYSCFG 32) p.clane_hs_pre_time
    STF_DPHY_RG_CLANE_HS_PRE_TIME_SHIFT STF_DPHY_RG_CLANE_HS_PRE_TIME_MASK
  let regs := stf_dphy_set_reg regs (STF_DPHY_APBIFSAIF_SYSCFG 36) p.clane_hs_zero_time
    STF_DPHY_RG_CLANE_HS_ZERO_TIME_SHIFT STF_DPHY_RG_CLANE_HS_ZERO_TIME_MASK
  let regs := stf_dphy_set_reg regs (STF_DPHY_APBIFSAIF_SYSCFG 32) p.clane_hs_trail_time
    STF_DPHY_RG_CLANE_HS_TRAIL_TIME_SHIFT STF_DPHY_RG_CLANE_HS_TRAIL_TIME_MASK
  let regs := stf_dphy_set_reg regs (STF_DPHY_APBIFSAIF_SYSCFG 32) p.clane_hs_clk_pre_time
    STF_DPHY_RG_CLANE_HS_CLK_PRE_TIME_SHIFT STF_DPHY_RG_CLANE_HS_CLK_PRE_TIME_MASK
  let regs := stf_dphy_set_reg regs (STF_DPHY_APBIFSAIF_SYSCFG 32) p.clane_hs_clk_post_time
    STF_DPHY_RG_CLANE_HS_CLK_POST_TIME_SHIFT STF_DPHY_RG_CLANE_HS_CLK_POST_TIME_MASK
  regs

/-- The row at which the scan `for (i = 0; i < ARRAY_SIZE(...); i++, p++)` meets
`p->bitrate == bitrate` and breaks, if any (lines 456-458). -/
def scan_match (bitrate : Nat) : List m31_dphy_config → Option m31_dphy_config
  | [] => none
  | p :: ps => if p.bitrate = bitrate then some p else scan_match bitrate ps

/-- The scan loop itself (lines 456-546): the first matching row is programmed
and the loop breaks; with no match the registers are left as they are. -/
def configure_scan (info : stf_dphy_info) (bitrate : Nat) :
    List m31_dphy_config → Regs → Regs
  | [], regs => regs
  | p :: ps, regs =>
    if p.bitrate = bitrate then program_row info p regs
    else configure_scan info bitrate ps regs

/-- The callback `stf_dphy_configure`: `hs_clk_rate` is `opts->mipi_dphy.hs_clk_rate`
(an `unsigned long`, stored into the `u32 bitrate`); the result is the return
value and the register state. -/
def stf_dphy_configure (info : stf_dphy_info) (hs_clk_rate : Nat) (regs : Regs) :
    Int × Regs :=
  let bitrate := hs_clk_rate % 2 ^ 32
  let regs := hstx_res_presets regs
  let bitrate := round_bitrate bitrate
  (0, configure_scan info bitrate m31_dphy_configs regs)

/-- Value of the field `(shift, mask)` in a word: `(w & mask) >> shift`. -/
def field_of (w shift mask : Nat) : Nat := (w &&& mask) >>> shift

/-- The word `stf_dphy_set_reg` stores for the old word `old`:
`(old & ~mask) | ((data << shift) & mask)`. -/
def rmw_word (old data shift mask : Nat) : Nat :=
  (old &&& not32 mask) ||| (((data <<< shift) % 2 ^ 32) &&& mask)

/-- A value that fits a `u32`. -/
def is_u32 (x : Nat) : Prop := x < 2 ^ 32

/-- The register contents `stf_dphy_configure` is to leave for the row `p`: the
fixed fields, the PLL fields of the row, and the two HS timing words. -/
def row_programmed (regs : Regs) (p : m31_dphy_config) : Prop :=
  field_of (readl regs 100) STF_DPHY_REFCLK_IN_SEL_SHIFT STF_DPHY_REFCLK_IN_SEL_MASK = 1 ∧
  field_of (readl regs 0) STF_DPHY_AON_POWER_READY_N_SHIFT
    STF_DPHY_AON_POWER_READY_N_MASK = 0 ∧
  field_of (readl regs 28) STF_DPHY_RG_CDTX_PLL_SSC_EN_SHIFT
    STF_DPHY_RG_CDTX_PLL_SSC_EN_MASK = 0 ∧
  field_of (readl regs 24) STF_DPHY_RG_CDTX_PLL_LDO_STB_X2_EN_SHIFT
    STF_DPHY_RG_CDTX_PLL_LDO_STB_X2_EN_MASK = 1 ∧
  field_of (readl regs 24) STF_DPHY_RG_CDTX_PLL_FM_EN_SHIFT
    STF_DPHY_RG_CDTX_PLL_FM_EN_MASK = 1 ∧
  field_of (readl regs 24) STF_DPHY_RG_CDTX_PLL_PRE_DIV_SHIFT
    STF_DPHY_RG_CDTX_PLL_PRE_DIV_MASK = p.pll_prev_div ∧
  field_of (readl regs 24) STF_DPHY_RG_CDTX_PLL_FBK_INT_SHIFT
    STF_DPHY_RG_CDTX_PLL_FBK_INT_MASK = p.pll_fbk_int ∧
  field_of (readl regs 20) STF_DPHY_RG_CDTX_PLL_FBK_FRA_SHIFT
    STF_DPHY_RG_CDTX_PLL_FBK_FRA_MASK = p.pll_fbk_fra ∧
  field_of (readl regs 40) STF_DPHY_RG_EXTD_CYCLE_SEL_SHIFT
    STF_DPHY_RG_EXTD_CYCLE_SEL_MASK = p.extd_cycle_sel ∧
  readl regs 36 =
    (p.dlane_hs_zero_time <<< 24 ||| p.dlane_hs_trail_time <<< 16 |||
      p.dlane_hs_pre_time <<< 8 ||| p.clane_hs_zero_time) ∧
  readl regs 32 =
    (p.clane_hs_trail_time <<< 24 ||| p.clane_hs_pre_time <<< 16 |||
      p.clane_hs_clk_pre_time <<< 8 ||| p.clane_hs_clk_post_time)

/-- The table row for 630 MHz (lines 241-243), field by field. -/
def row_630MHz : m31_dphy_config where
  ref_clk := 12000000
  bitrate := 630000000
  pll_prev_div := 0x0
  pll_fbk_int := 0x69
  pll_fbk_fra := 0x0
  extd_cycle_sel := 0x1
  dlane_hs_pre_time := 0x7
  dlane_hs_zero_time := 0x12
  dlane_hs_trail_time := 0xd
  clane_hs_pre_time := 0x5
  clane_hs_zero_time := 0x2a
  clane_hs_trail_time := 0xc
  clane_hs_clk_pre_time := 0x1
  clane_hs_clk_post_time := 0x15

/-- Range bounds of the values of a table row: each fits the field it is
written to. -/
def row_in_range (p : m31_dphy_config) : Prop :=
  p.pll_prev_div < 2 ^ 2 ∧ p.pll_fbk_int < 2 ^ 9 ∧ p.pll_fbk_fra < 2 ^ 24 ∧
  p.extd_cycle_sel < 2 ^ 3 ∧ p.dlane_hs_pre_time < 2 ^ 8 ∧ p.dlane_hs_zero_time < 2 ^ 8 ∧
  p.dlane_hs_trail_time < 2 ^ 8 ∧ p.clane_hs_pre_time < 2 ^ 8 ∧
  p.clane_hs_zero_time < 2 ^ 8 ∧ p.clane_hs_trail_time < 2 ^ 8 ∧
  p.clane_hs_clk_pre_time < 2 ^ 8 ∧ p.clane_hs_clk_post_time < 2 ^ 8

instance (p : m31_dphy_config) : Decidable (row_in_range p) := by
  unfold row_in_range
  infer_instance

/-! ## Resources, device state and trace

The register window changes only through the writes of the driver; the external
resources are modelled at the interface the driver uses.  Every externally
visible action of the driver is recorded in a trace. -/

/-- Modelled from the spec: the kernel errno `EINVAL` (kernel headers, not among
the sources), returned negated for an unsupported mode; its value is 22. -/
def EINVAL : Int := 22

/-- Modelled from the spec: the gating clock `struct clk` of the clock framework
(not among the sources): whether it is enabled, and the result the framework
reports for `clk_prepare_enable` (0 for success, an error code otherwise). -/
structure clk where
  enabled : Bool
  prepare_enable_ret : Int
  deriving DecidableEq

/-- Modelled from the spec: `clk_prepare_enable` of the clock framework (not
among the sources): on success the clock is enabled and 0 is returned, on
failure the error is returned and the clock is as before. -/
def clk_prepare_enable (c : clk) : Int × clk :=
  if c.prepare_enable_ret = 0 then (0, { c with enabled := true })
  else (c.prepare_enable_ret, c)

/-- Modelled from the spec: `clk_disable_unprepare` of the clock framework (not
among the sources): the clock is disabled; there is no result. -/
def clk_disable_unprepare (c : clk) : clk := { c with enabled := false }

/-- Modelled from the spec: the reset line `struct reset_control` of the reset
framework (not among the sources): whether the line is asserted, and the
results the framework reports for assert and deassert. -/
structure reset_control where
  asserted : Bool
  assert_ret : Int
  deassert_ret : Int
  deriving DecidableEq

/-- Modelled from the spec: `reset_control_assert` of the reset framework (not
among the sources): idempotent, can fail; on failure the line is as before. -/
def reset_control_assert (r : reset_control) : Int × reset_control :=
  if r.assert_ret = 0 then (0, { r with asserted := true })
  else (r.assert_ret, r)

/-- Modelled from the spec: `reset_control_deassert` of the reset framework (not
among the sources): idempotent, can fail; on failure the line is as before. -/
def reset_control_deassert (r : reset_control) : Int × reset_control :=
  if r.deassert_ret = 0 then (0, { r with asserted := false })
  else (r.deassert_ret, r)

/-- An externally visible action of the driver. -/
inductive Event where
  | set_reg (addr data shift mask : Nat)
  | pll_lock_test
  | clk_prepare_enable (ret : Int)
  | clk_disable_unprepare
  | reset_control_deassert (ret : Int)
  | reset_control_assert (ret : Int)
  deriving DecidableEq

/-- The driver instance `struct stf_dphy`: the register window, the gating clock
and the reset line, together with the trace of the actions made so far. -/
structure stf_dphy where
  topsys : Regs
  txesc_clk : clk
  sys_rst : reset_control
  trace : List Event

/-- A call `stf_dphy_set_reg(dphy->topsys, ...)`, recorded in the trace. -/
def dphy_set_reg (dphy : stf_dphy) (addr data shift mask : Nat) : stf_dphy :=
  { dphy with
    topsys := stf_dphy_set_reg dphy.topsys addr data shift mask
    trace := dphy.trace ++ [Event.set_reg addr data shift mask] }

/-- The lock test `is_pll_locked` (lines 400-406): `!tmp` for the value read by
`stf_dphy_get_reg`. -/
def is_pll_locked (dphy : stf_dphy) : Int :=
  let tmp := stf_dphy_get_reg dphy.topsys (STF_DPHY_APBIFSAIF_SYSCFG 8)
    STF_DPHY_RGS_CDTX_PLL_UNLOCK_SHIFT STF_DPHY_RGS_CDTX_PLL_UNLOCK_MASK
  if tmp = 0 then 1 else 0

/-- The busy-wait `while ((!is_pll_locked(dphy)));` (lines 414-415), with fuel
for the number of lock tests: `none` when the fuel does not suffice. -/
def pll_lock_poll : Nat → stf_dphy → Option stf_dphy
  | 0, _ => none
  | fuel + 1, dphy =>
    let locked := is_pll_locked dphy
    let dphy := { dphy with trace := dphy.trace ++ [Event.pll_lock_test] }
    if locked = 0 then pll_lock_poll fuel dphy else some dphy

/-- The analog reset `stf_dphy_hw_reset` (lines 408-418): `!assert` is written
to the resetb field, and on deassert the PLL lock is polled. -/
def stf_dphy_hw_reset (fuel : Nat) (dphy : stf_dphy) (assert : Int) : Option stf_dphy :=
  let dphy := dphy_set_reg dphy (STF_DPHY_APBIFSAIF_SYSCFG 100)
    (if assert = 0 then 1 else 0) STF_DPHY_RESETB_SHIFT STF_DPHY_RESETB_MASK
  if assert = 0 then pll_lock_poll fuel dphy
  else some dphy

/-- The callback `stf_dphy_init` (lines 551-579): the result is the return value
and the device state, `none` when the lock poll does not end within the fuel. -/
def stf_dphy_init (fuel : Nat) (dphy : stf_dphy) : Option (Int × stf_dphy) :=
  match stf_dphy_hw_reset fuel dphy 0 with
  | none => none
  | some dphy =>
    let dphy := dphy_set_reg dphy (STF_DPHY_APBIFSAIF_SYSCFG 48) 0
      STF_DPHY_SCFG_PPI_C_READY_SEL_SHIFT STF_DPHY_SCFG_PPI_C_READY_SEL_MASK
    let dphy := dphy_set_reg dphy (STF_DPHY_APBIFSAIF_SYSCFG 48) 0
      STF_DPHY_SCFG_DSI_TXREADY_ESC_SEL_SHIFT STF_DPHY_SCFG_DSI_TXREADY_ESC_SEL_MASK
    let dphy := dphy_set_reg dphy (STF_DPHY_APBIFSAIF_SYSCFG 44) 0x30
      STF_DPHY_SCFG_C_HS_PRE_ZERO_TIME_SHIFT STF_DPHY_SCFG_C_HS_PRE_ZERO_TIME_MASK
    let ret := (clk_prepare_enable dphy.txesc_clk).1
    let dphy := { dphy with
      txesc_clk := (clk_prepare_enable dphy.txesc_clk).2
      trace := dphy.trace ++ [Event.clk_prepare_enable ret] }
    if ret ≠ 0 then some (ret, dphy)
    else
      let ret := (reset_control_deassert dphy.sys_rst).1
      let dphy := { dphy with
        sys_rst := (reset_control_deassert dphy.sys_rst).2
        trace := dphy.trace ++ [Event.reset_control_deassert ret] }
      if ret ≠ 0 then some (ret, dphy)
      else some (0, dphy)

/-- The callback `stf_dphy_exit` (lines 581-597). -/
def stf_dphy_exit (fuel : Nat) (dphy : stf_dphy) : Option (Int × stf_dphy) :=
  let ret := (reset_control_assert dphy.sys_rst).1
  let dphy := { dphy with
    sys_rst := (reset_control_assert dphy.sys_rst).2
    trace := dphy.trace ++ [Event.reset_control_assert ret] }
  if ret ≠ 0 then some (ret, dphy)
  else
    let dphy := { dphy with
      txesc_clk := clk_disable_unprepare dphy.txesc_clk
      trace := dphy.trace ++ [Event.clk_disable_unprepare] }
    match stf_dphy_hw_reset fuel dphy 1 with
    | none => none
    | some dphy => some (0, dphy)

/-- The callback `stf_dphy_validate` (lines 606-613); the value of the enum
constant `PHY_MODE_MIPI_DPHY` (kernel headers, not among the sources) is a
parameter, `opts` stands for the unused `union phy_configure_opts`. -/
def stf_dphy_validate (PHY_MODE_MIPI_DPHY : Int) (mode submode : Int) (opts : Nat) : Int :=
  if mode ≠ PHY_MODE_MIPI_DPHY then -EINVAL
  else 0

/-! ## `stf_dphy_configure` on the device state, with its trace -/

/-- The ten preset writes of `stf_dphy_configure` (lines 431-450), each recorded
in the trace. -/
def hstx_res_presets_traced (dphy : stf_dphy) : stf_dphy :=
  let dphy := dphy_set_reg dphy (STF_DPHY_APBIFSAIF_SYSCFG 8) 0x10
    STF_DPHY_RG_CDTX_L0N_HSTX_RES_SHIFT STF_DPHY_RG_CDTX_L0N_HSTX_RES_MASK
  let dphy := dphy_set_reg dphy (STF_DPHY_APBIFSAIF_SYSCFG 12) 0x10
    STF_DPHY_RG_CDTX_L0N_HSTX_RES_SHIFT STF_DPHY_RG_CDTX_L0N_HSTX_RES_MASK
  let dphy := dphy_set_reg dphy (STF_DPHY_APBIFSAIF_SYSCFG 12) 0x10
    STF_DPHY_RG_CDTX_L2N_HSTX_RES_SHIFT STF_DPHY_RG_CDTX_L2N_HSTX_RES_MASK
  let dphy := dphy_set_reg dphy (STF_DPHY_APBIFSAIF_SYSCFG 12) 0x10
    STF_DPHY_RG_CDTX_L3N_HSTX_RES_SHIFT STF_DPHY_RG_CDTX_L3N_HSTX_RES_MASK
  let dphy := dphy_set_reg dphy (STF_DPHY_APBIFSAIF_SYSCFG 16) 0x10
    STF_DPHY_RG_CDTX_L4N_HSTX_RES_SHIFT STF_DPHY_RG_CDTX_L4N_HSTX_RES_MASK
  let dphy := dphy_set_reg dphy (STF_DPHY_APBIFSAIF_SYSCFG 8) 0x10
    STF_DPHY_RG_CDTX_L0P_HSTX_RES_SHIFT STF_DPHY_RG_CDTX_L0P_HSTX_RES_MASK
  let dphy := dphy_set_reg dphy (STF_DPHY_APBIFSAIF_SYSCFG 12) 0x10
    STF_DPHY_RG_CDTX_L1P_HSTX_RES_SHIFT STF_DPHY_RG_CDTX_L1P_HSTX_RES_MASK
  let dphy := dphy_set_reg dphy (STF_DPHY_APBIFSAIF_SYSCFG 12) 0x10
    STF_DPHY_RG_CDTX_L2P_HSTX_RES_SHIFT STF_DPHY_RG_CDTX_L2P_HSTX_RES_MASK
  let dphy := dphy_set_reg dphy (STF_DPHY_APBIFSAIF_SYSCFG 12) 0x10
    STF_DPHY_RG_CDTX_L3P_HSTX_RES_SHIFT STF_DPHY_RG_CDTX_L3P_HSTX_RES_MASK
  let dphy := dphy_set_reg dphy (STF_DPHY_APBIFSAIF_SYSCFG 16) 0x10
    STF_DPHY_RG_CDTX_L4P_HSTX_RES_SHIFT STF_DPHY_RG_CDTX_L4P_HSTX_RES_MASK
  dphy

/-- The writes of the `if (p->bitrate == bitrate)` branch (lines 459-542), each
recorded in the trace. -/
def program_row_traced (info : stf_dphy_info) (p : m31_dphy_config) (dphy : stf_dphy) : stf_dphy :=
  let dphy := dphy_set_reg dphy (STF_DPHY_APBIFSAIF_SYSCFG 100)
    STF_DPHY_REFCLK_12M STF_DPHY_REFCLK_IN_SEL_SHIFT STF_DPHY_REFCLK_IN_SEL_MASK
  let dphy := dphy_set_reg dphy (STF_DPHY_APBIFSAIF_SYSCFG 0)
    STF_DPHY_AON_POWER_READY_N_ACTIVE STF_DPHY_AON_POWER_READY_N_SHIFT
    STF_DPHY_AON_POWER_READY_N_MASK
  let dphy := dphy_set_reg dphy (STF_DPHY_APBIFSAIF_SYSCFG 0) (info.maps 0)
    STF_DPHY_CFG_L0_SWAP_SEL_SHIFT STF_DPHY_CFG_L0_SWAP_SEL_MASK
  let dphy := dphy_set_reg dphy (STF_DPHY_APBIFSAIF_SYSCFG 0) (info.maps 1)
    STF_DPHY_CFG_L1_SWAP_SEL_SHIFT STF_DPHY_CFG_L1_SWAP_SEL_MASK
  let dphy := dphy_set_reg dphy (STF_DPHY_APBIFSAIF_SYSCFG 0) (info.maps 2)
    STF_DPHY_CFG_L2_SWAP_SEL_SHIFT STF_DPHY_CFG_L2_SWAP_SEL_MASK
  let dphy := dphy_set_reg dphy (STF_DPHY_APBIFSAIF_SYSCFG 0) (info.maps 3)
    STF_DPHY_CFG_L3_SWAP_SEL_SHIFT STF_DPHY_CFG_L3_SWAP_SEL_MASK
  let dphy := dphy_set_reg dphy (STF_DPHY_APBIFSAIF_SYSCFG 0) (info.maps 4)
    STF_DPHY_CFG_L4_SWAP_SEL_SHIFT STF_DPHY_CFG_L4_SWAP_SEL_MASK
  let dphy := dphy_set_reg dphy (STF_DPHY_APBIFSAIF_SYSCFG 28) 0x0
    STF_DPHY_RG_CDTX_PLL_SSC_EN_SHIFT STF_DPHY_RG_CDTX_PLL_SSC_EN_MASK
  let dphy := dphy_set_reg dphy (STF_DPHY_APBIFSAIF_SYSCFG 24) 0x1
    STF_DPHY_RG_CDTX_PLL_LDO_STB_X2_EN_SHIFT STF_DPHY_RG_CDTX_PLL_LDO_STB_X2_EN_MASK
  let dphy := dphy_set_reg dphy (STF_DPHY_APBIFSAIF_SYSCFG 24) 0x1
    STF_DPHY_RG_CDTX_PLL_FM_EN_SHIFT STF_DPHY_RG_CDTX_PLL_FM_EN_MASK
  let dphy := dphy_set_reg dphy (STF_DPHY_APBIFSAIF_SYSCFG 24) p.pll_prev_div
    STF_DPHY_RG_CDTX_PLL_PRE_DIV_SHIFT STF_DPHY_RG_CDTX_PLL_PRE_DIV_MASK
  let dphy := dphy_set_reg dphy (STF_DPHY_APBIFSAIF_SYSCFG 24) p.pll_fbk_int
    STF_DPHY_RG_CDTX_PLL_FBK_INT_SHIFT STF_DPHY_RG_CDTX_PLL_FBK_INT_MASK
  let dphy := dphy_set_reg dphy (STF_DPHY_APBIFSAIF_SYSCFG 20) p.pll_fbk_fra
    STF_DPHY_RG_CDTX_PLL_FBK_FRA_SHIFT STF_DPHY_RG_CDTX_PLL_FBK_FRA_MASK
  let dphy := dphy_set_reg dphy (STF_DPHY_APBIFSAIF_SYSCFG 40) p.extd_cycle_sel
    STF_DPHY_RG_EXTD_CYCLE_SEL_SHIFT STF_DPHY_RG_EXTD_CYCLE_SEL_MASK
  let dphy := dphy_set_reg dphy (STF_DPHY_APBIFSAIF_SYSCFG 36) p.dlane_hs_pre_time
    STF_DPHY_RG_DLANE_HS_PRE_TIME_SHIFT STF_DPHY_RG_DLANE_HS_PRE_TIME_MASK
  let dphy := dphy_set_reg dphy (STF_DPHY_APBIFSAIF_SYSCFG 36) p.dlane_hs_pre_time
    STF_DPHY_RG_DLANE_HS_PRE_TIME_SHIFT STF_DPHY_RG_DLANE_HS_PRE_TIME_MASK
  let dphy := dphy_set_reg dphy (STF_DPHY_APBIFSAIF_SYSCFG 36) p.dlane_hs_zero_time
    STF_DPHY_RG_DLANE_HS_ZERO_TIME_SHIFT STF_DPHY_RG_DLANE_HS_ZERO_TIME_MASK
  let dphy := dphy_set_reg dphy (STF_DPHY_APBIFSAIF_SYSCFG 36) p.dlane_hs_trail_time
    STF_DPHY_RG_DLANE_HS_TRAIL_TIME_SHIFT STF_DPHY_RG_DLANE_HS_TRAIL_TIME_MASK
  let dphy := dphy_set_reg dphy (STF_DPHY_APBIFSAIF_SYSCFG 32) p.clane_hs_pre_time
    STF_DPHY_RG_CLANE_HS_PRE_TIME_SHIFT STF_DPHY_RG_CLANE_HS_PRE_TIME_MASK
  let dphy := dphy_set_reg dphy (STF_DPHY_APBIFSAIF_SYSCFG 36) p.clane_hs_zero_time
    STF_DPHY_RG_CLANE_HS_ZERO_TIME_SHIFT STF_DPHY_RG_CLANE_HS_ZERO_TIME_MASK
  let dphy := dphy_set_reg dphy (STF_DPHY_APBIFSAIF_SYSCFG 32) p.clane_hs_trail_time
    STF_DPHY_RG_CLANE_HS_TRAIL_TIME_SHIFT STF_DPHY_RG_CLANE_HS_TRAIL_TIME_MASK
  let dphy := dphy_set_reg dphy (STF_DPHY_APBIFSAIF_SYSCFG 32) p.clane_hs_clk_pre_time
    STF_DPHY_RG_CLANE_HS_CLK_PRE_TIME_SHIFT STF_DPHY_RG_CLANE_HS_CLK_PRE_TIME_MASK
  let dphy := dphy_set_reg dphy (STF_DPHY_APBIFSAIF_SYSCFG 32) p.clane_hs_clk_post_time
    STF_DPHY_RG_CLANE_HS_CLK_POST_TIME_SHIFT STF_DPHY_RG_CLANE_HS_CLK_POST_TIME_MASK
  dphy

/-- The scan loop (lines 456-546) on the device state. -/
def configure_scan_traced (info : stf_dphy_info) (bitrate : Nat) :
    List m31_dphy_config → stf_dphy → stf_dphy
  | [], dphy => dphy
  | p :: ps, dphy =>
    if p.bitrate = bitrate then program_row_traced info p dphy
    else configure_scan_traced info bitrate ps dphy

/-- The callback `stf_dphy_configure` on the device state: as `stf_dphy_configure`,
with every register write recorded in the trace. -/
def stf_dphy_configure_traced (info : stf_dphy_info) (hs_clk_rate : Nat) (dphy : stf_dphy) :
    Int × stf_dphy :=
  let bitrate := hs_clk_rate % 2 ^ 32
  let dphy := hstx_res_presets_traced dphy
  let bitrate := round_bitrate bitrate
  (0, configure_scan_traced info bitrate m31_dphy_configs dphy)

/-- The field `(offset, shift, mask)` a trace entry writes, for a register write. -/
def event_field : Event → Option (Nat × Nat × Nat)
  | Event.set_reg addr _ shift mask => some (addr, shift, mask)
  | _ => none

/-- The fields a trace writes, in the order of their first write. -/
def first_writes (tr : List Event) : List (Nat × Nat × Nat) :=
  (tr.filterMap event_field).eraseDups

/-- The register state after the four register writes of `stf_dphy_init`: the
resetb write of `stf_dphy_hw_reset(dphy, 0)` and the three strap writes. -/
def init_regs (regs : Regs) : Regs :=
  stf_dphy_set_reg (stf_dphy_set_reg (stf_dphy_set_reg
    (stf_dphy_set_reg regs 100 1 STF_DPHY_RESETB_SHIFT STF_DPHY_RESETB_MASK)
    48 0 STF_DPHY_SCFG_PPI_C_READY_SEL_SHIFT STF_DPHY_SCFG_PPI_C_READY_SEL_MASK)
    48 0 STF_DPHY_SCFG_DSI_TXREADY_ESC_SEL_SHIFT STF_DPHY_SCFG_DSI_TXREADY_ESC_SEL_MASK)
    44 0x30 STF_DPHY_SCFG_C_HS_PRE_ZERO_TIME_SHIFT STF_DPHY_SCFG_C_HS_PRE_ZERO_TIME_MASK

/-- The trace of `stf_dphy_init` up to its last register write, on a device
that passes the lock poll at the first test. -/
def init_writes_trace : List Event :=
  [Event.set_reg 100 1 STF_DPHY_RESETB_SHIFT STF_DPHY_RESETB_MASK,
   Event.pll_lock_test,
   Event.set_reg 48 0 STF_DPHY_SCFG_PPI_C_READY_SEL_SHIFT STF_DPHY_SCFG_PPI_C_READY_SEL_MASK,
   Event.set_reg 48 0 STF_DPHY_SCFG_DSI_TXREADY_ESC_SEL_SHIFT
     STF_DPHY_SCFG_DSI_TXREADY_ESC_SEL_MASK,
   Event.set_reg 44 0x30 STF_DPHY_SCFG_C_HS_PRE_ZERO_TIME_SHIFT
     STF_DPHY_SCFG_C_HS_PRE_ZERO_TIME_MASK]

/-- The order in which the writes for a matching row are to visit the fields
`(offset, shift, mask)`: reference-clock select, AON power-ready, lane
swap-select L0..L4, SSC, LDO stability, frequency modulation, pre-divider,
feedback integer, feedback fraction, extended-cycle select, data-lane HS pre,
zero, trail, clock-lane HS pre, zero, trail, clk-pre, clk-post. -/
def configure_write_order : List (Nat × Nat × Nat) := [
    (100, STF_DPHY_REFCLK_IN_SEL_SHIFT, STF_DPHY_REFCLK_IN_SEL_MASK),
    (0, STF_DPHY_AON_POWER_READY_N_SHIFT, STF_DPHY_AON_POWER_READY_N_MASK),
    (0, STF_DPHY_CFG_L0_SWAP_SEL_SHIFT, STF_DPHY_CFG_L0_SWAP_SEL_MASK),
    (0, STF_DPHY_CFG_L1_SWAP_SEL_SHIFT, STF_DPHY_CFG_L1_SWAP_SEL_MASK),
    (0, STF_DPHY_CFG_L2_SWAP_SEL_SHIFT, STF_DPHY_CFG_L2_SWAP_SEL_MASK),
    (0, STF_DPHY_CFG_L3_SWAP_SEL_SHIFT, STF_DPHY_CFG_L3_SWAP_SEL_MASK),
    (0, STF_DPHY_CFG_L4_SWAP_SEL_SHIFT, STF_DPHY_CFG_L4_SWAP_SEL_MASK),
    (28, STF_DPHY_RG_CDTX_PLL_SSC_EN_SHIFT, STF_DPHY_RG_CDTX_PLL_SSC_EN_MASK),
    (24, STF_DPHY_RG_CDTX_PLL_LDO_STB_X2_EN_SHIFT, STF_DPHY_RG_CDTX_PLL_LDO_STB_X2_EN_MASK),
    (24, STF_DPHY_RG_CDTX_PLL_FM_EN_SHIFT, STF_DPHY_RG_CDTX_PLL_FM_EN_MASK),
    (24, STF_DPHY_RG_CDTX_PLL_PRE_DIV_SHIFT, STF_DPHY_RG_CDTX_PLL_PRE_DIV_MASK),
    (24, STF_DPHY_RG_CDTX_PLL_FBK_INT_SHIFT, STF_DPHY_RG_CDTX_PLL_FBK_INT_MASK),
    (20, STF_DPHY_RG_CDTX_PLL_FBK_FRA_SHIFT, STF_DPHY_RG_CDTX_PLL_FBK_FRA_MASK),
    (40, STF_DPHY_RG_EXTD_CYCLE_SEL_SHIFT, STF_DPHY_RG_EXTD_CYCLE_SEL_MASK),
    (36, STF_DPHY_RG_DLANE_HS_PRE_TIME_SHIFT, STF_DPHY_RG_DLANE_HS_PRE_TIME_MASK),
    (36, STF_DPHY_RG_DLANE_HS_ZERO_TIME_SHIFT, STF_DPHY_RG_DLANE_HS_ZERO_TIME_MASK),
    (36, STF_DPHY_RG_DLANE_HS_TRAIL_TIME_SHIFT, STF_DPHY_RG_DLANE_HS_TRAIL_TIME_MASK),
    (32, STF_DPHY_RG_CLANE_HS_PRE_TIME_SHIFT, STF_DPHY_RG_CLANE_HS_PRE_TIME_MASK),
    (36, STF_DPHY_RG_CLANE_HS_ZERO_TIME_SHIFT, STF_DPHY_RG_CLANE_HS_ZERO_TIME_MASK),
    (32, STF_DPHY_RG_CLANE_HS_TRAIL_TIME_SHIFT, STF_DPHY_RG_CLANE_HS_TRAIL_TIME_MASK),
    (32, STF_DPHY_RG_CLANE_HS_CLK_PRE_TIME_SHIFT, STF_DPHY_RG_CLANE_HS_CLK_PRE_TIME_MASK),
    (32, STF_DPHY_RG_CLANE_HS_CLK_POST_TIME_SHIFT, STF_DPHY_RG_CLANE_HS_CLK_POST_TIME_MASK)]

/-- The register state after the register writes of a trace, made in order. -/
def run_events : List Event → Regs → Regs
  | [], regs => regs
  | Event.set_reg addr data shift mask :: es, regs =>
    run_events es (stf_dphy_set_reg regs addr data shift mask)
  | _ :: es, regs => run_events es regs

/-- The word the writes of a trace to offset `a` make of the word `x`. -/
def word_after : List Event → Nat → Nat → Nat
  | [], _, x => x
  | Event.set_reg addr data shift mask :: es, a, x =>
    if addr = a then word_after es a (rmw_word x data shift mask) else word_after es a x
  | _ :: es, a, x => word_after es a x

/-- Whether a trace writes to offset `a`. -/
def written : List Event → Nat → Bool
  | [], _ => false
  | Event.set_reg addr _ _ _ :: es, a => decide (addr = a) || written es a
  | _ :: es, a => written es a

/-- A map of words that, bit by bit, either keeps the bit of its argument or
sets it to a fixed value. -/
def bit_stable (F : Nat → Nat) : Prop :=
  (∀ x, is_u32 x → is_u32 (F x)) ∧
  ∀ i, (∀ x, is_u32 x → (F x).testBit i = x.testBit i) ∨
    (∃ c, ∀ x, is_u32 x → (F x).testBit i = c)

/-! ## Bit-level lemmas -/

theorem testBit_false_of_lt {x n i : Nat} (hx : x < 2 ^ n) (hi : n ≤ i) :
    x.testBit i = false :=
  Nat.testBit_lt_two_pow (lt_of_lt_of_le hx (Nat.pow_le_pow_right (by decide) hi))

theorem BIT_eq_GENMASK (n : Nat) : BIT n = GENMASK n n := by
  unfold BIT GENMASK
  rw [pow_succ]
  omega

theorem GENMASK_factor (h l : Nat) (hl : l ≤ h + 1) :
    GENMASK h l = 2 ^ l * (2 ^ (h + 1 - l) - 1) := by
  unfold GENMASK
  rw [Nat.mul_sub, ← pow_add, Nat.mul_one]
  congr 2
  omega

theorem testBit_GENMASK (h l i : Nat) (hl : l ≤ h + 1) :
    (GENMASK h l).testBit i = (decide (l ≤ i) && decide (i ≤ h)) := by
  rw [GENMASK_factor h l hl, Nat.testBit_mul_pow_two, Nat.testBit_two_pow_sub_one]
  by_cases h1 : l ≤ i <;> by_cases h2 : i ≤ h <;> simp [h1, h2] <;> omega

theorem GENMASK_lt (h l : Nat) : GENMASK h l < 2 ^ (h + 1) := by
  unfold GENMASK
  have : 0 < 2 ^ l := Nat.two_pow_pos l
  have : 0 < 2 ^ (h + 1) := Nat.two_pow_pos (h + 1)
  omega

theorem testBit_not32 (x i : Nat) :
    (not32 x).testBit i = (decide (i < 32) && !x.testBit i) := by
  unfold not32
  have h : (0xFFFFFFFF : Nat) = 2 ^ 32 - 1 := by decide
  rw [h, Nat.testBit_xor, Nat.testBit_two_pow_sub_one, Nat.testBit_mod_two_pow]
  by_cases h1 : i < 32 <;> simp [h1]

theorem testBit_rmw_word (old data shift mask i : Nat) (hold : old < 2 ^ 32) :
    (rmw_word old data shift mask).testBit i =
      if mask.testBit i then (decide (i < 32) && (decide (shift ≤ i) && data.testBit (i - shift)))
      else old.testBit i := by
  unfold rmw_word
  rw [Nat.testBit_or, Nat.testBit_and, Nat.testBit_and, testBit_not32,
    Nat.testBit_mod_two_pow, Nat.testBit_shiftLeft]
  by_cases hm : mask.testBit i
  · simp [hm]
  · by_cases hi : i < 32
    · simp [hm, hi]
    · simp [hm, hi, testBit_false_of_lt hold (Nat.le_of_not_lt hi)]

theorem rmw_word_lt (old data shift mask : Nat) :
    rmw_word old data shift mask < 2 ^ 32 := by
  apply Nat.lt_pow_two_of_testBit
  intro i hi
  unfold rmw_word
  rw [Nat.testBit_or, Nat.testBit_and, Nat.testBit_and, testBit_not32,
    Nat.testBit_mod_two_pow]
  have : ¬ i < 32 := Nat.not_lt.mpr hi
  simp [this]

theorem readl_lt (regs : Regs) (addr : Nat) : readl regs addr < 2 ^ 32 :=
  Nat.mod_lt _ (Nat.two_pow_pos 32)

theorem is_u32_readl (regs : Regs) (addr : Nat) : is_u32 (readl regs addr) :=
  readl_lt regs addr

theorem is_u32_rmw_word (old data shift mask : Nat) :
    is_u32 (rmw_word old data shift mask) :=
  rmw_word_lt old data shift mask

theorem stf_dphy_set_reg_apply (regs : Regs) (addr data shift mask a : Nat) :
    stf_dphy_set_reg regs addr data shift mask a =
      if a = addr then rmw_word (readl regs addr) data shift mask else regs a := by
  unfold stf_dphy_set_reg writel rmw_word
  by_cases h : a = addr
  · simp only [h, if_true]
    exact Nat.mod_eq_of_lt (rmw_word_lt _ data shift mask)
  · simp only [h, if_false]

theorem readl_set_reg (regs : Regs) (addr data shift mask a : Nat) :
    readl (stf_dphy_set_reg regs addr data shift mask) a =
      if a = addr then rmw_word (readl regs addr) data shift mask else readl regs a := by
  unfold readl
  rw [stf_dphy_set_reg_apply]
  by_cases h : a = addr
  · simp only [h, if_true]
    exact Nat.mod_eq_of_lt (rmw_word_lt _ data shift mask)
  · simp only [h, if_false]

/-- Bits of a rewritten field: inside the field `l..h` the data bit, outside it
the old bit. -/
theorem testBit_rmw_GENMASK (old data h l i : Nat) (hold : is_u32 old)
    (hl : l ≤ h + 1) (hh : h < 32) :
    (rmw_word old data l (GENMASK h l)).testBit i =
      if l ≤ i ∧ i ≤ h then data.testBit (i - l) else old.testBit i := by
  rw [testBit_rmw_word _ _ _ _ _ hold, testBit_GENMASK h l i hl]
  by_cases h1 : l ≤ i <;> by_cases h2 : i ≤ h <;> simp [h1, h2]
  omega

/-- Writing a field leaves every disjoint field of the same word as it was. -/
theorem field_of_rmw_other (old data h l s2 h2 l2 : Nat) (hold : is_u32 old)
    (hl : l ≤ h + 1) (hh : h < 32) (hl2 : l2 ≤ h2 + 1) (hdisj : h < l2 ∨ h2 < l) :
    field_of (rmw_word old data l (GENMASK h l)) s2 (GENMASK h2 l2) =
      field_of old s2 (GENMASK h2 l2) := by
  unfold field_of
  congr 1
  apply Nat.eq_of_testBit_eq
  intro i
  rw [Nat.testBit_and, Nat.testBit_and, testBit_rmw_GENMASK _ _ _ _ _ hold hl hh,
    testBit_GENMASK h2 l2 i hl2]
  by_cases h1 : l ≤ i ∧ i ≤ h
  · have : ¬ (l2 ≤ i ∧ i ≤ h2) := by omega
    by_cases h3 : l2 ≤ i <;> by_cases h4 : i ≤ h2 <;> simp [h1, h3, h4]
    exact absurd ⟨h3, h4⟩ this
  · simp [h1]

/-- Reading back a field just written gives the data truncated to its width. -/
theorem field_of_rmw_same (old data h l : Nat) (hold : is_u32 old)
    (hl : l ≤ h + 1) (hh : h < 32) :
    field_of (rmw_word old data l (GENMASK h l)) l (GENMASK h l) =
      data % 2 ^ (h + 1 - l) := by
  unfold field_of
  apply Nat.eq_of_testBit_eq
  intro i
  rw [Nat.testBit_shiftRight, Nat.testBit_and, testBit_rmw_GENMASK _ _ _ _ _ hold hl hh,
    testBit_GENMASK h l _ hl, Nat.testBit_mod_two_pow]
  by_cases h1 : l + i ≤ h
  · have h2 : i < h + 1 - l := by omega
    simp [h1, h2]
  · have h2 : ¬ i < h + 1 - l := by omega
    simp [h1, h2]

theorem testBit_field_in_place (x h l i : Nat) (hl : l ≤ h + 1) :
    (field_of x l (GENMASK h l) <<< l).testBit i =
      (decide (l ≤ i) && decide (i ≤ h) && x.testBit i) := by
  rw [Nat.testBit_shiftLeft, field_of, Nat.testBit_shiftRight, Nat.testBit_and,
    testBit_GENMASK h l _ hl]
  by_cases h1 : l ≤ i
  · have e : l + (i - l) = i := by omega
    rw [e]
    by_cases h2 : i ≤ h <;> simp [h1, h2]
  · simp [h1]

/-- A 32-bit word is the union of its four byte fields. -/
theorem word_eq_bytes (x : Nat) (hx : is_u32 x) :
    x = field_of x 24 (GENMASK 31 24) <<< 24 ||| field_of x 16 (GENMASK 23 16) <<< 16 |||
      field_of x 8 (GENMASK 15 8) <<< 8 ||| field_of x 0 (GENMASK 7 0) := by
  have e0 : field_of x 0 (GENMASK 7 0) = field_of x 0 (GENMASK 7 0) <<< 0 := by
    rw [Nat.shiftLeft_zero]
  rw [e0]
  apply Nat.eq_of_testBit_eq
  intro i
  rw [Nat.testBit_or, Nat.testBit_or, Nat.testBit_or,
    testBit_field_in_place x 31 24 i (by decide), testBit_field_in_place x 23 16 i (by decide),
    testBit_field_in_place x 15 8 i (by decide), testBit_field_in_place x 7 0 i (by decide)]
  by_cases h32 : i < 32
  · cases hb : x.testBit i
    · simp
    · simp only [Bool.and_true, Bool.or_eq_true, Bool.and_eq_true, decide_eq_true_eq]
      apply Eq.symm
      simp only [Bool.or_eq_true, Bool.and_eq_true, decide_eq_true_eq]
      omega
  · have : x.testBit i = false := testBit_false_of_lt hx (Nat.le_of_not_lt h32)
    simp [this]

theorem table_rows_in_range : ∀ p ∈ m31_dphy_configs, row_in_range p := by
  decide

theorem scan_match_some {b : Nat} {p : m31_dphy_config} :
    ∀ {t : List m31_dphy_config}, scan_match b t = some p → p ∈ t ∧ p.bitrate = b := by
  intro t
  induction t with
  | nil => intro h; simp [scan_match] at h
  | cons q qs ih =>
    intro h
    unfold scan_match at h
    by_cases hq : q.bitrate = b
    · simp only [hq, if_true, Option.some.injEq] at h
      subst h
      exact ⟨List.mem_cons_self _ _, hq⟩
    · simp only [hq, if_false] at h
      exact ⟨List.mem_cons_of_mem _ (ih h).1, (ih h).2⟩

theorem scan_match_none {b : Nat} :
    ∀ {t : List m31_dphy_config}, scan_match b t = none ↔ ∀ p ∈ t, p.bitrate ≠ b := by
  intro t
  induction t with
  | nil => simp [scan_match]
  | cons q qs ih =>
    unfold scan_match
    by_cases hq : q.bitrate = b
    · simp [hq]
    · simp [hq, ih]

/-- The scan loop programs exactly the row found by `scan_match`. -/
theorem configure_scan_eq (info : stf_dphy_info) (b : Nat) (regs : Regs) :
    ∀ t : List m31_dphy_config, configure_scan info b t regs =
      match scan_match b t with
      | some p => program_row info p regs
      | none => regs := by
  intro t
  induction t with
  | nil => simp [configure_scan, scan_match]
  | cons q qs ih =>
    unfold configure_scan scan_match
    by_cases hq : q.bitrate = b
    · simp [hq]
    · simp [hq, ih]

theorem SSC_EN_MASK_eq : STF_DPHY_RG_CDTX_PLL_SSC_EN_MASK = GENMASK 18 18 := by
  decide

/-- What the registers hold after the writes made for a matching row. -/
theorem program_row_readback (info : stf_dphy_info) (p : m31_dphy_config) (regs : Regs)
    (hp : row_in_range p) :
    field_of (readl (program_row info p regs) 100) STF_DPHY_REFCLK_IN_SEL_SHIFT
        STF_DPHY_REFCLK_IN_SEL_MASK = 1 ∧
    field_of (readl (program_row info p regs) 0) STF_DPHY_AON_POWER_READY_N_SHIFT
        STF_DPHY_AON_POWER_READY_N_MASK = 0 ∧
    field_of (readl (program_row info p regs) 28) STF_DPHY_RG_CDTX_PLL_SSC_EN_SHIFT
        STF_DPHY_RG_CDTX_PLL_SSC_EN_MASK = 0 ∧
    field_of (readl (program_row info p regs) 24) STF_DPHY_RG_CDTX_PLL_LDO_STB_X2_EN_SHIFT
        STF_DPHY_RG_CDTX_PLL_LDO_STB_X2_EN_MASK = 1 ∧
    field_of (readl (program_row info p regs) 24) STF_DPHY_RG_CDTX_PLL_FM_EN_SHIFT
        STF_DPHY_RG_CDTX_PLL_FM_EN_MASK = 1 ∧
    field_of (readl (program_row info p regs) 24) STF_DPHY_RG_CDTX_PLL_PRE_DIV_SHIFT
        STF_DPHY_RG_CDTX_PLL_PRE_DIV_MASK = p.pll_prev_div ∧
    field_of (readl (program_row info p regs) 24) STF_DPHY_RG_CDTX_PLL_FBK_INT_SHIFT
        STF_DPHY_RG_CDTX_PLL_FBK_INT_MASK = p.pll_fbk_int ∧
    field_of (readl (program_row info p regs) 20) STF_DPHY_RG_CDTX_PLL_FBK_FRA_SHIFT
        STF_DPHY_RG_CDTX_PLL_FBK_FRA_MASK = p.pll_fbk_fra ∧
    field_of (readl (program_row info p regs) 40) STF_DPHY_RG_EXTD_CYCLE_SEL_SHIFT
        STF_DPHY_RG_EXTD_CYCLE_SEL_MASK = p.extd_cycle_sel := by
  obtain ⟨h1, h2, h3, h4, -⟩ := hp
  have e1 := Nat.mod_eq_of_lt h1
  have e2 := Nat.mod_eq_of_lt h2
  have e3 := Nat.mod_eq_of_lt h3
  have e4 := Nat.mod_eq_of_lt h4
  simp only [program_row, readl_set_reg, STF_DPHY_APBIFSAIF_SYSCFG, SSC_EN_MASK_eq,
    BIT_eq_GENMASK, STF_DPHY_AON_POWER_READY_N_ACTIVE, STF_DPHY_AON_POWER_READY_N_SHIFT, STF_DPHY_AON_POWER_READY_N_MASK, STF_DPHY_CFG_L0_SWAP_SEL_SHIFT, STF_DPHY_CFG_L0_SWAP_SEL_MASK, STF_DPHY_CFG_L1_SWAP_SEL_SHIFT, STF_DPHY_CFG_L1_SWAP_SEL_MASK, STF_DPHY_CFG_L2_SWAP_SEL_SHIFT, STF_DPHY_CFG_L2_SWAP_SEL_MASK, STF_DPHY_CFG_L3_SWAP_SEL_SHIFT, STF_DPHY_CFG_L3_SWAP_SEL_MASK, STF_DPHY_CFG_L4_SWAP_SEL_SHIFT, STF_DPHY_CFG_L4_SWAP_SEL_MASK, STF_DPHY_RGS_CDTX_PLL_UNLOCK_SHIFT, STF_DPHY_RGS_CDTX_PLL_UNLOCK_MASK, STF_DPHY_RG_CDTX_L0N_HSTX_RES_SHIFT, STF_DPHY_RG_CDTX_L0N_HSTX_RES_MASK, STF_DPHY_RG_CDTX_L0P_HSTX_RES_SHIFT, STF_DPHY_RG_CDTX_L0P_HSTX_RES_MASK, STF_DPHY_RG_CDTX_L1P_HSTX_RES_SHIFT, STF_DPHY_RG_CDTX_L1P_HSTX_RES_MASK, STF_DPHY_RG_CDTX_L2N_HSTX_RES_SHIFT, STF_DPHY_RG_CDTX_L2N_HSTX_RES_MASK, STF_DPHY_RG_CDTX_L2P_HSTX_RES_SHIFT, STF_DPHY_RG_CDTX_L2P_HSTX_RES_MASK, STF_DPHY_RG_CDTX_L3N_HSTX_RES_SHIFT, STF_DPHY_RG_CDTX_L3N_HSTX_RES_MASK, STF_DPHY_RG_CDTX_L3P_HSTX_RES_SHIFT, STF_DPHY_RG_CDTX_L3P_HSTX_RES_MASK, STF_DPHY_RG_CDTX_L4N_HSTX_RES_SHIFT, STF_DPHY_RG_CDTX_L4N_HSTX_RES_MASK, STF_DPHY_RG_CDTX_L4P_HSTX_RES_SHIFT, STF_DPHY_RG_CDTX_L4P_HSTX_RES_MASK, STF_DPHY_RG_CDTX_PLL_FBK_FRA_SHIFT, STF_DPHY_RG_CDTX_PLL_FBK_FRA_MASK, STF_DPHY_RG_CDTX_PLL_FBK_INT_SHIFT, STF_DPHY_RG_CDTX_PLL_FBK_INT_MASK, STF_DPHY_RG_CDTX_PLL_FM_EN_SHIFT, STF_DPHY_RG_CDTX_PLL_FM_EN_MASK, STF_DPHY_RG_CDTX_PLL_LDO_STB_X2_EN_SHIFT, STF_DPHY_RG_CDTX_PLL_LDO_STB_X2_EN_MASK, STF_DPHY_RG_CDTX_PLL_PRE_DIV_SHIFT, STF_DPHY_RG_CDTX_PLL_PRE_DIV_MASK, STF_DPHY_RG_CDTX_PLL_SSC_EN_SHIFT, STF_DPHY_RG_CLANE_HS_CLK_POST_TIME_SHIFT, STF_DPHY_RG_CLANE_HS_CLK_POST_TIME_MASK, STF_DPHY_RG_CLANE_HS_CLK_PRE_TIME_SHIFT, STF_DPHY_RG_CLANE_HS_CLK_PRE_TIME_MASK, STF_DPHY_RG_CLANE_HS_PRE_TIME_SHIFT, STF_DPHY_RG_CLANE_HS_PRE_TIME_MASK, STF_DPHY_RG_CLANE_HS_TRAIL_TIME_SHIFT, STF_DPHY_RG_CLANE_HS_TRAIL_TIME_MASK, STF_DPHY_RG_CLANE_HS_ZERO_TIME_SHIFT, STF_DPHY_RG_CLANE_HS_ZERO_TIME_MASK, STF_DPHY_RG_DLANE_HS_PRE_TIME_SHIFT, STF_DPHY_RG_DLANE_HS_PRE_TIME_MASK, STF_DPHY_RG_DLANE_HS_TRAIL_TIME_SHIFT, STF_DPHY_RG_DLANE_HS_TRAIL_TIME_MASK, STF_DPHY_RG_DLANE_HS_ZERO_TIME_SHIFT, STF_DPHY_RG_DLANE_HS_ZERO_TIME_MASK, STF_DPHY_RG_EXTD_CYCLE_SEL_SHIFT, STF_DPHY_RG_EXTD_CYCLE_SEL_MASK, STF_DPHY_SCFG_C_HS_PRE_ZERO_TIME_SHIFT, STF_DPHY_SCFG_C_HS_PRE_ZERO_TIME_MASK, STF_DPHY_SCFG_DSI_TXREADY_ESC_SEL_SHIFT, STF_DPHY_SCFG_DSI_TXREADY_ESC_SEL_MASK, STF_DPHY_SCFG_PPI_C_READY_SEL_SHIFT, STF_DPHY_SCFG_PPI_C_READY_SEL_MASK, STF_DPHY_REFCLK_IN_SEL_SHIFT, STF_DPHY_REFCLK_IN_SEL_MASK, STF_DPHY_RESETB_SHIFT, STF_DPHY_RESETB_MASK, STF_DPHY_REFCLK_12M]
  simp [field_of_rmw_same, field_of_rmw_other, is_u32_readl, is_u32_rmw_word] at e1 e2 e3 e4 ⊢
  simp [e1, e2, e3, e4]

/-- The two HS timing words after the writes made for a matching row. -/
theorem program_row_timing_words (info : stf_dphy_info) (p : m31_dphy_config) (regs : Regs)
    (hp : row_in_range p) :
    readl (program_row info p regs) 36 =
      (p.dlane_hs_zero_time <<< 24 ||| p.dlane_hs_trail_time <<< 16 |||
        p.dlane_hs_pre_time <<< 8 ||| p.clane_hs_zero_time) ∧
    readl (program_row info p regs) 32 =
      (p.clane_hs_trail_time <<< 24 ||| p.clane_hs_pre_time <<< 16 |||
        p.clane_hs_clk_pre_time <<< 8 ||| p.clane_hs_clk_post_time) := by
  obtain ⟨-, -, -, -, h5, h6, h7, h8, h9, h10, h11, h12⟩ := hp
  have e5 : p.dlane_hs_pre_time % 256 = p.dlane_hs_pre_time := Nat.mod_eq_of_lt h5
  have e6 : p.dlane_hs_zero_time % 256 = p.dlane_hs_zero_time := Nat.mod_eq_of_lt h6
  have e7 : p.dlane_hs_trail_time % 256 = p.dlane_hs_trail_time := Nat.mod_eq_of_lt h7
  have e8 : p.clane_hs_pre_time % 256 = p.clane_hs_pre_time := Nat.mod_eq_of_lt h8
  have e9 : p.clane_hs_zero_time % 256 = p.clane_hs_zero_time := Nat.mod_eq_of_lt h9
  have e10 : p.clane_hs_trail_time % 256 = p.clane_hs_trail_time := Nat.mod_eq_of_lt h10
  have e11 : p.clane_hs_clk_pre_time % 256 = p.clane_hs_clk_pre_time := Nat.mod_eq_of_lt h11
  have e12 : p.clane_hs_clk_post_time % 256 = p.clane_hs_clk_post_time :=
    Nat.mod_eq_of_lt h12
  constructor
  · refine (word_eq_bytes _ (is_u32_readl _ _)).trans ?_
    simp only [program_row, readl_set_reg, STF_DPHY_APBIFSAIF_SYSCFG, SSC_EN_MASK_eq,
      BIT_eq_GENMASK, STF_DPHY_AON_POWER_READY_N_ACTIVE, STF_DPHY_AON_POWER_READY_N_SHIFT, STF_DPHY_AON_POWER_READY_N_MASK, STF_DPHY_CFG_L0_SWAP_SEL_SHIFT, STF_DPHY_CFG_L0_SWAP_SEL_MASK, STF_DPHY_CFG_L1_SWAP_SEL_SHIFT, STF_DPHY_CFG_L1_SWAP_SEL_MASK, STF_DPHY_CFG_L2_SWAP_SEL_SHIFT, STF_DPHY_CFG_L2_SWAP_SEL_MASK, STF_DPHY_CFG_L3_SWAP_SEL_SHIFT, STF_DPHY_CFG_L3_SWAP_SEL_MASK, STF_DPHY_CFG_L4_SWAP_SEL_SHIFT, STF_DPHY_CFG_L4_SWAP_SEL_MASK, STF_DPHY_RGS_CDTX_PLL_UNLOCK_SHIFT, STF_DPHY_RGS_CDTX_PLL_UNLOCK_MASK, STF_DPHY_RG_CDTX_L0N_HSTX_RES_SHIFT, STF_DPHY_RG_CDTX_L0N_HSTX_RES_MASK, STF_DPHY_RG_CDTX_L0P_HSTX_RES_SHIFT, STF_DPHY_RG_CDTX_L0P_HSTX_RES_MASK, STF_DPHY_RG_CDTX_L1P_HSTX_RES_SHIFT, STF_DPHY_RG_CDTX_L1P_HSTX_RES_MASK, STF_DPHY_RG_CDTX_L2N_HSTX_RES_SHIFT, STF_DPHY_RG_CDTX_L2N_HSTX_RES_MASK, STF_DPHY_RG_CDTX_L2P_HSTX_RES_SHIFT, STF_DPHY_RG_CDTX_L2P_HSTX_RES_MASK, STF_DPHY_RG_CDTX_L3N_HSTX_RES_SHIFT, STF_DPHY_RG_CDTX_L3N_HSTX_RES_MASK, STF_DPHY_RG_CDTX_L3P_HSTX_RES_SHIFT, STF_DPHY_RG_CDTX_L3P_HSTX_RES_MASK, STF_DPHY_RG_CDTX_L4N_HSTX_RES_SHIFT, STF_DPHY_RG_CDTX_L4N_HSTX_RES_MASK, STF_DPHY_RG_CDTX_L4P_HSTX_RES_SHIFT, STF_DPHY_RG_CDTX_L4P_HSTX_RES_MASK, STF_DPHY_RG_CDTX_PLL_FBK_FRA_SHIFT, STF_DPHY_RG_CDTX_PLL_FBK_FRA_MASK, STF_DPHY_RG_CDTX_PLL_FBK_INT_SHIFT, STF_DPHY_RG_CDTX_PLL_FBK_INT_MASK, STF_DPHY_RG_CDTX_PLL_FM_EN_SHIFT, STF_DPHY_RG_CDTX_PLL_FM_EN_MASK, STF_DPHY_RG_CDTX_PLL_LDO_STB_X2_EN_SHIFT, STF_DPHY_RG_CDTX_PLL_LDO_STB_X2_EN_MASK, STF_DPHY_RG_CDTX_PLL_PRE_DIV_SHIFT, STF_DPHY_RG_CDTX_PLL_PRE_DIV_MASK, STF_DPHY_RG_CDTX_PLL_SSC_EN_SHIFT, STF_DPHY_RG_CLANE_HS_CLK_POST_TIME_SHIFT, STF_DPHY_RG_CLANE_HS_CLK_POST_TIME_MASK, STF_DPHY_RG_CLANE_HS_CLK_PRE_TIME_SHIFT, STF_DPHY_RG_CLANE_HS_CLK_PRE_TIME_MASK, STF_DPHY_RG_CLANE_HS_PRE_TIME_SHIFT, STF_DPHY_RG_CLANE_HS_PRE_TIME_MASK, STF_DPHY_RG_CLANE_HS_TRAIL_TIME_SHIFT, STF_DPHY_RG_CLANE_HS_TRAIL_TIME_MASK, STF_DPHY_RG_CLANE_HS_ZERO_TIME_SHIFT, STF_DPHY_RG_CLANE_HS_ZERO_TIME_MASK, STF_DPHY_RG_DLANE_HS_PRE_TIME_SHIFT, STF_DPHY_RG_DLANE_HS_PRE_TIME_MASK, STF_DPHY_RG_DLANE_HS_TRAIL_TIME_SHIFT, STF_DPHY_RG_DLANE_HS_TRAIL_TIME_MASK, STF_DPHY_RG_DLANE_HS_ZERO_TIME_SHIFT, STF_DPHY_RG_DLANE_HS_ZERO_TIME_MASK, STF_DPHY_RG_EXTD_CYCLE_SEL_SHIFT, STF_DPHY_RG_EXTD_CYCLE_SEL_MASK, STF_DPHY_SCFG_C_HS_PRE_ZERO_TIME_SHIFT, STF_DPHY_SCFG_C_HS_PRE_ZERO_TIME_MASK, STF_DPHY_SCFG_DSI_TXREADY_ESC_SEL_SHIFT, STF_DPHY_SCFG_DSI_TXREADY_ESC_SEL_MASK, STF_DPHY_SCFG_PPI_C_READY_SEL_SHIFT, STF_DPHY_SCFG_PPI_C_READY_SEL_MASK, STF_DPHY_REFCLK_IN_SEL_SHIFT, STF_DPHY_REFCLK_IN_SEL_MASK, STF_DPHY_RESETB_SHIFT, STF_DPHY_RESETB_MASK, STF_DPHY_REFCLK_12M]
    simp [field_of_rmw_same, field_of_rmw_other, is_u32_readl, is_u32_rmw_word]
    rw [e5, e6, e7, e9]
  · refine (word_eq_bytes _ (is_u32_readl _ _)).trans ?_
    simp only [program_row, readl_set_reg, STF_DPHY_APBIFSAIF_SYSCFG, SSC_EN_MASK_eq,
      BIT_eq_GENMASK, STF_DPHY_AON_POWER_READY_N_ACTIVE, STF_DPHY_AON_POWER_READY_N_SHIFT, STF_DPHY_AON_POWER_READY_N_MASK, STF_DPHY_CFG_L0_SWAP_SEL_SHIFT, STF_DPHY_CFG_L0_SWAP_SEL_MASK, STF_DPHY_CFG_L1_SWAP_SEL_SHIFT, STF_DPHY_CFG_L1_SWAP_SEL_MASK, STF_DPHY_CFG_L2_SWAP_SEL_SHIFT, STF_DPHY_CFG_L2_SWAP_SEL_MASK, STF_DPHY_CFG_L3_SWAP_SEL_SHIFT, STF_DPHY_CFG_L3_SWAP_SEL_MASK, STF_DPHY_CFG_L4_SWAP_SEL_SHIFT, STF_DPHY_CFG_L4_SWAP_SEL_MASK, STF_DPHY_RGS_CDTX_PLL_UNLOCK_SHIFT, STF_DPHY_RGS_CDTX_PLL_UNLOCK_MASK, STF_DPHY_RG_CDTX_L0N_HSTX_RES_SHIFT, STF_DPHY_RG_CDTX_L0N_HSTX_RES_MASK, STF_DPHY_RG_CDTX_L0P_HSTX_RES_SHIFT, STF_DPHY_RG_CDTX_L0P_HSTX_RES_MASK, STF_DPHY_RG_CDTX_L1P_HSTX_RES_SHIFT, STF_DPHY_RG_CDTX_L1P_HSTX_RES_MASK, STF_DPHY_RG_CDTX_L2N_HSTX_RES_SHIFT, STF_DPHY_RG_CDTX_L2N_HSTX_RES_MASK, STF_DPHY_RG_CDTX_L2P_HSTX_RES_SHIFT, STF_DPHY_RG_CDTX_L2P_HSTX_RES_MASK, STF_DPHY_RG_CDTX_L3N_HSTX_RES_SHIFT, STF_DPHY_RG_CDTX_L3N_HSTX_RES_MASK, STF_DPHY_RG_CDTX_L3P_HSTX_RES_SHIFT, STF_DPHY_RG_CDTX_L3P_HSTX_RES_MASK, STF_DPHY_RG_CDTX_L4N_HSTX_RES_SHIFT, STF_DPHY_RG_CDTX_L4N_HSTX_RES_MASK, STF_DPHY_RG_CDTX_L4P_HSTX_RES_SHIFT, STF_DPHY_RG_CDTX_L4P_HSTX_RES_MASK, STF_DPHY_RG_CDTX_PLL_FBK_FRA_SHIFT, STF_DPHY_RG_CDTX_PLL_FBK_FRA_MASK, STF_DPHY_RG_CDTX_PLL_FBK_INT_SHIFT, STF_DPHY_RG_CDTX_PLL_FBK_INT_MASK, STF_DPHY_RG_CDTX_PLL_FM_EN_SHIFT, STF_DPHY_RG_CDTX_PLL_FM_EN_MASK, STF_DPHY_RG_CDTX_PLL_LDO_STB_X2_EN_SHIFT, STF_DPHY_RG_CDTX_PLL_LDO_STB_X2_EN_MASK, STF_DPHY_RG_CDTX_PLL_PRE_DIV_SHIFT, STF_DPHY_RG_CDTX_PLL_PRE_DIV_MASK, STF_DPHY_RG_CDTX_PLL_SSC_EN_SHIFT, STF_DPHY_RG_CLANE_HS_CLK_POST_TIME_SHIFT, STF_DPHY_RG_CLANE_HS_CLK_POST_TIME_MASK, STF_DPHY_RG_CLANE_HS_CLK_PRE_TIME_SHIFT, STF_DPHY_RG_CLANE_HS_CLK_PRE_TIME_MASK, STF_DPHY_RG_CLANE_HS_PRE_TIME_SHIFT, STF_DPHY_RG_CLANE_HS_PRE_TIME_MASK, STF_DPHY_RG_CLANE_HS_TRAIL_TIME_SHIFT, STF_DPHY_RG_CLANE_HS_TRAIL_TIME_MASK, STF_DPHY_RG_CLANE_HS_ZERO_TIME_SHIFT, STF_DPHY_RG_CLANE_HS_ZERO_TIME_MASK, STF_DPHY_RG_DLANE_HS_PRE_TIME_SHIFT, STF_DPHY_RG_DLANE_HS_PRE_TIME_MASK, STF_DPHY_RG_DLANE_HS_TRAIL_TIME_SHIFT, STF_DPHY_RG_DLANE_HS_TRAIL_TIME_MASK, STF_DPHY_RG_DLANE_HS_ZERO_TIME_SHIFT, STF_DPHY_RG_DLANE_HS_ZERO_TIME_MASK, STF_DPHY_RG_EXTD_CYCLE_SEL_SHIFT, STF_DPHY_RG_EXTD_CYCLE_SEL_MASK, STF_DPHY_SCFG_C_HS_PRE_ZERO_TIME_SHIFT, STF_DPHY_SCFG_C_HS_PRE_ZERO_TIME_MASK, STF_DPHY_SCFG_DSI_TXREADY_ESC_SEL_SHIFT, STF_DPHY_SCFG_DSI_TXREADY_ESC_SEL_MASK, STF_DPHY_SCFG_PPI_C_READY_SEL_SHIFT, STF_DPHY_SCFG_PPI_C_READY_SEL_MASK, STF_DPHY_REFCLK_IN_SEL_SHIFT, STF_DPHY_REFCLK_IN_SEL_MASK, STF_DPHY_RESETB_SHIFT, STF_DPHY_RESETB_MASK, STF_DPHY_REFCLK_12M]
    simp [field_of_rmw_same, field_of_rmw_other, is_u32_readl, is_u32_rmw_word]
    rw [e8, e10, e11, e12]

/-- Every table bitrate lies between 160 MHz and 1000 MHz. -/
theorem table_bitrate_bounds :
    ∀ p ∈ m31_dphy_configs, 160000000 ≤ p.bitrate ∧ p.bitrate ≤ 1000000000 := by
  decide

/-- The two bands of 10 MHz steps the table has rows for. -/
theorem scan_match_steps (k : Nat) (hk : (16 ≤ k ∧ k ≤ 20) ∨ (32 ≤ k ∧ k ≤ 100)) :
    (scan_match (10000000 * k) m31_dphy_configs).isSome = true := by
  rcases hk with ⟨h1, h2⟩ | ⟨h1, h2⟩ <;> interval_cases k <;> decide

theorem round_bitrate_of_multiple (r : Nat) (h : r % 10000000 = 0) : round_bitrate r = r := by
  simp [round_bitrate, STF_DPHY_BITRATE_ALIGN, h]

theorem round_bitrate_of_le (r : Nat) (hr : r ≤ 4290000000) (h : r % 10000000 ≠ 0) :
    round_bitrate r = r + (10000000 - r % 10000000) := by
  simp only [round_bitrate, STF_DPHY_BITRATE_ALIGN, h, ne_eq, not_false_eq_true, if_true]
  apply Nat.mod_eq_of_lt
  omega

/-- What `stf_dphy_configure` computes, in terms of its three stages. -/
theorem stf_dphy_configure_eq (info : stf_dphy_info) (r : Nat) (regs : Regs) :
    stf_dphy_configure info r regs =
      (0, configure_scan info (round_bitrate (r % 2 ^ 32)) m31_dphy_configs
        (hstx_res_presets regs)) := rfl

/-! ## Bit-rate selection -/

/-- C1 (as stated, refuted): 210 MHz is a multiple of 10 MHz inside
[160 MHz, 1000 MHz], yet the scan of `stf_dphy_configure` finds no row for it. -/
theorem C1_gap_210MHz_no_row :
    160000000 ≤ 210000000 ∧ 210000000 ≤ 1000000000 ∧ 210000000 % 10000000 = 0 ∧
    scan_match (round_bitrate (210000000 % 2 ^ 32)) m31_dphy_configs = none := by
  decide

/-- C1 (amended): for every requested bit rate that is a multiple of 10 MHz in
[160 MHz, 200 MHz] or in [320 MHz, 1000 MHz], the scan of `stf_dphy_configure`
finds a row whose bitrate equals the requested bit rate. -/
theorem C1_multiple_in_band_finds_row (r : Nat) (hmul : r % 10000000 = 0)
    (hband : (160000000 ≤ r ∧ r ≤ 200000000) ∨ (320000000 ≤ r ∧ r ≤ 1000000000)) :
    ∃ p, scan_match (round_bitrate (r % 2 ^ 32)) m31_dphy_configs = some p ∧
      p.bitrate = r := by
  have h32 : r % 2 ^ 32 = r := Nat.mod_eq_of_lt (by omega)
  rw [h32, round_bitrate_of_multiple r hmul]
  obtain ⟨k, rfl⟩ := Nat.dvd_of_mod_eq_zero hmul
  have hs := scan_match_steps k (by omega)
  obtain ⟨p, hp⟩ := Option.isSome_iff_exists.mp hs
  exact ⟨p, hp, (scan_match_some hp).2⟩

theorem C1_multiple_in_band_finds_row_witness :
    ∃ p, scan_match (round_bitrate (630000000 % 2 ^ 32)) m31_dphy_configs = some p ∧
      p.bitrate = 630000000 :=
  C1_multiple_in_band_finds_row 630000000 (by decide) (by decide)

/-- C2 (as stated, refuted): the `u32` value 4294967295 is not a multiple of
10 MHz, and the value `stf_dphy_configure` looks up for it is 5032704, not
4294967295 + (10000000 - 4294967295 mod 10000000) = 4300000000. -/
theorem C2_round_wraps_at_u32_max :
    4294967295 < 2 ^ 32 ∧ 4294967295 % 10000000 ≠ 0 ∧
    round_bitrate (4294967295 % 2 ^ 32) = 5032704 ∧
    round_bitrate (4294967295 % 2 ^ 32) ≠
      4294967295 + (10000000 - 4294967295 % 10000000) := by
  decide

/-- C2 (amended): for every requested bit rate `r <= 4290000000` (this covers
every `u32` multiple of 10 MHz), `stf_dphy_configure` runs its table scan on
`r` itself when `r` is a multiple of 10 MHz and on
`r + (10000000 - r mod 10000000)` otherwise; that value is the least multiple
of 10 MHz not below `r`; and a request of 163000000 selects the 170000000 row. -/
theorem C2_round_up_to_next_multiple (info : stf_dphy_info) (regs : Regs) (r : Nat)
    (hr : r ≤ 4290000000) :
    stf_dphy_configure info r regs =
      (0, configure_scan info
        (if r % 10000000 = 0 then r else r + (10000000 - r % 10000000))
        m31_dphy_configs (hstx_res_presets regs)) ∧
    (if r % 10000000 = 0 then r else r + (10000000 - r % 10000000)) % 10000000 = 0 ∧
    r ≤ (if r % 10000000 = 0 then r else r + (10000000 - r % 10000000)) ∧
    (if r % 10000000 = 0 then r else r + (10000000 - r % 10000000)) < r + 10000000 ∧
    (∃ p, scan_match (round_bitrate (163000000 % 2 ^ 32)) m31_dphy_configs = some p ∧
      p.bitrate = 170000000) := by
  have h32 : r % 2 ^ 32 = r := Nat.mod_eq_of_lt (by omega)
  have hex : ∃ p, scan_match (round_bitrate (163000000 % 2 ^ 32)) m31_dphy_configs = some p ∧
      p.bitrate = 170000000 := by
    have hs : (scan_match (round_bitrate (163000000 % 2 ^ 32)) m31_dphy_configs).isSome
        = true := by decide
    obtain ⟨p, hp⟩ := Option.isSome_iff_exists.mp hs
    exact ⟨p, hp, (scan_match_some hp).2.trans (by decide)⟩
  by_cases hmul : r % 10000000 = 0
  · simp only [hmul, if_true]
    refine ⟨?_, trivial, Nat.le_refl r, by omega, hex⟩
    rw [stf_dphy_configure_eq, h32, round_bitrate_of_multiple r hmul]
  · simp only [hmul, if_false]
    refine ⟨?_, by omega, by omega, by omega, hex⟩
    rw [stf_dphy_configure_eq, h32, round_bitrate_of_le r hr hmul]

theorem C2_round_up_to_next_multiple_witness :
    163000000 ≤ 4290000000 ∧
    stf_dphy_configure starfive_dphy_info 163000000 (fun _ => 0) =
      (0, configure_scan starfive_dphy_info
        (if 163000000 % 10000000 = 0 then 163000000
          else 163000000 + (10000000 - 163000000 % 10000000))
        m31_dphy_configs (hstx_res_presets (fun _ => 0))) :=
  ⟨by decide, (C2_round_up_to_next_multiple starfive_dphy_info (fun _ => 0) 163000000
    (by decide)).1⟩

/-- With a matching row `p`, `stf_dphy_configure` ends in the state `program_row`
leaves after the presets. -/
theorem stf_dphy_configure_of_match (info : stf_dphy_info) (r : Nat) (regs : Regs)
    (p : m31_dphy_config)
    (hm : scan_match (round_bitrate (r % 2 ^ 32)) m31_dphy_configs = some p) :
    stf_dphy_configure info r regs = (0, program_row info p (hstx_res_presets regs)) := by
  rw [stf_dphy_configure_eq, configure_scan_eq, hm]

/-- With no matching row, `stf_dphy_configure` ends in the state the presets leave. -/
theorem stf_dphy_configure_of_no_match (info : stf_dphy_info) (r : Nat) (regs : Regs)
    (hm : scan_match (round_bitrate (r % 2 ^ 32)) m31_dphy_configs = none) :
    stf_dphy_configure info r regs = (0, hstx_res_presets regs) := by
  rw [stf_dphy_configure_eq, configure_scan_eq, hm]

/-! ## Register programming -/

/-- The state `program_row` leaves holds the row. -/
theorem program_row_programmed (info : stf_dphy_info) (p : m31_dphy_config) (regs : Regs)
    (hp : row_in_range p) : row_programmed (program_row info p regs) p := by
  obtain ⟨f1, f2, f3, f4, f5, f6, f7, f8, f9⟩ := program_row_readback info p regs hp
  obtain ⟨w1, w2⟩ := program_row_timing_words info p regs hp
  exact ⟨f1, f2, f3, f4, f5, f6, f7, f8, f9, w1, w2⟩

theorem scan_match_630MHz :
    scan_match (round_bitrate (630000000 % 2 ^ 32)) m31_dphy_configs = some row_630MHz := by
  decide

/-- C3: for every initial register state, every lane map with entries in 0..4
and every requested bit rate whose rounded value matches a table row `p`, after
`stf_dphy_configure` the programmed fields read back exactly (`row_programmed`):
REFCLK_IN_SEL = 1, AON_POWER_READY_N = 0, SSC_EN = 0, LDO_STB_X2_EN = 1,
FM_EN = 1, PLL_PRE_DIV = `p.pll_prev_div`, PLL_FBK_INT = `p.pll_fbk_int`,
PLL_FBK_FRA = `p.pll_fbk_fra`, EXTD_CYCLE_SEL = `p.extd_cycle_sel`, and the words
at offsets 36 and 32 are the four HS timing bytes of the row. -/
theorem C3_configure_programs_matched_row (info : stf_dphy_info) (r : Nat) (regs : Regs)
    (p : m31_dphy_config) (_hmaps : ∀ i, info.maps i ≤ 4)
    (hm : scan_match (round_bitrate (r % 2 ^ 32)) m31_dphy_configs = some p) :
    row_programmed (stf_dphy_configure info r regs).2 p := by
  have hp : row_in_range p := table_rows_in_range p (scan_match_some hm).1
  rw [stf_dphy_configure_of_match info r regs p hm]
  exact program_row_programmed info p (hstx_res_presets regs) hp

theorem C3_configure_programs_matched_row_witness :
    (∀ i, starfive_dphy_info.maps i ≤ 4) ∧
    scan_match (round_bitrate (170000000 % 2 ^ 32)) m31_dphy_configs =
      some (m31_dphy_config.mk 12000000 170000000 0x0 0x71 0x555555 0x3 0xb 0x18 0x11 0x5
        0x2e 0xd 0x7 0x3d) ∧
    row_programmed (stf_dphy_configure starfive_dphy_info 170000000 (fun _ => 0xFFFFFFFF)).2
      (m31_dphy_config.mk 12000000 170000000 0x0 0x71 0x555555 0x3 0xb 0x18 0x11 0x5
        0x2e 0xd 0x7 0x3d) :=
  ⟨by decide, by decide,
    C3_configure_programs_matched_row starfive_dphy_info 170000000 (fun _ => 0xFFFFFFFF) _
      (by decide) (by decide)⟩

/-- C4 (as stated, refuted): the row selected for 630000000 is `row_630MHz`,
whose values are not the ones claimed: pll_prev_div is 0 (not 0x1),
extd_cycle_sel is 0x1 (not 0x7), dlane_hs_pre_time is 0x7 (not 0x12),
dlane_hs_zero_time is 0x12 (not 0xd), dlane_hs_trail_time is 0xd (not 0x5),
clane_hs_pre_time is 0x5 (not 0x2a) and clane_hs_zero_time is 0x2a (not 0xc). -/
theorem C4_row_630MHz_not_as_claimed :
    scan_match (round_bitrate (630000000 % 2 ^ 32)) m31_dphy_configs = some row_630MHz ∧
    row_630MHz.pll_prev_div ≠ 0x1 ∧ row_630MHz.extd_cycle_sel ≠ 0x7 ∧
    row_630MHz.dlane_hs_pre_time ≠ 0x12 ∧ row_630MHz.dlane_hs_zero_time ≠ 0xd ∧
    row_630MHz.dlane_hs_trail_time ≠ 0x5 ∧ row_630MHz.clane_hs_pre_time ≠ 0x2a ∧
    row_630MHz.clane_hs_zero_time ≠ 0xc := by
  decide

/-- C4 (amended): `stf_dphy_configure` with a requested bit rate of 630000000
selects the row `row_630MHz` (pll_prev_div=0x0, pll_fbk_int=0x69, pll_fbk_fra=0,
extd_cycle_sel=0x1, dlane_hs_pre_time=0x7, dlane_hs_zero_time=0x12,
dlane_hs_trail_time=0xd, clane_hs_pre_time=0x5, clane_hs_zero_time=0x2a,
clane_hs_trail_time=0xc, clane_hs_clk_pre_time=0x1, clane_hs_clk_post_time=0x15)
and programs exactly those values: PRE_DIV = 0, FBK_INT = 0x69, FBK_FRA = 0,
EXTD_CYCLE_SEL = 1, the word at offset 36 is 0x120d072a and the word at
offset 32 is 0x0c050115. -/
theorem C4_configure_630MHz (info : stf_dphy_info) (regs : Regs) :
    scan_match (round_bitrate (630000000 % 2 ^ 32)) m31_dphy_configs = some row_630MHz ∧
    row_programmed (stf_dphy_configure info 630000000 regs).2 row_630MHz ∧
    field_of (readl (stf_dphy_configure info 630000000 regs).2 24)
      STF_DPHY_RG_CDTX_PLL_PRE_DIV_SHIFT STF_DPHY_RG_CDTX_PLL_PRE_DIV_MASK = 0x0 ∧
    field_of (readl (stf_dphy_configure info 630000000 regs).2 24)
      STF_DPHY_RG_CDTX_PLL_FBK_INT_SHIFT STF_DPHY_RG_CDTX_PLL_FBK_INT_MASK = 0x69 ∧
    field_of (readl (stf_dphy_configure info 630000000 regs).2 20)
      STF_DPHY_RG_CDTX_PLL_FBK_FRA_SHIFT STF_DPHY_RG_CDTX_PLL_FBK_FRA_MASK = 0x0 ∧
    field_of (readl (stf_dphy_configure info 630000000 regs).2 40)
      STF_DPHY_RG_EXTD_CYCLE_SEL_SHIFT STF_DPHY_RG_EXTD_CYCLE_SEL_MASK = 0x1 ∧
    readl (stf_dphy_configure info 630000000 regs).2 36 = 0x120d072a ∧
    readl (stf_dphy_configure info 630000000 regs).2 32 = 0x0c050115 := by
  have hm := scan_match_630MHz
  have hp : row_in_range row_630MHz := table_rows_in_range _ (scan_match_some hm).1
  rw [stf_dphy_configure_of_match info 630000000 regs row_630MHz hm]
  have h := program_row_programmed info row_630MHz (hstx_res_presets regs) hp
  have h2 := h
  obtain ⟨-, -, -, -, -, f6, f7, f8, f9, w1, w2⟩ := h2
  exact ⟨hm, h, f6, f7, f8, f9, w1, w2⟩

/-- C5: for every initial register state and every requested bit rate whose
rounded value matches no table row, `stf_dphy_configure` returns 0 and the words
at offsets 0, 20, 24, 28, 32, 36, 40 and 100 are the same before and after. -/
theorem C5_no_match_leaves_pll_registers (info : stf_dphy_info) (r : Nat) (regs : Regs)
    (hm : scan_match (round_bitrate (r % 2 ^ 32)) m31_dphy_configs = none) :
    (stf_dphy_configure info r regs).1 = 0 ∧
    ∀ a ∈ [0, 20, 24, 28, 32, 36, 40, 100],
      (stf_dphy_configure info r regs).2 a = regs a := by
  rw [stf_dphy_configure_of_no_match info r regs hm]
  refine ⟨rfl, ?_⟩
  intro a ha
  simp only [List.mem_cons, List.mem_singleton, List.not_mem_nil, or_false] at ha
  rcases ha with rfl | rfl | rfl | rfl | rfl | rfl | rfl | rfl <;>
    simp [hstx_res_presets, stf_dphy_set_reg_apply, STF_DPHY_APBIFSAIF_SYSCFG]

theorem C5_no_match_leaves_pll_registers_witness :
    scan_match (round_bitrate (210000000 % 2 ^ 32)) m31_dphy_configs = none ∧
    (stf_dphy_configure starfive_dphy_info 210000000 (fun _ => 0xFFFFFFFF)).1 = 0 ∧
    ∀ a ∈ [0, 20, 24, 28, 32, 36, 40, 100],
      (stf_dphy_configure starfive_dphy_info 210000000 (fun _ => 0xFFFFFFFF)).2 a =
        (fun _ => 0xFFFFFFFF) a :=
  ⟨by decide,
    C5_no_match_leaves_pll_registers starfive_dphy_info 210000000 (fun _ => 0xFFFFFFFF)
      (by decide)⟩

/-- A rounded value outside [160000000, 1000000000] matches no row: for the
value the driver computes in its `u32`, and for the exact round-up of a request
that fits the `u32`. -/
theorem out_of_range_no_row (r : Nat)
    (hout : (1000000000 < round_bitrate (r % 2 ^ 32) ∨
        round_bitrate (r % 2 ^ 32) < 160000000) ∨
      (r < 2 ^ 32 ∧
        (1000000000 < (if r % 10000000 = 0 then r else r + (10000000 - r % 10000000)) ∨
          (if r % 10000000 = 0 then r else r + (10000000 - r % 10000000)) < 160000000))) :
    scan_match (round_bitrate (r % 2 ^ 32)) m31_dphy_configs = none := by
  have key : 1000000000 < round_bitrate (r % 2 ^ 32) ∨
      round_bitrate (r % 2 ^ 32) < 160000000 := by
    rcases hout with h | ⟨hr, h⟩
    · exact h
    · rw [Nat.mod_eq_of_lt hr]
      by_cases hmul : r % 10000000 = 0
      · rw [round_bitrate_of_multiple r hmul]
        simpa [hmul] using h
      · simp only [hmul, if_false] at h
        by_cases hle : r ≤ 4290000000
        · rw [round_bitrate_of_le r hle hmul]
          exact h
        · right
          simp only [round_bitrate, STF_DPHY_BITRATE_ALIGN, hmul, ne_eq, not_false_eq_true,
            if_true]
          omega
  rw [scan_match_none]
  intro p hp heq
  have hb := table_bitrate_bounds p hp
  omega

/-- C6 (as stated, refuted): `hs_clk_rate` is an `unsigned long`; the request
4924967296 rounds up to 4930000000, above 1000000000, yet the `u32 bitrate`
holds 4924967296 mod 2^32 = 630000000 and the scan of `stf_dphy_configure`
matches the 630 MHz row. -/
theorem C6_truncated_request_matches_630MHz :
    4924967296 % 10000000 ≠ 0 ∧
    4924967296 + (10000000 - 4924967296 % 10000000) = 4930000000 ∧
    1000000000 < 4930000000 ∧
    4924967296 % 2 ^ 32 = 630000000 ∧
    scan_match (round_bitrate (4924967296 % 2 ^ 32)) m31_dphy_configs = some row_630MHz := by
  decide

/-- C6 (amended): for every requested bit rate that fits the 32-bit bitrate
variable of the driver (`r < 2^32`) and whose value after rounding up to a
multiple of 10 MHz is above 1000000000 or below 160000000, the table scan of
`stf_dphy_configure` matches no row of `m31_dphy_configs`. -/
theorem C6_u32_out_of_range_no_row (r : Nat) (hr : r < 2 ^ 32)
    (hout : 1000000000 < (if r % 10000000 = 0 then r else r + (10000000 - r % 10000000)) ∨
      (if r % 10000000 = 0 then r else r + (10000000 - r % 10000000)) < 160000000) :
    scan_match (round_bitrate (r % 2 ^ 32)) m31_dphy_configs = none :=
  out_of_range_no_row r (Or.inr ⟨hr, hout⟩)

theorem C6_u32_out_of_range_no_row_witness :
    1000000001 < 2 ^ 32 ∧
    (1000000000 < (if 1000000001 % 10000000 = 0 then 1000000001
        else 1000000001 + (10000000 - 1000000001 % 10000000)) ∨
      (if 1000000001 % 10000000 = 0 then 1000000001
        else 1000000001 + (10000000 - 1000000001 % 10000000)) < 160000000) ∧
    scan_match (round_bitrate (1000000001 % 2 ^ 32)) m31_dphy_configs = none :=
  ⟨by decide, by decide, C6_u32_out_of_range_no_row 1000000001 (by decide) (by decide)⟩

/-! ## Register access primitives -/

theorem not32_eq_sub (mask : Nat) (hmask : mask < 2 ^ 32) :
    not32 mask = 0xFFFFFFFF - mask := by
  have e : (0xFFFFFFFF : Nat) - mask = 2 ^ 32 - (mask + 1) := by omega
  rw [e]
  apply Nat.eq_of_testBit_eq
  intro i
  rw [testBit_not32, Nat.testBit_two_pow_sub_succ hmask]

/-- C7: for every register state, offset, 32-bit data, shift < 32 and mask,
`stf_dphy_set_reg` replaces the word at the offset by
`(old & ~mask) | ((data << shift) & mask)`, the shift taken modulo 2^32: bits
outside `mask` keep their prior value, bits inside `mask` are those of the
shifted data (data bits falling outside `mask` are dropped), and every word at
another offset is unchanged. -/
theorem C7_set_reg_read_modify_write (regs : Regs) (addr data shift mask : Nat)
    (_hdata : data < 2 ^ 32) (_hshift : shift < 32) (hmask : mask < 2 ^ 32) :
    readl (stf_dphy_set_reg regs addr data shift mask) addr =
      ((readl regs addr &&& (0xFFFFFFFF - mask)) |||
        (((data <<< shift) % 2 ^ 32) &&& mask)) ∧
    (∀ i, mask.testBit i = false →
      (readl (stf_dphy_set_reg regs addr data shift mask) addr).testBit i =
        (readl regs addr).testBit i) ∧
    (∀ i, mask.testBit i = true →
      (readl (stf_dphy_set_reg regs addr data shift mask) addr).testBit i =
        ((data <<< shift) % 2 ^ 32).testBit i) ∧
    (∀ a, a ≠ addr → stf_dphy_set_reg regs addr data shift mask a = regs a) := by
  have hr : readl (stf_dphy_set_reg regs addr data shift mask) addr =
      rmw_word (readl regs addr) data shift mask := by
    rw [readl_set_reg, if_pos rfl]
  refine ⟨?_, ?_, ?_, ?_⟩
  · rw [hr, rmw_word, not32_eq_sub mask hmask]
  · intro i hi
    rw [hr, testBit_rmw_word _ _ _ _ _ (is_u32_readl regs addr), hi]
    simp
  · intro i hi
    rw [hr, testBit_rmw_word _ _ _ _ _ (is_u32_readl regs addr), hi,
      Nat.testBit_mod_two_pow, Nat.testBit_shiftLeft]
    simp
  · intro a ha
    rw [stf_dphy_set_reg_apply, if_neg ha]

theorem C7_set_reg_read_modify_write_witness :
    (0x1ff : Nat) < 2 ^ 32 ∧ 12 < 32 ∧ GENMASK 14 12 < 2 ^ 32 ∧
    readl (stf_dphy_set_reg (fun _ => 0xFFFFFFFF) 0 0x1ff 12 (GENMASK 14 12)) 0 =
      ((readl (fun _ => 0xFFFFFFFF) 0 &&& (0xFFFFFFFF - GENMASK 14 12)) |||
        (((0x1ff <<< 12) % 2 ^ 32) &&& GENMASK 14 12)) :=
  ⟨by decide, by decide, by decide,
    (C7_set_reg_read_modify_write (fun _ => 0xFFFFFFFF) 0 0x1ff 12 (GENMASK 14 12)
      (by decide) (by decide) (by decide)).1⟩

/-- What `stf_dphy_get_reg` computes: the field of the word at offset 0. -/
theorem stf_dphy_get_reg_eq (regs : Regs) (addr shift mask : Nat) :
    stf_dphy_get_reg regs addr shift mask = field_of (readl regs 0) shift mask := rfl

/-- The field written by `stf_dphy_set_reg` holds the data truncated to the
field width, at every offset. -/
theorem set_reg_field_written (regs : Regs) (addr v h l : Nat) (hl : l ≤ h + 1)
    (hh : h < 32) :
    field_of (readl (stf_dphy_set_reg regs addr v l (GENMASK h l)) addr) l (GENMASK h l) =
      v % 2 ^ (h + 1 - l) := by
  rw [readl_set_reg, if_pos rfl, field_of_rmw_same _ _ _ _ (is_u32_readl regs addr) hl hh]

/-- At offset 0, where `stf_dphy_get_reg` does read, the write/read round trip
returns the data truncated to the field width. -/
theorem set_get_round_trip_offset_zero (regs : Regs) (v h l : Nat) (hl : l ≤ h + 1)
    (hh : h < 32) :
    stf_dphy_get_reg (stf_dphy_set_reg regs 0 v l (GENMASK h l)) 0 l (GENMASK h l) =
      v % 2 ^ (h + 1 - l) := by
  rw [stf_dphy_get_reg_eq, set_reg_field_written regs 0 v h l hl hh]

/-- C8 (the code at the failing input): with the word 0x40000 stored at offset 8
and 0 at offset 0, `stf_dphy_get_reg` for offset 8 and the PLL-unlock field
(shift 18, mask bit 18) returns 0, the field of the word at offset 0, while
`(w & mask) >> shift` for the word `w` at offset 8 is 1. -/
theorem C8_get_reg_ignores_offset :
    stf_dphy_get_reg (fun a => if a = 8 then 0x40000 else 0) 8
      STF_DPHY_RGS_CDTX_PLL_UNLOCK_SHIFT STF_DPHY_RGS_CDTX_PLL_UNLOCK_MASK = 0 ∧
    (readl (fun a => if a = 8 then 0x40000 else 0) 8 &&&
      STF_DPHY_RGS_CDTX_PLL_UNLOCK_MASK) >>> STF_DPHY_RGS_CDTX_PLL_UNLOCK_SHIFT = 1 ∧
    (readl (fun a => if a = 8 then 0x40000 else 0) 0 &&&
      STF_DPHY_RGS_CDTX_PLL_UNLOCK_MASK) >>> STF_DPHY_RGS_CDTX_PLL_UNLOCK_SHIFT = 0 := by
  decide

/-- C9 (the code at the failing input): on the all-zero register state, writing
0x69 to the field PLL_FBK_INT (offset 24, shift 0, bits 0-8) with
`stf_dphy_set_reg` stores 0x69 in the word at offset 24, yet
`stf_dphy_get_reg` for the same offset and field returns 0, not 0x69. -/
theorem C9_round_trip_fails_off_offset_zero :
    readl (stf_dphy_set_reg (fun _ => 0) 24 0x69 STF_DPHY_RG_CDTX_PLL_FBK_INT_SHIFT
      STF_DPHY_RG_CDTX_PLL_FBK_INT_MASK) 24 = 0x69 ∧
    0x69 % 2 ^ 9 = 0x69 ∧
    stf_dphy_get_reg
      (stf_dphy_set_reg (fun _ => 0) 24 0x69 STF_DPHY_RG_CDTX_PLL_FBK_INT_SHIFT
        STF_DPHY_RG_CDTX_PLL_FBK_INT_MASK)
      24 STF_DPHY_RG_CDTX_PLL_FBK_INT_SHIFT STF_DPHY_RG_CDTX_PLL_FBK_INT_MASK = 0 := by
  decide

/-- The lane swap-select fields after the writes made for a matching row. -/
theorem program_row_lane_fields (info : stf_dphy_info) (p : m31_dphy_config) (regs : Regs) :
    field_of (readl (program_row info p regs) 0) STF_DPHY_CFG_L0_SWAP_SEL_SHIFT
      STF_DPHY_CFG_L0_SWAP_SEL_MASK = info.maps 0 % 8 ∧
    field_of (readl (program_row info p regs) 0) STF_DPHY_CFG_L1_SWAP_SEL_SHIFT
      STF_DPHY_CFG_L1_SWAP_SEL_MASK = info.maps 1 % 8 ∧
    field_of (readl (program_row info p regs) 0) STF_DPHY_CFG_L2_SWAP_SEL_SHIFT
      STF_DPHY_CFG_L2_SWAP_SEL_MASK = info.maps 2 % 8 ∧
    field_of (readl (program_row info p regs) 0) STF_DPHY_CFG_L3_SWAP_SEL_SHIFT
      STF_DPHY_CFG_L3_SWAP_SEL_MASK = info.maps 3 % 8 ∧
    field_of (readl (program_row info p regs) 0) STF_DPHY_CFG_L4_SWAP_SEL_SHIFT
      STF_DPHY_CFG_L4_SWAP_SEL_MASK = info.maps 4 % 8 := by
  simp only [program_row, readl_set_reg, STF_DPHY_APBIFSAIF_SYSCFG, SSC_EN_MASK_eq,
    BIT_eq_GENMASK, STF_DPHY_AON_POWER_READY_N_ACTIVE, STF_DPHY_AON_POWER_READY_N_SHIFT, STF_DPHY_AON_POWER_READY_N_MASK, STF_DPHY_CFG_L0_SWAP_SEL_SHIFT, STF_DPHY_CFG_L0_SWAP_SEL_MASK, STF_DPHY_CFG_L1_SWAP_SEL_SHIFT, STF_DPHY_CFG_L1_SWAP_SEL_MASK, STF_DPHY_CFG_L2_SWAP_SEL_SHIFT, STF_DPHY_CFG_L2_SWAP_SEL_MASK, STF_DPHY_CFG_L3_SWAP_SEL_SHIFT, STF_DPHY_CFG_L3_SWAP_SEL_MASK, STF_DPHY_CFG_L4_SWAP_SEL_SHIFT, STF_DPHY_CFG_L4_SWAP_SEL_MASK, STF_DPHY_RGS_CDTX_PLL_UNLOCK_SHIFT, STF_DPHY_RGS_CDTX_PLL_UNLOCK_MASK, STF_DPHY_RG_CDTX_L0N_HSTX_RES_SHIFT, STF_DPHY_RG_CDTX_L0N_HSTX_RES_MASK, STF_DPHY_RG_CDTX_L0P_HSTX_RES_SHIFT, STF_DPHY_RG_CDTX_L0P_HSTX_RES_MASK, STF_DPHY_RG_CDTX_L1P_HSTX_RES_SHIFT, STF_DPHY_RG_CDTX_L1P_HSTX_RES_MASK, STF_DPHY_RG_CDTX_L2N_HSTX_RES_SHIFT, STF_DPHY_RG_CDTX_L2N_HSTX_RES_MASK, STF_DPHY_RG_CDTX_L2P_HSTX_RES_SHIFT, STF_DPHY_RG_CDTX_L2P_HSTX_RES_MASK, STF_DPHY_RG_CDTX_L3N_HSTX_RES_SHIFT, STF_DPHY_RG_CDTX_L3N_HSTX_RES_MASK, STF_DPHY_RG_CDTX_L3P_HSTX_RES_SHIFT, STF_DPHY_RG_CDTX_L3P_HSTX_RES_MASK, STF_DPHY_RG_CDTX_L4N_HSTX_RES_SHIFT, STF_DPHY_RG_CDTX_L4N_HSTX_RES_MASK, STF_DPHY_RG_CDTX_L4P_HSTX_RES_SHIFT, STF_DPHY_RG_CDTX_L4P_HSTX_RES_MASK, STF_DPHY_RG_CDTX_PLL_FBK_FRA_SHIFT, STF_DPHY_RG_CDTX_PLL_FBK_FRA_MASK, STF_DPHY_RG_CDTX_PLL_FBK_INT_SHIFT, STF_DPHY_RG_CDTX_PLL_FBK_INT_MASK, STF_DPHY_RG_CDTX_PLL_FM_EN_SHIFT, STF_DPHY_RG_CDTX_PLL_FM_EN_MASK, STF_DPHY_RG_CDTX_PLL_LDO_STB_X2_EN_SHIFT, STF_DPHY_RG_CDTX_PLL_LDO_STB_X2_EN_MASK, STF_DPHY_RG_CDTX_PLL_PRE_DIV_SHIFT, STF_DPHY_RG_CDTX_PLL_PRE_DIV_MASK, STF_DPHY_RG_CDTX_PLL_SSC_EN_SHIFT, STF_DPHY_RG_CLANE_HS_CLK_POST_TIME_SHIFT, STF_DPHY_RG_CLANE_HS_CLK_POST_TIME_MASK, STF_DPHY_RG_CLANE_HS_CLK_PRE_TIME_SHIFT, STF_DPHY_RG_CLANE_HS_CLK_PRE_TIME_MASK, STF_DPHY_RG_CLANE_HS_PRE_TIME_SHIFT, STF_DPHY_RG_CLANE_HS_PRE_TIME_MASK, STF_DPHY_RG_CLANE_HS_TRAIL_TIME_SHIFT, STF_DPHY_RG_CLANE_HS_TRAIL_TIME_MASK, STF_DPHY_RG_CLANE_HS_ZERO_TIME_SHIFT, STF_DPHY_RG_CLANE_HS_ZERO_TIME_MASK, STF_DPHY_RG_DLANE_HS_PRE_TIME_SHIFT, STF_DPHY_RG_DLANE_HS_PRE_TIME_MASK, STF_DPHY_RG_DLANE_HS_TRAIL_TIME_SHIFT, STF_DPHY_RG_DLANE_HS_TRAIL_TIME_MASK, STF_DPHY_RG_DLANE_HS_ZERO_TIME_SHIFT, STF_DPHY_RG_DLANE_HS_ZERO_TIME_MASK, STF_DPHY_RG_EXTD_CYCLE_SEL_SHIFT, STF_DPHY_RG_EXTD_CYCLE_SEL_MASK, STF_DPHY_SCFG_C_HS_PRE_ZERO_TIME_SHIFT, STF_DPHY_SCFG_C_HS_PRE_ZERO_TIME_MASK, STF_DPHY_SCFG_DSI_TXREADY_ESC_SEL_SHIFT, STF_DPHY_SCFG_DSI_TXREADY_ESC_SEL_MASK, STF_DPHY_SCFG_PPI_C_READY_SEL_SHIFT, STF_DPHY_SCFG_PPI_C_READY_SEL_MASK, STF_DPHY_REFCLK_IN_SEL_SHIFT, STF_DPHY_REFCLK_IN_SEL_MASK, STF_DPHY_RESETB_SHIFT, STF_DPHY_RESETB_MASK, STF_DPHY_REFCLK_12M]
  simp [field_of_rmw_same, field_of_rmw_other, is_u32_readl, is_u32_rmw_word]

/-- C10: for every initial register state, every lane map that is a permutation
of {0,1,2,3,4} and every requested bit rate that matches a table row, after
`stf_dphy_configure` the five swap-select fields L0..L4 of the word at offset 0,
read back with `stf_dphy_get_reg`, equal `maps[0]`, ..., `maps[4]` in that order. -/
theorem C10_lane_map_round_trip (info : stf_dphy_info) (r : Nat) (regs : Regs)
    (p : m31_dphy_config)
    (hperm : Function.Injective info.maps ∧ ∀ i, info.maps i < 5)
    (hm : scan_match (round_bitrate (r % 2 ^ 32)) m31_dphy_configs = some p) :
    stf_dphy_get_reg (stf_dphy_configure info r regs).2 (STF_DPHY_APBIFSAIF_SYSCFG 0)
      STF_DPHY_CFG_L0_SWAP_SEL_SHIFT STF_DPHY_CFG_L0_SWAP_SEL_MASK = info.maps 0 ∧
    stf_dphy_get_reg (stf_dphy_configure info r regs).2 (STF_DPHY_APBIFSAIF_SYSCFG 0)
      STF_DPHY_CFG_L1_SWAP_SEL_SHIFT STF_DPHY_CFG_L1_SWAP_SEL_MASK = info.maps 1 ∧
    stf_dphy_get_reg (stf_dphy_configure info r regs).2 (STF_DPHY_APBIFSAIF_SYSCFG 0)
      STF_DPHY_CFG_L2_SWAP_SEL_SHIFT STF_DPHY_CFG_L2_SWAP_SEL_MASK = info.maps 2 ∧
    stf_dphy_get_reg (stf_dphy_configure info r regs).2 (STF_DPHY_APBIFSAIF_SYSCFG 0)
      STF_DPHY_CFG_L3_SWAP_SEL_SHIFT STF_DPHY_CFG_L3_SWAP_SEL_MASK = info.maps 3 ∧
    stf_dphy_get_reg (stf_dphy_configure info r regs).2 (STF_DPHY_APBIFSAIF_SYSCFG 0)
      STF_DPHY_CFG_L4_SWAP_SEL_SHIFT STF_DPHY_CFG_L4_SWAP_SEL_MASK = info.maps 4 := by
  have hlt : ∀ i, info.maps i % 8 = info.maps i := fun i =>
    Nat.mod_eq_of_lt (lt_trans (hperm.2 i) (by decide))
  rw [stf_dphy_configure_of_match info r regs p hm]
  simp only [stf_dphy_get_reg_eq]
  obtain ⟨l0, l1, l2, l3, l4⟩ := program_row_lane_fields info p (hstx_res_presets regs)
  rw [hlt] at l0 l1 l2 l3 l4
  exact ⟨l0, l1, l2, l3, l4⟩

theorem C10_lane_map_round_trip_witness :
    (Function.Injective starfive_dphy_info.maps ∧ ∀ i, starfive_dphy_info.maps i < 5) ∧
    scan_match (round_bitrate (995000000 % 2 ^ 32)) m31_dphy_configs =
      some (m31_dphy_config.mk 12000000 1000000000 0x0 0xa6 0xaaaaaa 0x1 0xb 0x1c 0x13 0x9
        0x42 0x12 0x1 0x1b) ∧
    stf_dphy_get_reg (stf_dphy_configure starfive_dphy_info 995000000 (fun _ => 0)).2
      (STF_DPHY_APBIFSAIF_SYSCFG 0) STF_DPHY_CFG_L4_SWAP_SEL_SHIFT
      STF_DPHY_CFG_L4_SWAP_SEL_MASK = starfive_dphy_info.maps 4 :=
  ⟨⟨fun _ _ h => Fin.ext h, fun i => i.isLt⟩, by decide,
    (C10_lane_map_round_trip starfive_dphy_info 995000000 (fun _ => 0)
      (m31_dphy_config.mk 12000000 1000000000 0x0 0xa6 0xaaaaaa 0x1 0xb 0x1c 0x13 0x9
        0x42 0x12 0x1 0x1b)
      ⟨fun _ _ h => Fin.ext h, fun i => i.isLt⟩ (by decide)).2.2.2.2⟩

/-! ## Mode validation -/

/-- C11: `stf_dphy_validate` returns 0 if and only if the requested mode is
`PHY_MODE_MIPI_DPHY`; for every other mode it returns `-EINVAL`; and in both
cases the result does not depend on `submode` or `opts`. -/
theorem C11_validate_accepts_only_dphy (PHY_MODE_MIPI_DPHY mode submode : Int) (opts : Nat) :
    (stf_dphy_validate PHY_MODE_MIPI_DPHY mode submode opts = 0 ↔
      mode = PHY_MODE_MIPI_DPHY) ∧
    (mode ≠ PHY_MODE_MIPI_DPHY →
      stf_dphy_validate PHY_MODE_MIPI_DPHY mode submode opts = -EINVAL) ∧
    (∀ (submode2 : Int) (opts2 : Nat),
      stf_dphy_validate PHY_MODE_MIPI_DPHY mode submode2 opts2 =
        stf_dphy_validate PHY_MODE_MIPI_DPHY mode submode opts) := by
  unfold stf_dphy_validate
  by_cases h : mode = PHY_MODE_MIPI_DPHY
  · simp [h]
  · simp [h, EINVAL]

/-! ## The analog reset and the lock poll -/

theorem field_of_BIT (w n : Nat) : field_of w n (BIT n) = if w.testBit n then 1 else 0 := by
  apply Nat.eq_of_testBit_eq
  intro j
  unfold field_of BIT
  rw [Nat.testBit_shiftRight, Nat.testBit_and, Nat.testBit_two_pow]
  cases j with
  | zero => cases hb : w.testBit n <;> simp [hb]
  | succ k =>
    have h1 : ¬ n = n + (k + 1) := by omega
    have h2 : (1 : Nat).testBit (k + 1) = false :=
      testBit_false_of_lt (by decide : (1 : Nat) < 2 ^ 1) (by omega)
    cases hb : w.testBit n <;> simp [h1, h2]

/-- What `is_pll_locked` tests: bit 18 of the word at offset 0. -/
theorem is_pll_locked_eq (dphy : stf_dphy) :
    is_pll_locked dphy = if (readl dphy.topsys 0).testBit 18 then 0 else 1 := by
  unfold is_pll_locked
  simp only [stf_dphy_get_reg_eq, STF_DPHY_RGS_CDTX_PLL_UNLOCK_SHIFT,
    STF_DPHY_RGS_CDTX_PLL_UNLOCK_MASK, field_of_BIT]
  cases (readl dphy.topsys 0).testBit 18 <;> simp

theorem is_pll_locked_congr (d1 d2 : stf_dphy) (h : d1.topsys 0 = d2.topsys 0) :
    is_pll_locked d1 = is_pll_locked d2 := by
  rw [is_pll_locked_eq, is_pll_locked_eq, readl, readl, h]

/-- A locked device passes the poll at its first lock test. -/
theorem pll_lock_poll_of_locked (fuel : Nat) (dphy : stf_dphy) (h : is_pll_locked dphy ≠ 0) :
    pll_lock_poll (fuel + 1) dphy =
      some { dphy with trace := dphy.trace ++ [Event.pll_lock_test] } := by
  simp [pll_lock_poll, h]

/-- An unlocked device never leaves the poll: the registers do not change while
the driver spins. -/
theorem pll_lock_poll_of_unlocked (fuel : Nat) :
    ∀ dphy : stf_dphy, is_pll_locked dphy = 0 → pll_lock_poll fuel dphy = none := by
  induction fuel with
  | zero => intro dphy _; rfl
  | succ n ih =>
    intro dphy h
    simp only [pll_lock_poll, h, if_true]
    apply ih
    rw [← h]
    exact is_pll_locked_congr _ _ rfl

/-- The poll ends, for some fuel, exactly on a locked device. -/
theorem pll_lock_poll_isSome_iff (dphy : stf_dphy) :
    (∃ fuel, (pll_lock_poll fuel dphy).isSome = true) ↔ is_pll_locked dphy ≠ 0 := by
  constructor
  · rintro ⟨fuel, hf⟩ h0
    rw [pll_lock_poll_of_unlocked fuel dphy h0] at hf
    simp at hf
  · intro h
    exact ⟨1, by rw [pll_lock_poll_of_locked 0 dphy h]; rfl⟩

theorem is_pll_locked_set_reg (dphy : stf_dphy) (addr data shift mask : Nat)
    (ha : addr ≠ 0) :
    is_pll_locked (dphy_set_reg dphy addr data shift mask) = is_pll_locked dphy := by
  apply is_pll_locked_congr
  simp only [dphy_set_reg]
  rw [stf_dphy_set_reg_apply, if_neg (Ne.symm ha)]

/-- The deassert `stf_dphy_hw_reset(dphy, 0)` returns, for some fuel, exactly on
a locked device. -/
theorem hw_reset_deassert_isSome_iff (dphy : stf_dphy) :
    (∃ fuel, (stf_dphy_hw_reset fuel dphy 0).isSome = true) ↔ is_pll_locked dphy ≠ 0 := by
  have e : ∀ fuel, stf_dphy_hw_reset fuel dphy 0 =
      pll_lock_poll fuel (dphy_set_reg dphy (STF_DPHY_APBIFSAIF_SYSCFG 100) 1
        STF_DPHY_RESETB_SHIFT STF_DPHY_RESETB_MASK) := by
    intro fuel
    simp [stf_dphy_hw_reset]
  simp only [e]
  rw [pll_lock_poll_isSome_iff, is_pll_locked_set_reg _ _ _ _ _ (by decide)]

theorem pll_lock_poll_topsys (fuel : Nat) :
    ∀ d d2 : stf_dphy, pll_lock_poll fuel d = some d2 → d2.topsys = d.topsys := by
  induction fuel with
  | zero => intro d d2 h; simp [pll_lock_poll] at h
  | succ n ih =>
    intro d d2 h
    simp only [pll_lock_poll] at h
    by_cases hl : is_pll_locked d = 0
    · simp only [hl, if_true] at h
      exact ih { d with trace := d.trace ++ [Event.pll_lock_test] } d2 h
    · simp only [hl, if_false, Option.some.injEq] at h
      rw [← h]

/-- C16: for every register state and every int `assert`, `stf_dphy_hw_reset`
writes the active-low resetb field (bit 29 of the word at offset 100) to 0 when
`assert` is non-zero and to 1 when `assert` is 0, leaving the other 31 bits of
that word and every other register word unchanged: these hold of the state after
its write, which is the register state of the device whenever it returns; on
assert it returns with any fuel, on deassert it returns on a locked device. -/
theorem C16_hw_reset_writes_resetb (fuel : Nat) (dphy : stf_dphy) (assert : Int) :
    field_of
      (readl (stf_dphy_set_reg dphy.topsys 100 (if assert = 0 then 1 else 0)
        STF_DPHY_RESETB_SHIFT STF_DPHY_RESETB_MASK) 100)
      STF_DPHY_RESETB_SHIFT STF_DPHY_RESETB_MASK = (if assert = 0 then 1 else 0) ∧
    (∀ i, i ≠ 29 →
      (readl (stf_dphy_set_reg dphy.topsys 100 (if assert = 0 then 1 else 0)
        STF_DPHY_RESETB_SHIFT STF_DPHY_RESETB_MASK) 100).testBit i =
      (readl dphy.topsys 100).testBit i) ∧
    (∀ a, a ≠ 100 →
      stf_dphy_set_reg dphy.topsys 100 (if assert = 0 then 1 else 0)
        STF_DPHY_RESETB_SHIFT STF_DPHY_RESETB_MASK a = dphy.topsys a) ∧
    (∀ d, stf_dphy_hw_reset fuel dphy assert = some d →
      d.topsys = stf_dphy_set_reg dphy.topsys 100 (if assert = 0 then 1 else 0)
        STF_DPHY_RESETB_SHIFT STF_DPHY_RESETB_MASK) ∧
    (assert ≠ 0 →
      stf_dphy_hw_reset fuel dphy assert =
        some (dphy_set_reg dphy 100 0 STF_DPHY_RESETB_SHIFT STF_DPHY_RESETB_MASK)) ∧
    (assert = 0 → is_pll_locked dphy ≠ 0 →
      stf_dphy_hw_reset (fuel + 1) dphy assert =
        some { dphy_set_reg dphy 100 1 STF_DPHY_RESETB_SHIFT STF_DPHY_RESETB_MASK with
          trace := dphy.trace ++ [Event.set_reg 100 1 STF_DPHY_RESETB_SHIFT
            STF_DPHY_RESETB_MASK, Event.pll_lock_test] }) := by
  refine ⟨?_, ?_, ?_, ?_, ?_, ?_⟩
  · rw [readl_set_reg, if_pos rfl]
    simp only [STF_DPHY_RESETB_SHIFT, STF_DPHY_RESETB_MASK, BIT_eq_GENMASK]
    rw [field_of_rmw_same _ _ _ _ (is_u32_readl _ _) (by decide) (by decide)]
    by_cases h : assert = 0 <;> simp [h]
  · intro i hi
    rw [readl_set_reg, if_pos rfl]
    simp only [STF_DPHY_RESETB_SHIFT, STF_DPHY_RESETB_MASK, BIT_eq_GENMASK]
    rw [testBit_rmw_GENMASK _ _ _ _ _ (is_u32_readl _ _) (by decide) (by decide)]
    have : ¬ (29 ≤ i ∧ i ≤ 29) := by omega
    simp [this]
  · intro a ha
    rw [stf_dphy_set_reg_apply, if_neg ha]
  · intro d hd
    unfold stf_dphy_hw_reset at hd
    by_cases h : assert = 0
    · simp only [h, if_true] at hd
      rw [pll_lock_poll_topsys _ _ _ hd]
      simp [dphy_set_reg, STF_DPHY_APBIFSAIF_SYSCFG, h]
    · simp only [h, if_false, Option.some.injEq] at hd
      rw [← hd]
      simp [dphy_set_reg, STF_DPHY_APBIFSAIF_SYSCFG, h]
  · intro h
    simp [stf_dphy_hw_reset, h, STF_DPHY_APBIFSAIF_SYSCFG]
  · intro h hl
    have hl2 : is_pll_locked (dphy_set_reg dphy 100 1 STF_DPHY_RESETB_SHIFT
        STF_DPHY_RESETB_MASK) ≠ 0 := by
      rw [is_pll_locked_set_reg _ _ _ _ _ (by decide)]
      exact hl
    simp only [stf_dphy_hw_reset, h, if_true, STF_DPHY_APBIFSAIF_SYSCFG]
    rw [pll_lock_poll_of_locked _ _ hl2]
    simp [dphy_set_reg]

/-- C18 (the code at the failing input): with the word 0x40000 at offset 8 (the
unlock bit of the status word set) and 0 at offset 0, `is_pll_locked` returns 1;
with 0 at offset 8 (unlock bit clear) and 0x40000 at offset 0 it returns 0: the
test reads bit 18 of the word at offset 0, not the status word at offset 8. -/
theorem C18_lock_test_reads_offset_zero :
    is_pll_locked
      ⟨fun a => if a = 8 then 0x40000 else 0, ⟨false, 0⟩, ⟨true, 0, 0⟩, []⟩ = 1 ∧
    (readl (fun a => if a = 8 then 0x40000 else 0) 8).testBit 18 = true ∧
    is_pll_locked
      ⟨fun a => if a = 0 then 0x40000 else 0, ⟨false, 0⟩, ⟨true, 0, 0⟩, []⟩ = 0 ∧
    (readl (fun a => if a = 0 then 0x40000 else 0) 8).testBit 18 = false := by
  decide

/-! ## Bring-up and tear-down -/

/-- The field covering all 32 bits is the word itself. -/
theorem field_of_full (w : Nat) (hw : is_u32 w) : field_of w 0 (GENMASK 31 0) = w := by
  apply Nat.eq_of_testBit_eq
  intro i
  unfold field_of
  rw [Nat.testBit_shiftRight, Nat.testBit_and, testBit_GENMASK 31 0 _ (by decide)]
  by_cases h : i ≤ 31
  · simp [h]
  · simp [h, testBit_false_of_lt hw (by omega : 32 ≤ i)]

/-- The register state `stf_dphy_init` leaves: resetb is 1, the two strap fields
are 0 and the word at offset 44 is 0x30. -/
theorem init_regs_fields (regs : Regs) :
    field_of (readl (init_regs regs) 100) STF_DPHY_RESETB_SHIFT STF_DPHY_RESETB_MASK = 1 ∧
    field_of (readl (init_regs regs) 48) STF_DPHY_SCFG_PPI_C_READY_SEL_SHIFT
      STF_DPHY_SCFG_PPI_C_READY_SEL_MASK = 0 ∧
    field_of (readl (init_regs regs) 48) STF_DPHY_SCFG_DSI_TXREADY_ESC_SEL_SHIFT
      STF_DPHY_SCFG_DSI_TXREADY_ESC_SEL_MASK = 0 ∧
    readl (init_regs regs) 44 = 0x30 := by
  unfold init_regs
  refine ⟨?_, ?_, ?_, ?_⟩
  · simp only [readl_set_reg, BIT_eq_GENMASK, STF_DPHY_RESETB_SHIFT, STF_DPHY_RESETB_MASK]
    simp [field_of_rmw_same, is_u32_readl]
  · simp only [readl_set_reg, STF_DPHY_SCFG_PPI_C_READY_SEL_SHIFT,
      STF_DPHY_SCFG_PPI_C_READY_SEL_MASK, STF_DPHY_SCFG_DSI_TXREADY_ESC_SEL_SHIFT,
      STF_DPHY_SCFG_DSI_TXREADY_ESC_SEL_MASK]
    simp [field_of_rmw_same, field_of_rmw_other, is_u32_readl, is_u32_rmw_word]
  · simp only [readl_set_reg, STF_DPHY_SCFG_PPI_C_READY_SEL_SHIFT,
      STF_DPHY_SCFG_PPI_C_READY_SEL_MASK, STF_DPHY_SCFG_DSI_TXREADY_ESC_SEL_SHIFT,
      STF_DPHY_SCFG_DSI_TXREADY_ESC_SEL_MASK]
    simp [field_of_rmw_same, field_of_rmw_other, is_u32_readl, is_u32_rmw_word]
  · refine (field_of_full _ (is_u32_readl _ _)).symm.trans ?_
    simp only [readl_set_reg, STF_DPHY_SCFG_C_HS_PRE_ZERO_TIME_SHIFT,
      STF_DPHY_SCFG_C_HS_PRE_ZERO_TIME_MASK]
    simp [field_of_rmw_same, is_u32_readl, is_u32_rmw_word]

/-- The state `stf_dphy_init` reaches before it touches the clock, on a device
that passes the lock poll. -/
theorem init_hw_reset_of_locked (n : Nat) (dphy : stf_dphy) (hl : is_pll_locked dphy ≠ 0) :
    stf_dphy_hw_reset (n + 1) dphy 0 =
      some { dphy with
        topsys := stf_dphy_set_reg dphy.topsys 100 1 STF_DPHY_RESETB_SHIFT
          STF_DPHY_RESETB_MASK
        trace := dphy.trace ++ [Event.set_reg 100 1 STF_DPHY_RESETB_SHIFT
          STF_DPHY_RESETB_MASK, Event.pll_lock_test] } := by
  have hl2 : is_pll_locked (dphy_set_reg dphy 100 1 STF_DPHY_RESETB_SHIFT
      STF_DPHY_RESETB_MASK) ≠ 0 := by
    rw [is_pll_locked_set_reg _ _ _ _ _ (by decide)]
    exact hl
  simp only [stf_dphy_hw_reset, if_true, STF_DPHY_APBIFSAIF_SYSCFG]
  rw [pll_lock_poll_of_locked _ _ hl2]
  simp [dphy_set_reg]

/-- The clock fails: `stf_dphy_init` returns the error after its register writes. -/
theorem init_of_clk_failure (n : Nat) (dphy : stf_dphy) (hl : is_pll_locked dphy ≠ 0)
    (e : Int) (he : e ≠ 0) (hclk : dphy.txesc_clk.prepare_enable_ret = e) :
    stf_dphy_init (n + 1) dphy =
      some (e, ⟨init_regs dphy.topsys, dphy.txesc_clk, dphy.sys_rst,
        dphy.trace ++ init_writes_trace ++ [Event.clk_prepare_enable e]⟩) := by
  subst hclk
  simp [stf_dphy_init, init_hw_reset_of_locked n dphy hl, dphy_set_reg, clk_prepare_enable,
    he, init_regs, init_writes_trace, STF_DPHY_APBIFSAIF_SYSCFG]

/-- The reset deassert fails: `stf_dphy_init` returns the error with the clock
enabled. -/
theorem init_of_deassert_failure (n : Nat) (dphy : stf_dphy) (hl : is_pll_locked dphy ≠ 0)
    (e : Int) (he : e ≠ 0) (hclk : dphy.txesc_clk.prepare_enable_ret = 0)
    (hrst : dphy.sys_rst.deassert_ret = e) :
    stf_dphy_init (n + 1) dphy =
      some (e, ⟨init_regs dphy.topsys, { dphy.txesc_clk with enabled := true }, dphy.sys_rst,
        dphy.trace ++ init_writes_trace ++
          [Event.clk_prepare_enable 0, Event.reset_control_deassert e]⟩) := by
  subst hrst
  simp [stf_dphy_init, init_hw_reset_of_locked n dphy hl, dphy_set_reg, clk_prepare_enable,
    reset_control_deassert, he, hclk, init_regs, init_writes_trace, STF_DPHY_APBIFSAIF_SYSCFG]

/-- Both resources succeed: `stf_dphy_init` returns 0. -/
theorem init_of_success (n : Nat) (dphy : stf_dphy) (hl : is_pll_locked dphy ≠ 0)
    (hclk : dphy.txesc_clk.prepare_enable_ret = 0) (hrst : dphy.sys_rst.deassert_ret = 0) :
    stf_dphy_init (n + 1) dphy =
      some (0, ⟨init_regs dphy.topsys, { dphy.txesc_clk with enabled := true },
        { dphy.sys_rst with asserted := false },
        dphy.trace ++ init_writes_trace ++
          [Event.clk_prepare_enable 0, Event.reset_control_deassert 0]⟩) := by
  simp [stf_dphy_init, init_hw_reset_of_locked n dphy hl, dphy_set_reg, clk_prepare_enable,
    reset_control_deassert, hclk, hrst, init_regs, init_writes_trace,
    STF_DPHY_APBIFSAIF_SYSCFG]


/-- The reset assert fails: `stf_dphy_exit` returns the error at once. -/
theorem exit_of_assert_failure (fuel : Nat) (dphy : stf_dphy)
    (h : dphy.sys_rst.assert_ret ≠ 0) :
    stf_dphy_exit fuel dphy =
      some (dphy.sys_rst.assert_ret,
        { dphy with
          trace := dphy.trace ++ [Event.reset_control_assert dphy.sys_rst.assert_ret] }) := by
  simp [stf_dphy_exit, reset_control_assert, h]

/-- The reset assert succeeds: `stf_dphy_exit` runs to its end, with any fuel. -/
theorem exit_of_success (fuel : Nat) (dphy : stf_dphy) (h : dphy.sys_rst.assert_ret = 0) :
    stf_dphy_exit fuel dphy =
      some (0, ⟨stf_dphy_set_reg dphy.topsys 100 0 STF_DPHY_RESETB_SHIFT STF_DPHY_RESETB_MASK,
        { dphy.txesc_clk with enabled := false }, { dphy.sys_rst with asserted := true },
        dphy.trace ++ [Event.reset_control_assert 0, Event.clk_disable_unprepare,
          Event.set_reg 100 0 STF_DPHY_RESETB_SHIFT STF_DPHY_RESETB_MASK]⟩) := by
  simp [stf_dphy_exit, reset_control_assert, h, stf_dphy_hw_reset, dphy_set_reg,
    clk_disable_unprepare, STF_DPHY_APBIFSAIF_SYSCFG]

theorem resetb_after_assert (regs : Regs) :
    field_of (readl (stf_dphy_set_reg regs 100 0 STF_DPHY_RESETB_SHIFT
      STF_DPHY_RESETB_MASK) 100) STF_DPHY_RESETB_SHIFT STF_DPHY_RESETB_MASK = 0 := by
  simp only [readl_set_reg, BIT_eq_GENMASK, STF_DPHY_RESETB_SHIFT, STF_DPHY_RESETB_MASK]
  simp [field_of_rmw_same, is_u32_readl]

/-- C12: in `stf_dphy_init`, run from a state where the lock poll terminates: if
enabling the clock fails with error `e`, init returns `e`, the reset line is as
before and no deassert is in the trace; if the clock is enabled but the deassert
fails with `e`, init returns `e` and the clock is left enabled; in both cases
the registers hold the writes already made (`init_regs`: resetb 1, word 44 0x30). -/
theorem C12_init_failure_paths (fuel : Nat) (dphy : stf_dphy) (e : Int) (he : e ≠ 0)
    (hfuel : 1 ≤ fuel) (hterm : ∃ n, (stf_dphy_hw_reset n dphy 0).isSome = true) :
    (dphy.txesc_clk.prepare_enable_ret = e →
      ∃ d, stf_dphy_init fuel dphy = some (e, d) ∧
        d.sys_rst = dphy.sys_rst ∧
        d.trace = dphy.trace ++ init_writes_trace ++ [Event.clk_prepare_enable e] ∧
        (∀ r, Event.reset_control_deassert r ∉ d.trace.drop dphy.trace.length) ∧
        d.topsys = init_regs dphy.topsys ∧
        field_of (readl d.topsys 100) STF_DPHY_RESETB_SHIFT STF_DPHY_RESETB_MASK = 1 ∧
        readl d.topsys 44 = 0x30) ∧
    (dphy.txesc_clk.prepare_enable_ret = 0 → dphy.sys_rst.deassert_ret = e →
      ∃ d, stf_dphy_init fuel dphy = some (e, d) ∧
        d.txesc_clk.enabled = true ∧
        d.sys_rst = dphy.sys_rst ∧
        d.trace = dphy.trace ++ init_writes_trace ++
          [Event.clk_prepare_enable 0, Event.reset_control_deassert e] ∧
        d.topsys = init_regs dphy.topsys ∧
        field_of (readl d.topsys 100) STF_DPHY_RESETB_SHIFT STF_DPHY_RESETB_MASK = 1 ∧
        readl d.topsys 44 = 0x30) := by
  have hl : is_pll_locked dphy ≠ 0 := (hw_reset_deassert_isSome_iff dphy).mp hterm
  obtain ⟨n, rfl⟩ : ∃ n, fuel = n + 1 := ⟨fuel - 1, by omega⟩
  obtain ⟨f1, -, -, f4⟩ := init_regs_fields dphy.topsys
  constructor
  · intro hclk
    refine ⟨_, init_of_clk_failure n dphy hl e he hclk, rfl, rfl, ?_, rfl, f1, f4⟩
    intro r
    simp [init_writes_trace]
  · intro hclk hrst
    exact ⟨_, init_of_deassert_failure n dphy hl e he hclk hrst, rfl, rfl, rfl, rfl, f1, f4⟩

theorem C12_init_failure_paths_witness :
    (-5 : Int) ≠ 0 ∧ 1 ≤ 1 ∧
    (∃ n, (stf_dphy_hw_reset n ⟨fun _ => 0, ⟨false, -5⟩, ⟨true, 0, 0⟩, []⟩ 0).isSome
      = true) ∧
    ∃ d, stf_dphy_init 1 ⟨fun _ => 0, ⟨false, -5⟩, ⟨true, 0, 0⟩, []⟩ = some (-5, d) ∧
      d.sys_rst = ⟨true, 0, 0⟩ :=
  ⟨by decide, by decide, ⟨1, by decide⟩,
    match (C12_init_failure_paths 1 ⟨fun _ => 0, ⟨false, -5⟩, ⟨true, 0, 0⟩, []⟩ (-5)
      (by decide) (by decide) ⟨1, by decide⟩).1 rfl with
    | ⟨d, h1, h2, _⟩ => ⟨d, h1, h2⟩⟩

/-- C13: for every initial register state from which the lock poll terminates
and with clock and reset resources that succeed, `stf_dphy_init` returns 0 and
leaves the gating clock enabled, the system reset deasserted, the resetb field
equal to 1 (the only write to it in the trace of init has data 1),
PPI_C_READY_SEL = 0, DSI_TXREADY_ESC_SEL = 0 and the word at offset 44 equal to
0x30. -/
theorem C13_init_success (fuel : Nat) (dphy : stf_dphy) (hfuel : 1 ≤ fuel)
    (hterm : ∃ n, (stf_dphy_hw_reset n dphy 0).isSome = true)
    (hclk : dphy.txesc_clk.prepare_enable_ret = 0)
    (hrst : dphy.sys_rst.deassert_ret = 0) :
    ∃ d, stf_dphy_init fuel dphy = some (0, d) ∧
      d.txesc_clk.enabled = true ∧
      d.sys_rst.asserted = false ∧
      field_of (readl d.topsys 100) STF_DPHY_RESETB_SHIFT STF_DPHY_RESETB_MASK = 1 ∧
      (∀ data, Event.set_reg 100 data STF_DPHY_RESETB_SHIFT STF_DPHY_RESETB_MASK ∈
        d.trace.drop dphy.trace.length → data = 1) ∧
      field_of (readl d.topsys 48) STF_DPHY_SCFG_PPI_C_READY_SEL_SHIFT
        STF_DPHY_SCFG_PPI_C_READY_SEL_MASK = 0 ∧
      field_of (readl d.topsys 48) STF_DPHY_SCFG_DSI_TXREADY_ESC_SEL_SHIFT
        STF_DPHY_SCFG_DSI_TXREADY_ESC_SEL_MASK = 0 ∧
      readl d.topsys 44 = 0x30 ∧
      d.trace = dphy.trace ++ init_writes_trace ++
        [Event.clk_prepare_enable 0, Event.reset_control_deassert 0] := by
  have hl : is_pll_locked dphy ≠ 0 := (hw_reset_deassert_isSome_iff dphy).mp hterm
  obtain ⟨n, rfl⟩ : ∃ n, fuel = n + 1 := ⟨fuel - 1, by omega⟩
  obtain ⟨f1, f2, f3, f4⟩ := init_regs_fields dphy.topsys
  refine ⟨_, init_of_success n dphy hl hclk hrst, rfl, rfl, f1, ?_, f2, f3, f4, rfl⟩
  intro data hdata
  simp [init_writes_trace] at hdata
  exact hdata

theorem C13_init_success_witness :
    1 ≤ 1 ∧
    (∃ n, (stf_dphy_hw_reset n ⟨fun _ => 0, ⟨false, 0⟩, ⟨true, 0, 0⟩, []⟩ 0).isSome
      = true) ∧
    ∃ d, stf_dphy_init 1 ⟨fun _ => 0, ⟨false, 0⟩, ⟨true, 0, 0⟩, []⟩ = some (0, d) ∧
      d.txesc_clk.enabled = true ∧ d.sys_rst.asserted = false :=
  ⟨by decide, ⟨1, by decide⟩,
    match C13_init_success 1 ⟨fun _ => 0, ⟨false, 0⟩, ⟨true, 0, 0⟩, []⟩ (by decide)
      ⟨1, by decide⟩ rfl rfl with
    | ⟨d, h1, h2, h3, _⟩ => ⟨d, h1, h2, h3⟩⟩

/-- C14: in `stf_dphy_exit`, if asserting the system reset fails with error `e`,
exit returns `e` with the clock and every register as before (its trace holds
the failed assert only); otherwise it asserts the system reset, then disables
the clock, then drives the resetb field to 0 with no lock test, and returns 0,
with any fuel. -/
theorem C14_exit_paths (fuel : Nat) (dphy : stf_dphy) :
    (∀ e : Int, e ≠ 0 → dphy.sys_rst.assert_ret = e →
      ∃ d, stf_dphy_exit fuel dphy = some (e, d) ∧
        d.txesc_clk = dphy.txesc_clk ∧
        d.topsys = dphy.topsys ∧
        d.sys_rst = dphy.sys_rst ∧
        d.trace = dphy.trace ++ [Event.reset_control_assert e]) ∧
    (dphy.sys_rst.assert_ret = 0 →
      ∃ d, stf_dphy_exit fuel dphy = some (0, d) ∧
        d.trace = dphy.trace ++ [Event.reset_control_assert 0, Event.clk_disable_unprepare,
          Event.set_reg 100 0 STF_DPHY_RESETB_SHIFT STF_DPHY_RESETB_MASK] ∧
        Event.pll_lock_test ∉ d.trace.drop dphy.trace.length ∧
        d.sys_rst.asserted = true ∧
        d.txesc_clk.enabled = false ∧
        field_of (readl d.topsys 100) STF_DPHY_RESETB_SHIFT STF_DPHY_RESETB_MASK = 0 ∧
        d.topsys = stf_dphy_set_reg dphy.topsys 100 0 STF_DPHY_RESETB_SHIFT
          STF_DPHY_RESETB_MASK) := by
  constructor
  · intro e he hret
    have h : dphy.sys_rst.assert_ret ≠ 0 := by rw [hret]; exact he
    refine ⟨{ dphy with trace := dphy.trace ++ [Event.reset_control_assert e] },
      ?_, rfl, rfl, rfl, rfl⟩
    rw [exit_of_assert_failure fuel dphy h, hret]
  · intro hret
    refine ⟨_, exit_of_success fuel dphy hret, rfl, ?_, rfl, rfl,
      resetb_after_assert dphy.topsys, rfl⟩
    simp

/-- C15: with clock and reset resources that always succeed and a register state
from which the lock poll terminates, `stf_dphy_exit` followed by `stf_dphy_init`
on an initialised instance returns 0 from both and restores the resource state
of an initialised instance: clock enabled, system reset deasserted, resetb
field 1 (after the exit alone: clock disabled, reset asserted, resetb 0). -/
theorem C15_exit_then_init_restores (fuel : Nat) (dphy : stf_dphy) (hfuel : 1 ≤ fuel)
    (hres : dphy.txesc_clk.prepare_enable_ret = 0 ∧ dphy.sys_rst.assert_ret = 0 ∧
      dphy.sys_rst.deassert_ret = 0)
    (hinit : dphy.txesc_clk.enabled = true ∧ dphy.sys_rst.asserted = false ∧
      field_of (readl dphy.topsys 100) STF_DPHY_RESETB_SHIFT STF_DPHY_RESETB_MASK = 1)
    (hterm : ∃ n, (stf_dphy_hw_reset n dphy 0).isSome = true) :
    ∃ d1 d2, stf_dphy_exit fuel dphy = some (0, d1) ∧
      stf_dphy_init fuel d1 = some (0, d2) ∧
      (d1.txesc_clk.enabled = false ∧ d1.sys_rst.asserted = true ∧
        field_of (readl d1.topsys 100) STF_DPHY_RESETB_SHIFT STF_DPHY_RESETB_MASK = 0) ∧
      (d2.txesc_clk.enabled = true ∧ d2.sys_rst.asserted = false ∧
        field_of (readl d2.topsys 100) STF_DPHY_RESETB_SHIFT STF_DPHY_RESETB_MASK = 1) ∧
      d2.txesc_clk = dphy.txesc_clk ∧ d2.sys_rst = dphy.sys_rst := by
  obtain ⟨hclk, hass, hdeass⟩ := hres
  obtain ⟨hen, hasrt, -⟩ := hinit
  have hl : is_pll_locked dphy ≠ 0 := (hw_reset_deassert_isSome_iff dphy).mp hterm
  obtain ⟨n, rfl⟩ : ∃ n, fuel = n + 1 := ⟨fuel - 1, by omega⟩
  have hex := exit_of_success (n + 1) dphy hass
  have hl1 : is_pll_locked (⟨stf_dphy_set_reg dphy.topsys 100 0 STF_DPHY_RESETB_SHIFT
      STF_DPHY_RESETB_MASK, { dphy.txesc_clk with enabled := false },
      { dphy.sys_rst with asserted := true },
      dphy.trace ++ [Event.reset_control_assert 0, Event.clk_disable_unprepare,
        Event.set_reg 100 0 STF_DPHY_RESETB_SHIFT STF_DPHY_RESETB_MASK]⟩ : stf_dphy) ≠ 0 := by
    rw [is_pll_locked_congr _ dphy]
    · exact hl
    · show stf_dphy_set_reg dphy.topsys 100 0 STF_DPHY_RESETB_SHIFT
        STF_DPHY_RESETB_MASK 0 = dphy.topsys 0
      rw [stf_dphy_set_reg_apply, if_neg (by decide)]
  have hin := init_of_success n _ hl1 hclk hdeass
  obtain ⟨f1, -, -, -⟩ := init_regs_fields (stf_dphy_set_reg dphy.topsys 100 0
    STF_DPHY_RESETB_SHIFT STF_DPHY_RESETB_MASK)
  refine ⟨_, _, hex, hin, ⟨rfl, rfl, resetb_after_assert dphy.topsys⟩, ⟨rfl, rfl, f1⟩, ?_, ?_⟩
  · cases hc : dphy.txesc_clk with
    | mk en ret =>
      rw [hc] at hen
      simp only at hen
      simp [hen]
  · cases hr : dphy.sys_rst with
    | mk a r1 r2 =>
      rw [hr] at hasrt
      simp only at hasrt
      simp [hasrt]

theorem C15_exit_then_init_restores_witness :
    1 ≤ 1 ∧
    (∃ n, (stf_dphy_hw_reset n
      ⟨fun a => if a = 100 then 0x20000000 else 0, ⟨true, 0⟩, ⟨false, 0, 0⟩, []⟩ 0).isSome
        = true) ∧
    ∃ d1 d2,
      stf_dphy_exit 1
        ⟨fun a => if a = 100 then 0x20000000 else 0, ⟨true, 0⟩, ⟨false, 0, 0⟩, []⟩
        = some (0, d1) ∧
      stf_dphy_init 1 d1 = some (0, d2) :=
  ⟨by decide, ⟨1, by decide⟩,
    match C15_exit_then_init_restores 1
      ⟨fun a => if a = 100 then 0x20000000 else 0, ⟨true, 0⟩, ⟨false, 0, 0⟩, []⟩
      (by decide) ⟨rfl, rfl, rfl⟩ ⟨rfl, rfl, by decide⟩ ⟨1, by decide⟩ with
    | ⟨d1, d2, h1, h2, _⟩ => ⟨d1, d2, h1, h2⟩⟩

/-! ## Table invariant -/

theorem table_ref_clk_and_step :
    ∀ p ∈ m31_dphy_configs, p.ref_clk = 12000000 ∧ p.bitrate % 10000000 = 0 := by
  decide

theorem table_bitrate_increasing :
    List.Pairwise (fun a b : m31_dphy_config => a.bitrate < b.bitrate) m31_dphy_configs := by
  decide

/-- In a list of rows with increasing bitrate, rows of equal bitrate are equal. -/
theorem increasing_unique :
    ∀ t : List m31_dphy_config, List.Pairwise (fun a b => a.bitrate < b.bitrate) t →
      ∀ p ∈ t, ∀ q ∈ t, p.bitrate = q.bitrate → p = q := by
  intro t ht
  induction ht with
  | nil => intro p hp; simp at hp
  | @cons a l hlt _ ih =>
    intro p hp q hq hpq
    rcases List.mem_cons.mp hp with rfl | hp2
    · rcases List.mem_cons.mp hq with rfl | hq2
      · rfl
      · have := hlt q hq2
        omega
    · rcases List.mem_cons.mp hq with rfl | hq2
      · have := hlt p hp2
        omega
      · exact ih p hp2 q hq2 hpq

/-- In a list of rows with increasing bitrate, at most one row has a given bitrate. -/
theorem increasing_filter_length (b : Nat) :
    ∀ t : List m31_dphy_config, List.Pairwise (fun a b => a.bitrate < b.bitrate) t →
      (t.filter (fun p => decide (p.bitrate = b))).length ≤ 1 := by
  intro t ht
  induction ht with
  | nil => simp
  | @cons a l hlt _ ih =>
    by_cases hab : a.bitrate = b
    · have hnil : l.filter (fun p => decide (p.bitrate = b)) = [] := by
        rw [List.filter_eq_nil_iff]
        intro x hx
        have := hlt x hx
        simp only [decide_eq_true_eq]
        omega
      simp [List.filter_cons, hab, hnil]
    · simp only [List.filter_cons, hab, decide_False, Bool.false_eq_true, if_false]
      exact ih

/-- C17: every row of `m31_dphy_configs` has `ref_clk` 12000000 and a bitrate
that is a multiple of 10000000, and the rows are strictly increasing in bitrate
in declaration order; hence for every rounded bit rate at most one row matches,
and the first-match scan programs no row (when none matches) or the one row
with that bitrate. -/
theorem C17_table_invariant :
    (∀ p ∈ m31_dphy_configs, p.ref_clk = 12000000 ∧ p.bitrate % 10000000 = 0) ∧
    List.Pairwise (fun a b : m31_dphy_config => a.bitrate < b.bitrate) m31_dphy_configs ∧
    (∀ b : Nat, (m31_dphy_configs.filter (fun p => decide (p.bitrate = b))).length ≤ 1) ∧
    (∀ (info : stf_dphy_info) (b : Nat) (regs : Regs),
      ((∀ q ∈ m31_dphy_configs, q.bitrate ≠ b) ∧
        configure_scan info b m31_dphy_configs regs = regs) ∨
      (∃ p ∈ m31_dphy_configs, p.bitrate = b ∧
        (∀ q ∈ m31_dphy_configs, q.bitrate = b → q = p) ∧
        configure_scan info b m31_dphy_configs regs = program_row info p regs)) := by
  refine ⟨table_ref_clk_and_step, table_bitrate_increasing,
    fun b => increasing_filter_length b _ table_bitrate_increasing, ?_⟩
  intro info b regs
  rw [configure_scan_eq]
  cases hm : scan_match b m31_dphy_configs with
  | none => exact Or.inl ⟨scan_match_none.mp hm, rfl⟩
  | some p =>
    obtain ⟨hmem, hb⟩ := scan_match_some hm
    refine Or.inr ⟨p, hmem, hb, ?_, rfl⟩
    intro q hq hqb
    exact increasing_unique _ table_bitrate_increasing q hq p hmem (hqb.trans hb.symm)

/-! ## Output-resistance presets -/

theorem program_row_preset_words (info : stf_dphy_info) (p : m31_dphy_config) (regs : Regs)
    (a : Nat) (ha : a = 8 ∨ a = 12 ∨ a = 16) : program_row info p regs a = regs a := by
  rcases ha with rfl | rfl | rfl <;>
    simp [program_row, stf_dphy_set_reg_apply, STF_DPHY_APBIFSAIF_SYSCFG]

/-- The words at offsets 8, 12 and 16 after `stf_dphy_configure` are those the
presets leave, whether a row matches or not. -/
theorem configure_preset_words (info : stf_dphy_info) (r : Nat) (regs : Regs)
    (a : Nat) (ha : a = 8 ∨ a = 12 ∨ a = 16) :
    (stf_dphy_configure info r regs).2 a = hstx_res_presets regs a := by
  rw [stf_dphy_configure_eq, configure_scan_eq]
  cases scan_match (round_bitrate (r % 2 ^ 32)) m31_dphy_configs with
  | none => rfl
  | some p => exact program_row_preset_words info p _ a ha

theorem readl_configure_preset_words (info : stf_dphy_info) (r : Nat) (regs : Regs)
    (a : Nat) (ha : a = 8 ∨ a = 12 ∨ a = 16) :
    readl (stf_dphy_configure info r regs).2 a = readl (hstx_res_presets regs) a := by
  unfold readl
  rw [configure_preset_words info r regs a ha]

/-- The nine preset fields no later preset write overlaps hold 0x10. -/
theorem presets_nine_fields (regs : Regs) :
    field_of (readl (hstx_res_presets regs) 8) STF_DPHY_RG_CDTX_L0N_HSTX_RES_SHIFT
      STF_DPHY_RG_CDTX_L0N_HSTX_RES_MASK = 0x10 ∧
    field_of (readl (hstx_res_presets regs) 12) STF_DPHY_RG_CDTX_L2N_HSTX_RES_SHIFT
      STF_DPHY_RG_CDTX_L2N_HSTX_RES_MASK = 0x10 ∧
    field_of (readl (hstx_res_presets regs) 12) STF_DPHY_RG_CDTX_L3N_HSTX_RES_SHIFT
      STF_DPHY_RG_CDTX_L3N_HSTX_RES_MASK = 0x10 ∧
    field_of (readl (hstx_res_presets regs) 16) STF_DPHY_RG_CDTX_L4N_HSTX_RES_SHIFT
      STF_DPHY_RG_CDTX_L4N_HSTX_RES_MASK = 0x10 ∧
    field_of (readl (hstx_res_presets regs) 8) STF_DPHY_RG_CDTX_L0P_HSTX_RES_SHIFT
      STF_DPHY_RG_CDTX_L0P_HSTX_RES_MASK = 0x10 ∧
    field_of (readl (hstx_res_presets regs) 12) STF_DPHY_RG_CDTX_L1P_HSTX_RES_SHIFT
      STF_DPHY_RG_CDTX_L1P_HSTX_RES_MASK = 0x10 ∧
    field_of (readl (hstx_res_presets regs) 12) STF_DPHY_RG_CDTX_L2P_HSTX_RES_SHIFT
      STF_DPHY_RG_CDTX_L2P_HSTX_RES_MASK = 0x10 ∧
    field_of (readl (hstx_res_presets regs) 12) STF_DPHY_RG_CDTX_L3P_HSTX_RES_SHIFT
      STF_DPHY_RG_CDTX_L3P_HSTX_RES_MASK = 0x10 ∧
    field_of (readl (hstx_res_presets regs) 16) STF_DPHY_RG_CDTX_L4P_HSTX_RES_SHIFT
      STF_DPHY_RG_CDTX_L4P_HSTX_RES_MASK = 0x10 := by
  simp only [hstx_res_presets, readl_set_reg, STF_DPHY_APBIFSAIF_SYSCFG,
    STF_DPHY_RG_CDTX_L0N_HSTX_RES_SHIFT, STF_DPHY_RG_CDTX_L0N_HSTX_RES_MASK,
    STF_DPHY_RG_CDTX_L0P_HSTX_RES_SHIFT, STF_DPHY_RG_CDTX_L0P_HSTX_RES_MASK,
    STF_DPHY_RG_CDTX_L1P_HSTX_RES_SHIFT, STF_DPHY_RG_CDTX_L1P_HSTX_RES_MASK,
    STF_DPHY_RG_CDTX_L2N_HSTX_RES_SHIFT, STF_DPHY_RG_CDTX_L2N_HSTX_RES_MASK,
    STF_DPHY_RG_CDTX_L2P_HSTX_RES_SHIFT, STF_DPHY_RG_CDTX_L2P_HSTX_RES_MASK,
    STF_DPHY_RG_CDTX_L3N_HSTX_RES_SHIFT, STF_DPHY_RG_CDTX_L3N_HSTX_RES_MASK,
    STF_DPHY_RG_CDTX_L3P_HSTX_RES_SHIFT, STF_DPHY_RG_CDTX_L3P_HSTX_RES_MASK,
    STF_DPHY_RG_CDTX_L4N_HSTX_RES_SHIFT, STF_DPHY_RG_CDTX_L4N_HSTX_RES_MASK,
    STF_DPHY_RG_CDTX_L4P_HSTX_RES_SHIFT, STF_DPHY_RG_CDTX_L4P_HSTX_RES_MASK]
  simp [field_of_rmw_same, field_of_rmw_other, is_u32_readl, is_u32_rmw_word]

/-- The field written at offset 12 with the L0N shift and mask (bits 19-23) is
overwritten by the later L3N (bits 20-24) and L2P (bits 15-19) writes: it
holds 1. -/
theorem presets_overwritten_field (regs : Regs) :
    field_of (readl (hstx_res_presets regs) 12) STF_DPHY_RG_CDTX_L0N_HSTX_RES_SHIFT
      STF_DPHY_RG_CDTX_L0N_HSTX_RES_MASK = 1 := by
  simp only [hstx_res_presets, readl_set_reg, STF_DPHY_APBIFSAIF_SYSCFG,
    STF_DPHY_RG_CDTX_L0N_HSTX_RES_SHIFT, STF_DPHY_RG_CDTX_L0N_HSTX_RES_MASK,
    STF_DPHY_RG_CDTX_L0P_HSTX_RES_SHIFT, STF_DPHY_RG_CDTX_L0P_HSTX_RES_MASK,
    STF_DPHY_RG_CDTX_L1P_HSTX_RES_SHIFT, STF_DPHY_RG_CDTX_L1P_HSTX_RES_MASK,
    STF_DPHY_RG_CDTX_L2N_HSTX_RES_SHIFT, STF_DPHY_RG_CDTX_L2N_HSTX_RES_MASK,
    STF_DPHY_RG_CDTX_L2P_HSTX_RES_SHIFT, STF_DPHY_RG_CDTX_L2P_HSTX_RES_MASK,
    STF_DPHY_RG_CDTX_L3N_HSTX_RES_SHIFT, STF_DPHY_RG_CDTX_L3N_HSTX_RES_MASK,
    STF_DPHY_RG_CDTX_L3P_HSTX_RES_SHIFT, STF_DPHY_RG_CDTX_L3P_HSTX_RES_MASK,
    STF_DPHY_RG_CDTX_L4N_HSTX_RES_SHIFT, STF_DPHY_RG_CDTX_L4N_HSTX_RES_MASK,
    STF_DPHY_RG_CDTX_L4P_HSTX_RES_SHIFT, STF_DPHY_RG_CDTX_L4P_HSTX_RES_MASK]
  apply Nat.eq_of_testBit_eq
  intro j
  unfold field_of
  rw [Nat.testBit_shiftRight, Nat.testBit_and, testBit_GENMASK 23 19 _ (by decide)]
  by_cases hj : j < 5
  · interval_cases j <;>
      simp [testBit_rmw_GENMASK, is_u32_readl, is_u32_rmw_word] <;> decide
  · have h1 : ¬ 19 + j ≤ 23 := by omega
    have h2 : (1 : Nat).testBit j = false :=
      testBit_false_of_lt (by decide : (1 : Nat) < 2 ^ 1) (by omega)
    simp [h1, h2]


/-- C20 (what the code leaves): for every register state, lane map and requested
bit rate, after `stf_dphy_configure` the field at offset 12 with the L0N shift
and mask (bits 19-23) holds 1, not 0x10; the other nine preset fields hold 0x10. -/
theorem C20_preset_field_overwritten (info : stf_dphy_info) (r : Nat) (regs : Regs) :
    field_of (readl (stf_dphy_configure info r regs).2 12)
      STF_DPHY_RG_CDTX_L0N_HSTX_RES_SHIFT STF_DPHY_RG_CDTX_L0N_HSTX_RES_MASK = 1 ∧
    field_of (readl (stf_dphy_configure info r regs).2 8)
      STF_DPHY_RG_CDTX_L0N_HSTX_RES_SHIFT STF_DPHY_RG_CDTX_L0N_HSTX_RES_MASK = 0x10 ∧
    field_of (readl (stf_dphy_configure info r regs).2 12)
      STF_DPHY_RG_CDTX_L2N_HSTX_RES_SHIFT STF_DPHY_RG_CDTX_L2N_HSTX_RES_MASK = 0x10 ∧
    field_of (readl (stf_dphy_configure info r regs).2 12)
      STF_DPHY_RG_CDTX_L3N_HSTX_RES_SHIFT STF_DPHY_RG_CDTX_L3N_HSTX_RES_MASK = 0x10 ∧
    field_of (readl (stf_dphy_configure info r regs).2 16)
      STF_DPHY_RG_CDTX_L4N_HSTX_RES_SHIFT STF_DPHY_RG_CDTX_L4N_HSTX_RES_MASK = 0x10 ∧
    field_of (readl (stf_dphy_configure info r regs).2 8)
      STF_DPHY_RG_CDTX_L0P_HSTX_RES_SHIFT STF_DPHY_RG_CDTX_L0P_HSTX_RES_MASK = 0x10 ∧
    field_of (readl (stf_dphy_configure info r regs).2 12)
      STF_DPHY_RG_CDTX_L1P_HSTX_RES_SHIFT STF_DPHY_RG_CDTX_L1P_HSTX_RES_MASK = 0x10 ∧
    field_of (readl (stf_dphy_configure info r regs).2 12)
      STF_DPHY_RG_CDTX_L2P_HSTX_RES_SHIFT STF_DPHY_RG_CDTX_L2P_HSTX_RES_MASK = 0x10 ∧
    field_of (readl (stf_dphy_configure info r regs).2 12)
      STF_DPHY_RG_CDTX_L3P_HSTX_RES_SHIFT STF_DPHY_RG_CDTX_L3P_HSTX_RES_MASK = 0x10 ∧
    field_of (readl (stf_dphy_configure info r regs).2 16)
      STF_DPHY_RG_CDTX_L4P_HSTX_RES_SHIFT STF_DPHY_RG_CDTX_L4P_HSTX_RES_MASK = 0x10 := by
  rw [readl_configure_preset_words info r regs 8 (by decide),
    readl_configure_preset_words info r regs 12 (by decide),
    readl_configure_preset_words info r regs 16 (by decide)]
  exact ⟨presets_overwritten_field regs, presets_nine_fields regs⟩

/-! ## The trace of `stf_dphy_configure` -/

theorem hstx_res_presets_traced_topsys (dphy : stf_dphy) :
    (hstx_res_presets_traced dphy).topsys = hstx_res_presets dphy.topsys := rfl

theorem program_row_traced_topsys (info : stf_dphy_info) (p : m31_dphy_config)
    (dphy : stf_dphy) :
    (program_row_traced info p dphy).topsys = program_row info p dphy.topsys := rfl

/-- The trace of the ten preset writes. -/
theorem hstx_res_presets_traced_trace (dphy : stf_dphy) :
    (hstx_res_presets_traced dphy).trace = dphy.trace ++ [
      Event.set_reg (STF_DPHY_APBIFSAIF_SYSCFG 8) 0x10 STF_DPHY_RG_CDTX_L0N_HSTX_RES_SHIFT
        STF_DPHY_RG_CDTX_L0N_HSTX_RES_MASK,
      Event.set_reg (STF_DPHY_APBIFSAIF_SYSCFG 12) 0x10 STF_DPHY_RG_CDTX_L0N_HSTX_RES_SHIFT
        STF_DPHY_RG_CDTX_L0N_HSTX_RES_MASK,
      Event.set_reg (STF_DPHY_APBIFSAIF_SYSCFG 12) 0x10 STF_DPHY_RG_CDTX_L2N_HSTX_RES_SHIFT
        STF_DPHY_RG_CDTX_L2N_HSTX_RES_MASK,
      Event.set_reg (STF_DPHY_APBIFSAIF_SYSCFG 12) 0x10 STF_DPHY_RG_CDTX_L3N_HSTX_RES_SHIFT
        STF_DPHY_RG_CDTX_L3N_HSTX_RES_MASK,
      Event.set_reg (STF_DPHY_APBIFSAIF_SYSCFG 16) 0x10 STF_DPHY_RG_CDTX_L4N_HSTX_RES_SHIFT
        STF_DPHY_RG_CDTX_L4N_HSTX_RES_MASK,
      Event.set_reg (STF_DPHY_APBIFSAIF_SYSCFG 8) 0x10 STF_DPHY_RG_CDTX_L0P_HSTX_RES_SHIFT
        STF_DPHY_RG_CDTX_L0P_HSTX_RES_MASK,
      Event.set_reg (STF_DPHY_APBIFSAIF_SYSCFG 12) 0x10 STF_DPHY_RG_CDTX_L1P_HSTX_RES_SHIFT
        STF_DPHY_RG_CDTX_L1P_HSTX_RES_MASK,
      Event.set_reg (STF_DPHY_APBIFSAIF_SYSCFG 12) 0x10 STF_DPHY_RG_CDTX_L2P_HSTX_RES_SHIFT
        STF_DPHY_RG_CDTX_L2P_HSTX_RES_MASK,
      Event.set_reg (STF_DPHY_APBIFSAIF_SYSCFG 12) 0x10 STF_DPHY_RG_CDTX_L3P_HSTX_RES_SHIFT
        STF_DPHY_RG_CDTX_L3P_HSTX_RES_MASK,
      Event.set_reg (STF_DPHY_APBIFSAIF_SYSCFG 16) 0x10 STF_DPHY_RG_CDTX_L4P_HSTX_RES_SHIFT
        STF_DPHY_RG_CDTX_L4P_HSTX_RES_MASK] := by
  simp [hstx_res_presets_traced, dphy_set_reg]

/-- The trace of the writes made for a matching row. -/
theorem program_row_traced_trace (info : stf_dphy_info) (p : m31_dphy_config)
    (dphy : stf_dphy) :
    (program_row_traced info p dphy).trace = dphy.trace ++ [
      Event.set_reg (STF_DPHY_APBIFSAIF_SYSCFG 100) STF_DPHY_REFCLK_12M
        STF_DPHY_REFCLK_IN_SEL_SHIFT STF_DPHY_REFCLK_IN_SEL_MASK,
      Event.set_reg (STF_DPHY_APBIFSAIF_SYSCFG 0) STF_DPHY_AON_POWER_READY_N_ACTIVE
        STF_DPHY_AON_POWER_READY_N_SHIFT STF_DPHY_AON_POWER_READY_N_MASK,
      Event.set_reg (STF_DPHY_APBIFSAIF_SYSCFG 0) (info.maps 0) STF_DPHY_CFG_L0_SWAP_SEL_SHIFT
        STF_DPHY_CFG_L0_SWAP_SEL_MASK,
      Event.set_reg (STF_DPHY_APBIFSAIF_SYSCFG 0) (info.maps 1) STF_DPHY_CFG_L1_SWAP_SEL_SHIFT
        STF_DPHY_CFG_L1_SWAP_SEL_MASK,
      Event.set_reg (STF_DPHY_APBIFSAIF_SYSCFG 0) (info.maps 2) STF_DPHY_CFG_L2_SWAP_SEL_SHIFT
        STF_DPHY_CFG_L2_SWAP_SEL_MASK,
      Event.set_reg (STF_DPHY_APBIFSAIF_SYSCFG 0) (info.maps 3) STF_DPHY_CFG_L3_SWAP_SEL_SHIFT
        STF_DPHY_CFG_L3_SWAP_SEL_MASK,
      Event.set_reg (STF_DPHY_APBIFSAIF_SYSCFG 0) (info.maps 4) STF_DPHY_CFG_L4_SWAP_SEL_SHIFT
        STF_DPHY_CFG_L4_SWAP_SEL_MASK,
      Event.set_reg (STF_DPHY_APBIFSAIF_SYSCFG 28) 0x0 STF_DPHY_RG_CDTX_PLL_SSC_EN_SHIFT
        STF_DPHY_RG_CDTX_PLL_SSC_EN_MASK,
      Event.set_reg (STF_DPHY_APBIFSAIF_SYSCFG 24) 0x1 STF_DPHY_RG_CDTX_PLL_LDO_STB_X2_EN_SHIFT
        STF_DPHY_RG_CDTX_PLL_LDO_STB_X2_EN_MASK,
      Event.set_reg (STF_DPHY_APBIFSAIF_SYSCFG 24) 0x1 STF_DPHY_RG_CDTX_PLL_FM_EN_SHIFT
        STF_DPHY_RG_CDTX_PLL_FM_EN_MASK,
      Event.set_reg (STF_DPHY_APBIFSAIF_SYSCFG 24) p.pll_prev_div
        STF_DPHY_RG_CDTX_PLL_PRE_DIV_SHIFT STF_DPHY_RG_CDTX_PLL_PRE_DIV_MASK,
      Event.set_reg (STF_DPHY_APBIFSAIF_SYSCFG 24) p.pll_fbk_int
        STF_DPHY_RG_CDTX_PLL_FBK_INT_SHIFT STF_DPHY_RG_CDTX_PLL_FBK_INT_MASK,
      Event.set_reg (STF_DPHY_APBIFSAIF_SYSCFG 20) p.pll_fbk_fra
        STF_DPHY_RG_CDTX_PLL_FBK_FRA_SHIFT STF_DPHY_RG_CDTX_PLL_FBK_FRA_MASK,
      Event.set_reg (STF_DPHY_APBIFSAIF_SYSCFG 40) p.extd_cycle_sel
        STF_DPHY_RG_EXTD_CYCLE_SEL_SHIFT STF_DPHY_RG_EXTD_CYCLE_SEL_MASK,
      Event.set_reg (STF_DPHY_APBIFSAIF_SYSCFG 36) p.dlane_hs_pre_time
        STF_DPHY_RG_DLANE_HS_PRE_TIME_SHIFT STF_DPHY_RG_DLANE_HS_PRE_TIME_MASK,
      Event.set_reg (STF_DPHY_APBIFSAIF_SYSCFG 36) p.dlane_hs_pre_time
        STF_DPHY_RG_DLANE_HS_PRE_TIME_SHIFT STF_DPHY_RG_DLANE_HS_PRE_TIME_MASK,
      Event.set_reg (STF_DPHY_APBIFSAIF_SYSCFG 36) p.dlane_hs_zero_time
        STF_DPHY_RG_DLANE_HS_ZERO_TIME_SHIFT STF_DPHY_RG_DLANE_HS_ZERO_TIME_MASK,
      Event.set_reg (STF_DPHY_APBIFSAIF_SYSCFG 36) p.dlane_hs_trail_time
        STF_DPHY_RG_DLANE_HS_TRAIL_TIME_SHIFT STF_DPHY_RG_DLANE_HS_TRAIL_TIME_MASK,
      Event.set_reg (STF_DPHY_APBIFSAIF_SYSCFG 32) p.clane_hs_pre_time
        STF_DPHY_RG_CLANE_HS_PRE_TIME_SHIFT STF_DPHY_RG_CLANE_HS_PRE_TIME_MASK,
      Event.set_reg (STF_DPHY_APBIFSAIF_SYSCFG 36) p.clane_hs_zero_time
        STF_DPHY_RG_CLANE_HS_ZERO_TIME_SHIFT STF_DPHY_RG_CLANE_HS_ZERO_TIME_MASK,
      Event.set_reg (STF_DPHY_APBIFSAIF_SYSCFG 32) p.clane_hs_trail_time
        STF_DPHY_RG_CLANE_HS_TRAIL_TIME_SHIFT STF_DPHY_RG_CLANE_HS_TRAIL_TIME_MASK,
      Event.set_reg (STF_DPHY_APBIFSAIF_SYSCFG 32) p.clane_hs_clk_pre_time
        STF_DPHY_RG_CLANE_HS_CLK_PRE_TIME_SHIFT STF_DPHY_RG_CLANE_HS_CLK_PRE_TIME_MASK,
      Event.set_reg (STF_DPHY_APBIFSAIF_SYSCFG 32) p.clane_hs_clk_post_time
        STF_DPHY_RG_CLANE_HS_CLK_POST_TIME_SHIFT STF_DPHY_RG_CLANE_HS_CLK_POST_TIME_MASK] := by
  simp only [program_row_traced, dphy_set_reg, List.append_assoc, List.singleton_append,
    List.cons_append, List.nil_append]

/-- The traced scan loop programs exactly the row found by `scan_match`. -/
theorem configure_scan_traced_eq (info : stf_dphy_info) (b : Nat) (dphy : stf_dphy) :
    ∀ t : List m31_dphy_config, configure_scan_traced info b t dphy =
      match scan_match b t with
      | some p => program_row_traced info p dphy
      | none => dphy := by
  intro t
  induction t with
  | nil => simp [configure_scan_traced, scan_match]
  | cons q qs ih =>
    unfold configure_scan_traced scan_match
    by_cases hq : q.bitrate = b
    · simp [hq]
    · simp [hq, ih]

/-- The traced callback computes the registers and the return value of
`stf_dphy_configure`. -/
theorem stf_dphy_configure_traced_regs (info : stf_dphy_info) (r : Nat) (dphy : stf_dphy) :
    (stf_dphy_configure_traced info r dphy).1 = (stf_dphy_configure info r dphy.topsys).1 ∧
    (stf_dphy_configure_traced info r dphy).2.topsys =
      (stf_dphy_configure info r dphy.topsys).2 := by
  refine ⟨rfl, ?_⟩
  simp only [stf_dphy_configure_traced, stf_dphy_configure, configure_scan_traced_eq,
    configure_scan_eq]
  cases scan_match (round_bitrate (r % 2 ^ 32)) m31_dphy_configs with
  | none => exact hstx_res_presets_traced_topsys dphy
  | some p =>
    show (program_row_traced info p (hstx_res_presets_traced dphy)).topsys =
      program_row info p (hstx_res_presets dphy.topsys)
    rw [program_row_traced_topsys, hstx_res_presets_traced_topsys]

/-- C19: for every requested bit rate that matches a table row, the trace of
`stf_dphy_configure` is the trace of the presets followed by the writes made
for the match, and those visit the fields, in order of first write, as:
reference-clock select, AON power-ready, lane swap-select L0..L4, SSC, LDO
stability, frequency modulation, pre-divider, feedback integer, feedback
fraction, extended-cycle select, data-lane HS pre, zero, trail, clock-lane HS
pre, zero, trail, clk-pre, clk-post; in particular SSC, LDO and FM come before
the PLL divider and feedback fields. -/
theorem C19_configure_write_order (info : stf_dphy_info) (r : Nat) (dphy : stf_dphy)
    (p : m31_dphy_config)
    (hm : scan_match (round_bitrate (r % 2 ^ 32)) m31_dphy_configs = some p) :
    ∃ pre tr : List Event,
      (hstx_res_presets_traced dphy).trace = dphy.trace ++ pre ∧
      (stf_dphy_configure_traced info r dphy).2.trace = dphy.trace ++ pre ++ tr ∧
      (stf_dphy_configure_traced info r dphy).2.topsys =
        (stf_dphy_configure info r dphy.topsys).2 ∧
      tr.length = 23 ∧
      (tr.filterMap event_field).length = 23 ∧
      first_writes tr = configure_write_order ∧
      List.Sublist [
        (28, STF_DPHY_RG_CDTX_PLL_SSC_EN_SHIFT, STF_DPHY_RG_CDTX_PLL_SSC_EN_MASK),
        (24, STF_DPHY_RG_CDTX_PLL_LDO_STB_X2_EN_SHIFT, STF_DPHY_RG_CDTX_PLL_LDO_STB_X2_EN_MASK),
        (24, STF_DPHY_RG_CDTX_PLL_FM_EN_SHIFT, STF_DPHY_RG_CDTX_PLL_FM_EN_MASK),
        (24, STF_DPHY_RG_CDTX_PLL_PRE_DIV_SHIFT, STF_DPHY_RG_CDTX_PLL_PRE_DIV_MASK),
        (24, STF_DPHY_RG_CDTX_PLL_FBK_INT_SHIFT, STF_DPHY_RG_CDTX_PLL_FBK_INT_MASK),
        (20, STF_DPHY_RG_CDTX_PLL_FBK_FRA_SHIFT, STF_DPHY_RG_CDTX_PLL_FBK_FRA_MASK)]
        configure_write_order := by
  have h2 := program_row_traced_trace info p (hstx_res_presets_traced dphy)
  rw [hstx_res_presets_traced_trace] at h2
  have h3 : (stf_dphy_configure_traced info r dphy).2.trace =
      (program_row_traced info p (hstx_res_presets_traced dphy)).trace := by
    simp only [stf_dphy_configure_traced, configure_scan_traced_eq, hm]
  exact ⟨_, _, hstx_res_presets_traced_trace dphy, h3.trans h2,
    (stf_dphy_configure_traced_regs info r dphy).2, rfl, rfl, rfl, by decide⟩

theorem C19_configure_write_order_witness :
    scan_match (round_bitrate (500000000 % 2 ^ 32)) m31_dphy_configs =
      some (m31_dphy_config.mk 12000000 500000000 0x0 0xa6 0xaaaaaa 0x2 0xc 0x1d 0x14 0x9
        0x42 0x12 0x3 0x28) ∧
    ∃ pre tr : List Event,
      (hstx_res_presets_traced ⟨fun _ => 0, ⟨false, 0⟩, ⟨true, 0, 0⟩, []⟩).trace =
        [] ++ pre ∧
      (stf_dphy_configure_traced starfive_dphy_info 500000000
        ⟨fun _ => 0, ⟨false, 0⟩, ⟨true, 0, 0⟩, []⟩).2.trace = [] ++ pre ++ tr ∧
      tr.length = 23 :=
  ⟨by decide,
    match C19_configure_write_order starfive_dphy_info 500000000
      ⟨fun _ => 0, ⟨false, 0⟩, ⟨true, 0, 0⟩, []⟩
      (m31_dphy_config.mk 12000000 500000000 0x0 0xa6 0xaaaaaa 0x2 0xc 0x1d 0x14 0x9
        0x42 0x12 0x3 0x28) (by decide) with
    | ⟨pre, tr, h1, h2, _, h4, _⟩ => ⟨pre, tr, h1, h2, h4⟩⟩

/-! ## The supported domain and the rounding in 32 bits -/

/-- Every table bitrate lies in one of the two bands. -/
theorem table_bitrate_bands :
    ∀ p ∈ m31_dphy_configs, (160000000 ≤ p.bitrate ∧ p.bitrate ≤ 200000000) ∨
      (320000000 ≤ p.bitrate ∧ p.bitrate ≤ 1000000000) := by
  decide

theorem table_row_counts :
    m31_dphy_configs.length = 74 ∧
    (m31_dphy_configs.filter (fun p => decide (p.bitrate ≤ 200000000))).length = 5 ∧
    (m31_dphy_configs.filter (fun p => decide (320000000 ≤ p.bitrate))).length = 69 := by
  decide

/-- C21: for every requested bit rate `r` not above 4290000000,
`stf_dphy_configure` finds a matching row if and only if `r` rounded up to a
multiple of 10 MHz lies in [160000000, 200000000] or in
[320000000, 1000000000]; the table has exactly 74 rows, 5 up to 200 MHz and 69
from 320 MHz, and no row for 210000000 through 310000000. -/
theorem C21_exact_supported_domain (r : Nat) (hr : r ≤ 4290000000) :
    ((scan_match (round_bitrate (r % 2 ^ 32)) m31_dphy_configs).isSome = true ↔
      ((160000000 ≤ (if r % 10000000 = 0 then r else r + (10000000 - r % 10000000)) ∧
        (if r % 10000000 = 0 then r else r + (10000000 - r % 10000000)) ≤ 200000000) ∨
       (320000000 ≤ (if r % 10000000 = 0 then r else r + (10000000 - r % 10000000)) ∧
        (if r % 10000000 = 0 then r else r + (10000000 - r % 10000000)) ≤ 1000000000))) ∧
    m31_dphy_configs.length = 74 ∧
    (m31_dphy_configs.filter (fun p => decide (p.bitrate ≤ 200000000))).length = 5 ∧
    (m31_dphy_configs.filter (fun p => decide (320000000 ≤ p.bitrate))).length = 69 ∧
    (∀ p ∈ m31_dphy_configs, ¬ (210000000 ≤ p.bitrate ∧ p.bitrate ≤ 310000000)) := by
  have h32 : r % 2 ^ 32 = r := Nat.mod_eq_of_lt (by omega)
  have hround : round_bitrate r =
      (if r % 10000000 = 0 then r else r + (10000000 - r % 10000000)) := by
    by_cases hmul : r % 10000000 = 0
    · simp only [hmul, if_true]
      exact round_bitrate_of_multiple r hmul
    · simp only [hmul, if_false]
      exact round_bitrate_of_le r hr hmul
  have hmulb : round_bitrate r % 10000000 = 0 := by
    rw [hround]
    by_cases hmul : r % 10000000 = 0
    · simp only [hmul, if_true]
    · simp only [hmul, if_false]
      omega
  refine ⟨?_, table_row_counts.1, table_row_counts.2.1, table_row_counts.2.2, ?_⟩
  · rw [h32, ← hround]
    constructor
    · intro hs
      obtain ⟨p, hp⟩ := Option.isSome_iff_exists.mp hs
      obtain ⟨hmem, hb⟩ := scan_match_some hp
      rw [← hb]
      exact table_bitrate_bands p hmem
    · intro hband
      obtain ⟨k, hk⟩ := Nat.dvd_of_mod_eq_zero hmulb
      rw [hk]
      exact scan_match_steps k (by omega)
  · intro p hp hgap
    have := table_bitrate_bands p hp
    omega

theorem C21_exact_supported_domain_witness :
    205000000 ≤ 4290000000 ∧
    ((scan_match (round_bitrate (205000000 % 2 ^ 32)) m31_dphy_configs).isSome = true ↔
      ((160000000 ≤ (if 205000000 % 10000000 = 0 then 205000000
          else 205000000 + (10000000 - 205000000 % 10000000)) ∧
        (if 205000000 % 10000000 = 0 then 205000000
          else 205000000 + (10000000 - 205000000 % 10000000)) ≤ 200000000) ∨
       (320000000 ≤ (if 205000000 % 10000000 = 0 then 205000000
          else 205000000 + (10000000 - 205000000 % 10000000)) ∧
        (if 205000000 % 10000000 = 0 then 205000000
          else 205000000 + (10000000 - 205000000 % 10000000)) ≤ 1000000000))) :=
  ⟨by decide, (C21_exact_supported_domain 205000000 (by decide)).1⟩

/-- C24: for every value `r` of the `u32` bitrate with `r <= 4290000000` the
rounded value computed by `stf_dphy_configure` does not overflow and is the
least multiple of 10000000 that is `>= r`; for every `r` with
`4290000000 < r <= 4294967295` the addition wraps modulo 2^32 to 5032704, which
is not a multiple of 10000000 and matches no table row. -/
theorem C24_rounding_in_32_bits (r : Nat) (hr : r ≤ 4294967295) :
    (r ≤ 4290000000 →
      round_bitrate (r % 2 ^ 32) =
        (if r % 10000000 = 0 then r else r + (10000000 - r % 10000000)) ∧
      round_bitrate (r % 2 ^ 32) < 2 ^ 32 ∧
      round_bitrate (r % 2 ^ 32) % 10000000 = 0 ∧
      r ≤ round_bitrate (r % 2 ^ 32) ∧
      (∀ m, m % 10000000 = 0 → r ≤ m → round_bitrate (r % 2 ^ 32) ≤ m)) ∧
    (4290000000 < r →
      round_bitrate (r % 2 ^ 32) = 5032704 ∧
      r + (10000000 - r % 10000000) = 2 ^ 32 + 5032704 ∧
      5032704 % 10000000 ≠ 0 ∧
      scan_match (round_bitrate (r % 2 ^ 32)) m31_dphy_configs = none) := by
  have h32 : r % 2 ^ 32 = r := Nat.mod_eq_of_lt (by omega)
  rw [h32]
  constructor
  · intro hle
    by_cases hmul : r % 10000000 = 0
    · rw [round_bitrate_of_multiple r hmul, if_pos hmul]
      exact ⟨rfl, by omega, hmul, Nat.le_refl r, fun m _ hm => hm⟩
    · rw [round_bitrate_of_le r hle hmul, if_neg hmul]
      refine ⟨rfl, by omega, by omega, by omega, ?_⟩
      intro m hm hrm
      omega
  · intro hgt
    have hmul : r % 10000000 ≠ 0 := by omega
    have hval : round_bitrate r = 5032704 := by
      simp only [round_bitrate, STF_DPHY_BITRATE_ALIGN, hmul, ne_eq, not_false_eq_true,
        if_true]
      omega
    refine ⟨hval, by omega, by decide, ?_⟩
    rw [hval]
    decide

theorem C24_rounding_in_32_bits_witness :
    4294967295 ≤ 4294967295 ∧ 4290000000 < 4294967295 ∧
    round_bitrate (4294967295 % 2 ^ 32) = 5032704 ∧
    4294967295 + (10000000 - 4294967295 % 10000000) = 2 ^ 32 + 5032704 ∧
    5032704 % 10000000 ≠ 0 ∧
    scan_match (round_bitrate (4294967295 % 2 ^ 32)) m31_dphy_configs = none :=
  ⟨by decide, by decide,
    (C24_rounding_in_32_bits 4294967295 (by decide)).2 (by decide)⟩

/-! ## No truncation of table values -/

/-- A value that fits the field `l..h` is not changed by the shift in 32 bits
and the mask. -/
theorem shift_in_mask (v h l : Nat) (hv : v < 2 ^ (h + 1 - l)) (hl : l ≤ h + 1)
    (hh : h < 32) : ((v <<< l) % 2 ^ 32) &&& GENMASK h l = v <<< l := by
  apply Nat.eq_of_testBit_eq
  intro i
  rw [Nat.testBit_and, Nat.testBit_mod_two_pow, Nat.testBit_shiftLeft,
    testBit_GENMASK h l i hl]
  by_cases h1 : l ≤ i
  · by_cases h2 : i ≤ h
    · have h3 : i < 32 := by omega
      simp [h1, h2, h3]
    · have h4 : v.testBit (i - l) = false := testBit_false_of_lt hv (by omega)
      simp [h1, h2, h4]
  · simp [h1]

/-- C22: no table value is truncated when programmed: for every row of
`m31_dphy_configs`, pll_prev_div < 2^2, pll_fbk_int < 2^9, pll_fbk_fra < 2^24,
extd_cycle_sel < 2^3 and each of the eight HS timing values < 2^8, so
`(value << shift) & mask` equals `value << shift` for the field each value is
written to. -/
theorem C22_no_table_value_truncated (p : m31_dphy_config) (hp : p ∈ m31_dphy_configs) :
    (p.pll_prev_div < 2 ^ 2 ∧ p.pll_fbk_int < 2 ^ 9 ∧ p.pll_fbk_fra < 2 ^ 24 ∧
      p.extd_cycle_sel < 2 ^ 3 ∧ p.dlane_hs_pre_time < 2 ^ 8 ∧
      p.dlane_hs_zero_time < 2 ^ 8 ∧ p.dlane_hs_trail_time < 2 ^ 8 ∧
      p.clane_hs_pre_time < 2 ^ 8 ∧ p.clane_hs_zero_time < 2 ^ 8 ∧
      p.clane_hs_trail_time < 2 ^ 8 ∧ p.clane_hs_clk_pre_time < 2 ^ 8 ∧
      p.clane_hs_clk_post_time < 2 ^ 8) ∧
    ((p.pll_prev_div <<< STF_DPHY_RG_CDTX_PLL_PRE_DIV_SHIFT) % 2 ^ 32) &&& STF_DPHY_RG_CDTX_PLL_PRE_DIV_MASK =
      p.pll_prev_div <<< STF_DPHY_RG_CDTX_PLL_PRE_DIV_SHIFT ∧
    ((p.pll_fbk_int <<< STF_DPHY_RG_CDTX_PLL_FBK_INT_SHIFT) % 2 ^ 32) &&& STF_DPHY_RG_CDTX_PLL_FBK_INT_MASK =
      p.pll_fbk_int <<< STF_DPHY_RG_CDTX_PLL_FBK_INT_SHIFT ∧
    ((p.pll_fbk_fra <<< STF_DPHY_RG_CDTX_PLL_FBK_FRA_SHIFT) % 2 ^ 32) &&& STF_DPHY_RG_CDTX_PLL_FBK_FRA_MASK =
      p.pll_fbk_fra <<< STF_DPHY_RG_CDTX_PLL_FBK_FRA_SHIFT ∧
    ((p.extd_cycle_sel <<< STF_DPHY_RG_EXTD_CYCLE_SEL_SHIFT) % 2 ^ 32) &&& STF_DPHY_RG_EXTD_CYCLE_SEL_MASK =
      p.extd_cycle_sel <<< STF_DPHY_RG_EXTD_CYCLE_SEL_SHIFT ∧
    ((p.dlane_hs_pre_time <<< STF_DPHY_RG_DLANE_HS_PRE_TIME_SHIFT) % 2 ^ 32) &&& STF_DPHY_RG_DLANE_HS_PRE_TIME_MASK =
      p.dlane_hs_pre_time <<< STF_DPHY_RG_DLANE_HS_PRE_TIME_SHIFT ∧
    ((p.dlane_hs_zero_time <<< STF_DPHY_RG_DLANE_HS_ZERO_TIME_SHIFT) % 2 ^ 32) &&& STF_DPHY_RG_DLANE_HS_ZERO_TIME_MASK =
      p.dlane_hs_zero_time <<< STF_DPHY_RG_DLANE_HS_ZERO_TIME_SHIFT ∧
    ((p.dlane_hs_trail_time <<< STF_DPHY_RG_DLANE_HS_TRAIL_TIME_SHIFT) % 2 ^ 32) &&& STF_DPHY_RG_DLANE_HS_TRAIL_TIME_MASK =
      p.dlane_hs_trail_time <<< STF_DPHY_RG_DLANE_HS_TRAIL_TIME_SHIFT ∧
    ((p.clane_hs_pre_time <<< STF_DPHY_RG_CLANE_HS_PRE_TIME_SHIFT) % 2 ^ 32) &&& STF_DPHY_RG_CLANE_HS_PRE_TIME_MASK =
      p.clane_hs_pre_time <<< STF_DPHY_RG_CLANE_HS_PRE_TIME_SHIFT ∧
    ((p.clane_hs_zero_time <<< STF_DPHY_RG_CLANE_HS_ZERO_TIME_SHIFT) % 2 ^ 32) &&& STF_DPHY_RG_CLANE_HS_ZERO_TIME_MASK =
      p.clane_hs_zero_time <<< STF_DPHY_RG_CLANE_HS_ZERO_TIME_SHIFT ∧
    ((p.clane_hs_trail_time <<< STF_DPHY_RG_CLANE_HS_TRAIL_TIME_SHIFT) % 2 ^ 32) &&& STF_DPHY_RG_CLANE_HS_TRAIL_TIME_MASK =
      p.clane_hs_trail_time <<< STF_DPHY_RG_CLANE_HS_TRAIL_TIME_SHIFT ∧
    ((p.clane_hs_clk_pre_time <<< STF_DPHY_RG_CLANE_HS_CLK_PRE_TIME_SHIFT) % 2 ^ 32) &&& STF_DPHY_RG_CLANE_HS_CLK_PRE_TIME_MASK =
      p.clane_hs_clk_pre_time <<< STF_DPHY_RG_CLANE_HS_CLK_PRE_TIME_SHIFT ∧
    ((p.clane_hs_clk_post_time <<< STF_DPHY_RG_CLANE_HS_CLK_POST_TIME_SHIFT) % 2 ^ 32) &&& STF_DPHY_RG_CLANE_HS_CLK_POST_TIME_MASK =
      p.clane_hs_clk_post_time <<< STF_DPHY_RG_CLANE_HS_CLK_POST_TIME_SHIFT := by
  have hr : row_in_range p := table_rows_in_range p hp
  refine ⟨hr, ?_⟩
  obtain ⟨h1, h2, h3, h4, h5, h6, h7, h8, h9, h10, h11, h12⟩ := hr
  simp only [STF_DPHY_RG_CDTX_PLL_PRE_DIV_SHIFT, STF_DPHY_RG_CDTX_PLL_PRE_DIV_MASK, STF_DPHY_RG_CDTX_PLL_FBK_INT_SHIFT, STF_DPHY_RG_CDTX_PLL_FBK_INT_MASK, STF_DPHY_RG_CDTX_PLL_FBK_FRA_SHIFT, STF_DPHY_RG_CDTX_PLL_FBK_FRA_MASK, STF_DPHY_RG_EXTD_CYCLE_SEL_SHIFT, STF_DPHY_RG_EXTD_CYCLE_SEL_MASK, STF_DPHY_RG_DLANE_HS_PRE_TIME_SHIFT, STF_DPHY_RG_DLANE_HS_PRE_TIME_MASK, STF_DPHY_RG_DLANE_HS_ZERO_TIME_SHIFT, STF_DPHY_RG_DLANE_HS_ZERO_TIME_MASK, STF_DPHY_RG_DLANE_HS_TRAIL_TIME_SHIFT, STF_DPHY_RG_DLANE_HS_TRAIL_TIME_MASK, STF_DPHY_RG_CLANE_HS_PRE_TIME_SHIFT, STF_DPHY_RG_CLANE_HS_PRE_TIME_MASK, STF_DPHY_RG_CLANE_HS_ZERO_TIME_SHIFT, STF_DPHY_RG_CLANE_HS_ZERO_TIME_MASK, STF_DPHY_RG_CLANE_HS_TRAIL_TIME_SHIFT, STF_DPHY_RG_CLANE_HS_TRAIL_TIME_MASK, STF_DPHY_RG_CLANE_HS_CLK_PRE_TIME_SHIFT, STF_DPHY_RG_CLANE_HS_CLK_PRE_TIME_MASK, STF_DPHY_RG_CLANE_HS_CLK_POST_TIME_SHIFT, STF_DPHY_RG_CLANE_HS_CLK_POST_TIME_MASK]
  exact ⟨shift_in_mask _ 12 11 h1 (by decide) (by decide),
    shift_in_mask _ 8 0 h2 (by decide) (by decide),
    shift_in_mask _ 23 0 h3 (by decide) (by decide),
    shift_in_mask _ 2 0 h4 (by decide) (by decide),
    shift_in_mask _ 15 8 h5 (by decide) (by decide),
    shift_in_mask _ 31 24 h6 (by decide) (by decide),
    shift_in_mask _ 23 16 h7 (by decide) (by decide),
    shift_in_mask _ 23 16 h8 (by decide) (by decide),
    shift_in_mask _ 7 0 h9 (by decide) (by decide),
    shift_in_mask _ 31 24 h10 (by decide) (by decide),
    shift_in_mask _ 15 8 h11 (by decide) (by decide),
    shift_in_mask _ 7 0 h12 (by decide) (by decide)⟩

theorem C22_no_table_value_truncated_witness :
    row_630MHz ∈ m31_dphy_configs ∧
    row_630MHz.pll_fbk_int < 2 ^ 9 ∧
    ((row_630MHz.pll_fbk_int <<< STF_DPHY_RG_CDTX_PLL_FBK_INT_SHIFT) % 2 ^ 32) &&&
      STF_DPHY_RG_CDTX_PLL_FBK_INT_MASK =
      row_630MHz.pll_fbk_int <<< STF_DPHY_RG_CDTX_PLL_FBK_INT_SHIFT :=
  ⟨by decide, (C22_no_table_value_truncated row_630MHz (by decide)).1.2.1,
    (C22_no_table_value_truncated row_630MHz (by decide)).2.2.1⟩

/-! ## Net effect of the preset writes -/

theorem testBit_16 (j : Nat) : Nat.testBit 16 j = decide (4 = j) := by
  have e : (16 : Nat) = 2 ^ 4 := by decide
  rw [e, Nat.testBit_two_pow]

theorem testBit_BIT (n i : Nat) : (BIT n).testBit i = decide (n = i) := by
  unfold BIT
  exact Nat.testBit_two_pow

theorem high_bit_le (i : Nat) (hi : ¬ i < 32) (b : Nat) (hb : b < 32) : (i ≤ b) = False :=
  eq_false (by omega)

theorem high_bit_ne (i : Nat) (hi : ¬ i < 32) (b : Nat) (hb : b < 32) : (b = i) = False :=
  eq_false (by omega)

/-- The word the presets leave at offset 12. -/
theorem presets_word_12 (regs : Regs) :
    readl (hstx_res_presets regs) 12 = (readl regs 12 &&& 0xC000001F) ||| 0x21084200 := by
  have eK : (0xC000001F : Nat) = GENMASK 4 0 ||| GENMASK 31 30 := by decide
  have eD : (0x21084200 : Nat) = BIT 9 ||| BIT 14 ||| BIT 19 ||| BIT 24 ||| BIT 29 := by
    decide
  rw [eK, eD]
  simp only [hstx_res_presets, readl_set_reg, STF_DPHY_APBIFSAIF_SYSCFG,
    STF_DPHY_RG_CDTX_L0N_HSTX_RES_SHIFT, STF_DPHY_RG_CDTX_L0N_HSTX_RES_MASK,
    STF_DPHY_RG_CDTX_L0P_HSTX_RES_SHIFT, STF_DPHY_RG_CDTX_L0P_HSTX_RES_MASK,
    STF_DPHY_RG_CDTX_L1P_HSTX_RES_SHIFT, STF_DPHY_RG_CDTX_L1P_HSTX_RES_MASK,
    STF_DPHY_RG_CDTX_L2N_HSTX_RES_SHIFT, STF_DPHY_RG_CDTX_L2N_HSTX_RES_MASK,
    STF_DPHY_RG_CDTX_L2P_HSTX_RES_SHIFT, STF_DPHY_RG_CDTX_L2P_HSTX_RES_MASK,
    STF_DPHY_RG_CDTX_L3N_HSTX_RES_SHIFT, STF_DPHY_RG_CDTX_L3N_HSTX_RES_MASK,
    STF_DPHY_RG_CDTX_L3P_HSTX_RES_SHIFT, STF_DPHY_RG_CDTX_L3P_HSTX_RES_MASK,
    STF_DPHY_RG_CDTX_L4N_HSTX_RES_SHIFT, STF_DPHY_RG_CDTX_L4N_HSTX_RES_MASK,
    STF_DPHY_RG_CDTX_L4P_HSTX_RES_SHIFT, STF_DPHY_RG_CDTX_L4P_HSTX_RES_MASK]
  apply Nat.eq_of_testBit_eq
  intro i
  by_cases hi : i < 32
  · interval_cases i <;>
      simp [-Nat.testBit_zero, testBit_rmw_GENMASK, is_u32_readl, is_u32_rmw_word,
        testBit_16, testBit_GENMASK, testBit_BIT]
  · have h0 : (readl regs 12).testBit i = false :=
      testBit_false_of_lt (readl_lt regs 12) (by omega)
    simp [-Nat.testBit_zero, testBit_rmw_GENMASK, is_u32_readl, is_u32_rmw_word,
      testBit_16, testBit_GENMASK, testBit_BIT, h0, high_bit_le i hi, high_bit_ne i hi]

/-- The five preset writes to offset 12 other than the one made with the L0N
shift and mask give the same word. -/
theorem presets_word_12_without_L0N (old : Nat) (hold : is_u32 old) :
    rmw_word (rmw_word (rmw_word (rmw_word (rmw_word old
      0x10 STF_DPHY_RG_CDTX_L2N_HSTX_RES_SHIFT STF_DPHY_RG_CDTX_L2N_HSTX_RES_MASK)
      0x10 STF_DPHY_RG_CDTX_L3N_HSTX_RES_SHIFT STF_DPHY_RG_CDTX_L3N_HSTX_RES_MASK)
      0x10 STF_DPHY_RG_CDTX_L1P_HSTX_RES_SHIFT STF_DPHY_RG_CDTX_L1P_HSTX_RES_MASK)
      0x10 STF_DPHY_RG_CDTX_L2P_HSTX_RES_SHIFT STF_DPHY_RG_CDTX_L2P_HSTX_RES_MASK)
      0x10 STF_DPHY_RG_CDTX_L3P_HSTX_RES_SHIFT STF_DPHY_RG_CDTX_L3P_HSTX_RES_MASK =
    (old &&& 0xC000001F) ||| 0x21084200 := by
  have eK : (0xC000001F : Nat) = GENMASK 4 0 ||| GENMASK 31 30 := by decide
  have eD : (0x21084200 : Nat) = BIT 9 ||| BIT 14 ||| BIT 19 ||| BIT 24 ||| BIT 29 := by
    decide
  rw [eK, eD]
  simp only [STF_DPHY_RG_CDTX_L0N_HSTX_RES_SHIFT, STF_DPHY_RG_CDTX_L0N_HSTX_RES_MASK,
    STF_DPHY_RG_CDTX_L0P_HSTX_RES_SHIFT, STF_DPHY_RG_CDTX_L0P_HSTX_RES_MASK,
    STF_DPHY_RG_CDTX_L1P_HSTX_RES_SHIFT, STF_DPHY_RG_CDTX_L1P_HSTX_RES_MASK,
    STF_DPHY_RG_CDTX_L2N_HSTX_RES_SHIFT, STF_DPHY_RG_CDTX_L2N_HSTX_RES_MASK,
    STF_DPHY_RG_CDTX_L2P_HSTX_RES_SHIFT, STF_DPHY_RG_CDTX_L2P_HSTX_RES_MASK,
    STF_DPHY_RG_CDTX_L3N_HSTX_RES_SHIFT, STF_DPHY_RG_CDTX_L3N_HSTX_RES_MASK,
    STF_DPHY_RG_CDTX_L3P_HSTX_RES_SHIFT, STF_DPHY_RG_CDTX_L3P_HSTX_RES_MASK,
    STF_DPHY_RG_CDTX_L4N_HSTX_RES_SHIFT, STF_DPHY_RG_CDTX_L4N_HSTX_RES_MASK,
    STF_DPHY_RG_CDTX_L4P_HSTX_RES_SHIFT, STF_DPHY_RG_CDTX_L4P_HSTX_RES_MASK]
  apply Nat.eq_of_testBit_eq
  intro i
  by_cases hi : i < 32
  · interval_cases i <;>
      simp [-Nat.testBit_zero, testBit_rmw_GENMASK, hold, is_u32_rmw_word,
        testBit_16, testBit_GENMASK, testBit_BIT]
  · have h0 : old.testBit i = false := testBit_false_of_lt hold (by omega)
    simp [-Nat.testBit_zero, testBit_rmw_GENMASK, hold, is_u32_rmw_word,
      testBit_16, testBit_GENMASK, testBit_BIT, h0, high_bit_le i hi, high_bit_ne i hi]

/-- The word the presets leave at offset 8. -/
theorem presets_word_8 (regs : Regs) :
    readl (hstx_res_presets regs) 8 =
      (readl regs 8 &&& (0xFFFFFFFF - 0x1FF80000)) ||| 0x10800000 := by
  have eK : (0xFFFFFFFF - 0x1FF80000 : Nat) = GENMASK 18 0 ||| GENMASK 31 29 := by decide
  have eD : (0x10800000 : Nat) = BIT 23 ||| BIT 28 := by decide
  rw [eK, eD]
  simp only [hstx_res_presets, readl_set_reg, STF_DPHY_APBIFSAIF_SYSCFG,
    STF_DPHY_RG_CDTX_L0N_HSTX_RES_SHIFT, STF_DPHY_RG_CDTX_L0N_HSTX_RES_MASK,
    STF_DPHY_RG_CDTX_L0P_HSTX_RES_SHIFT, STF_DPHY_RG_CDTX_L0P_HSTX_RES_MASK,
    STF_DPHY_RG_CDTX_L1P_HSTX_RES_SHIFT, STF_DPHY_RG_CDTX_L1P_HSTX_RES_MASK,
    STF_DPHY_RG_CDTX_L2N_HSTX_RES_SHIFT, STF_DPHY_RG_CDTX_L2N_HSTX_RES_MASK,
    STF_DPHY_RG_CDTX_L2P_HSTX_RES_SHIFT, STF_DPHY_RG_CDTX_L2P_HSTX_RES_MASK,
    STF_DPHY_RG_CDTX_L3N_HSTX_RES_SHIFT, STF_DPHY_RG_CDTX_L3N_HSTX_RES_MASK,
    STF_DPHY_RG_CDTX_L3P_HSTX_RES_SHIFT, STF_DPHY_RG_CDTX_L3P_HSTX_RES_MASK,
    STF_DPHY_RG_CDTX_L4N_HSTX_RES_SHIFT, STF_DPHY_RG_CDTX_L4N_HSTX_RES_MASK,
    STF_DPHY_RG_CDTX_L4P_HSTX_RES_SHIFT, STF_DPHY_RG_CDTX_L4P_HSTX_RES_MASK]
  apply Nat.eq_of_testBit_eq
  intro i
  by_cases hi : i < 32
  · interval_cases i <;>
      simp [-Nat.testBit_zero, testBit_rmw_GENMASK, is_u32_readl, is_u32_rmw_word,
        testBit_16, testBit_GENMASK, testBit_BIT]
  · have h0 : (readl regs 8).testBit i = false :=
      testBit_false_of_lt (readl_lt regs 8) (by omega)
    simp [-Nat.testBit_zero, testBit_rmw_GENMASK, is_u32_readl, is_u32_rmw_word,
      testBit_16, testBit_GENMASK, testBit_BIT, h0, high_bit_le i hi, high_bit_ne i hi]

/-- The word the presets leave at offset 16. -/
theorem presets_word_16 (regs : Regs) :
    readl (hstx_res_presets regs) 16 =
      (readl regs 16 &&& (0xFFFFFFFF - 0x3FF)) ||| 0x210 := by
  have eK : (0xFFFFFFFF - 0x3FF : Nat) = GENMASK 31 10 := by decide
  have eD : (0x210 : Nat) = BIT 4 ||| BIT 9 := by decide
  rw [eK, eD]
  simp only [hstx_res_presets, readl_set_reg, STF_DPHY_APBIFSAIF_SYSCFG,
    STF_DPHY_RG_CDTX_L0N_HSTX_RES_SHIFT, STF_DPHY_RG_CDTX_L0N_HSTX_RES_MASK,
    STF_DPHY_RG_CDTX_L0P_HSTX_RES_SHIFT, STF_DPHY_RG_CDTX_L0P_HSTX_RES_MASK,
    STF_DPHY_RG_CDTX_L1P_HSTX_RES_SHIFT, STF_DPHY_RG_CDTX_L1P_HSTX_RES_MASK,
    STF_DPHY_RG_CDTX_L2N_HSTX_RES_SHIFT, STF_DPHY_RG_CDTX_L2N_HSTX_RES_MASK,
    STF_DPHY_RG_CDTX_L2P_HSTX_RES_SHIFT, STF_DPHY_RG_CDTX_L2P_HSTX_RES_MASK,
    STF_DPHY_RG_CDTX_L3N_HSTX_RES_SHIFT, STF_DPHY_RG_CDTX_L3N_HSTX_RES_MASK,
    STF_DPHY_RG_CDTX_L3P_HSTX_RES_SHIFT, STF_DPHY_RG_CDTX_L3P_HSTX_RES_MASK,
    STF_DPHY_RG_CDTX_L4N_HSTX_RES_SHIFT, STF_DPHY_RG_CDTX_L4N_HSTX_RES_MASK,
    STF_DPHY_RG_CDTX_L4P_HSTX_RES_SHIFT, STF_DPHY_RG_CDTX_L4P_HSTX_RES_MASK]
  apply Nat.eq_of_testBit_eq
  intro i
  by_cases hi : i < 32
  · interval_cases i <;>
      simp [-Nat.testBit_zero, testBit_rmw_GENMASK, is_u32_readl, is_u32_rmw_word,
        testBit_16, testBit_GENMASK, testBit_BIT]
  · have h0 : (readl regs 16).testBit i = false :=
      testBit_false_of_lt (readl_lt regs 16) (by omega)
    simp [-Nat.testBit_zero, testBit_rmw_GENMASK, is_u32_readl, is_u32_rmw_word,
      testBit_16, testBit_GENMASK, testBit_BIT, h0, high_bit_le i hi, high_bit_ne i hi]

/-- C23: for every initial register state and every requested bit rate, after
`stf_dphy_configure` the word at offset 12 equals `(old & 0xC000001F) |
0x21084200`, the word at offset 8 equals `(old & ~0x1FF80000) | 0x10800000` and
the word at offset 16 equals `(old & ~0x3FF) | 0x210`; the write to offset 12
made with the L0N shift and mask is entirely overwritten by the later L3N and
L2P writes: their masks cover its mask, and the word is the one the other five
writes to offset 12 give. -/
theorem C23_preset_words_net_effect (info : stf_dphy_info) (r : Nat) (regs : Regs) :
    readl (stf_dphy_configure info r regs).2 12 =
      (readl regs 12 &&& 0xC000001F) ||| 0x21084200 ∧
    readl (stf_dphy_configure info r regs).2 8 =
      (readl regs 8 &&& (0xFFFFFFFF - 0x1FF80000)) ||| 0x10800000 ∧
    readl (stf_dphy_configure info r regs).2 16 =
      (readl regs 16 &&& (0xFFFFFFFF - 0x3FF)) ||| 0x210 ∧
    STF_DPHY_RG_CDTX_L0N_HSTX_RES_MASK &&&
      (STF_DPHY_RG_CDTX_L3N_HSTX_RES_MASK ||| STF_DPHY_RG_CDTX_L2P_HSTX_RES_MASK) =
      STF_DPHY_RG_CDTX_L0N_HSTX_RES_MASK ∧
    readl (stf_dphy_configure info r regs).2 12 =
      rmw_word (rmw_word (rmw_word (rmw_word (rmw_word (readl regs 12)
        0x10 STF_DPHY_RG_CDTX_L2N_HSTX_RES_SHIFT STF_DPHY_RG_CDTX_L2N_HSTX_RES_MASK)
        0x10 STF_DPHY_RG_CDTX_L3N_HSTX_RES_SHIFT STF_DPHY_RG_CDTX_L3N_HSTX_RES_MASK)
        0x10 STF_DPHY_RG_CDTX_L1P_HSTX_RES_SHIFT STF_DPHY_RG_CDTX_L1P_HSTX_RES_MASK)
        0x10 STF_DPHY_RG_CDTX_L2P_HSTX_RES_SHIFT STF_DPHY_RG_CDTX_L2P_HSTX_RES_MASK)
        0x10 STF_DPHY_RG_CDTX_L3P_HSTX_RES_SHIFT STF_DPHY_RG_CDTX_L3P_HSTX_RES_MASK := by
  rw [readl_configure_preset_words info r regs 8 (by decide),
    readl_configure_preset_words info r regs 12 (by decide),
    readl_configure_preset_words info r regs 16 (by decide)]
  refine ⟨presets_word_12 regs, presets_word_8 regs, presets_word_16 regs, by decide, ?_⟩
  rw [presets_word_12 regs, presets_word_12_without_L0N _ (is_u32_readl regs 12)]

/-! ## Idempotence of `stf_dphy_configure` -/

theorem run_events_append (l1 l2 : List Event) :
    ∀ regs : Regs, run_events (l1 ++ l2) regs = run_events l2 (run_events l1 regs) := by
  induction l1 with
  | nil => intro regs; rfl
  | cons e es ih =>
    intro regs
    cases e <;> simp [run_events, ih]

theorem word_after_of_not_written (es : List Event) (a : Nat) :
    ∀ x, written es a = false → word_after es a x = x := by
  induction es with
  | nil => intro x _; rfl
  | cons e es ih =>
    intro x h
    cases e with
    | set_reg addr data shift mask =>
      simp only [written, Bool.or_eq_false_iff, decide_eq_false_iff_not] at h
      simp only [word_after, h.1, if_false]
      exact ih x h.2
    | pll_lock_test => exact ih x h
    | clk_prepare_enable ret => exact ih x h
    | clk_disable_unprepare => exact ih x h
    | reset_control_deassert ret => exact ih x h
    | reset_control_assert ret => exact ih x h

/-- The register state after a trace, word by word. -/
theorem run_events_apply (es : List Event) (a : Nat) :
    ∀ regs : Regs, run_events es regs a =
      if written es a = true then word_after es a (readl regs a) else regs a := by
  induction es with
  | nil => intro regs; simp [run_events, written]
  | cons e es ih =>
    intro regs
    cases e with
    | set_reg addr data shift mask =>
      simp only [run_events, written, word_after]
      rw [ih, readl_set_reg, stf_dphy_set_reg_apply]
      by_cases haddr : addr = a
      · subst haddr
        cases hw : written es addr with
        | true => simp
        | false => simp [word_after_of_not_written es addr _ hw]
      · have h2 : ¬ a = addr := fun h => haddr h.symm
        simp [haddr, h2]
    | pll_lock_test => exact ih regs
    | clk_prepare_enable ret => exact ih regs
    | clk_disable_unprepare => exact ih regs
    | reset_control_deassert ret => exact ih regs
    | reset_control_assert ret => exact ih regs

theorem bit_stable_after_rmw (G : Nat → Nat) (hG : bit_stable G) (data shift mask : Nat) :
    bit_stable (fun x => G (rmw_word x data shift mask)) := by
  obtain ⟨hu, hb⟩ := hG
  refine ⟨fun x _ => hu _ (is_u32_rmw_word x data shift mask), ?_⟩
  intro i
  rcases hb i with hpass | ⟨c, hc⟩
  · by_cases hm : mask.testBit i = true
    · right
      refine ⟨(decide (i < 32) && (decide (shift ≤ i) && data.testBit (i - shift))), ?_⟩
      intro x hx
      rw [hpass _ (is_u32_rmw_word x data shift mask), testBit_rmw_word _ _ _ _ _ hx, if_pos hm]
    · left
      intro x hx
      rw [hpass _ (is_u32_rmw_word x data shift mask), testBit_rmw_word _ _ _ _ _ hx, if_neg hm]
  · right
    exact ⟨c, fun x _ => hc _ (is_u32_rmw_word x data shift mask)⟩

theorem bit_stable_word_after (es : List Event) (a : Nat) : bit_stable (word_after es a) := by
  induction es with
  | nil => exact ⟨fun x hx => hx, fun i => Or.inl (fun x _ => rfl)⟩
  | cons e es ih =>
    cases e with
    | set_reg addr data shift mask =>
      by_cases haddr : addr = a
      · have := bit_stable_after_rmw _ ih data shift mask
        simpa [word_after, haddr] using this
      · simpa [word_after, haddr] using ih
    | pll_lock_test => exact ih
    | clk_prepare_enable ret => exact ih
    | clk_disable_unprepare => exact ih
    | reset_control_deassert ret => exact ih
    | reset_control_assert ret => exact ih

/-- A bit-stable map is idempotent on 32-bit words. -/
theorem bit_stable_idem (F : Nat → Nat) (hF : bit_stable F) (x : Nat) (hx : is_u32 x) :
    F (F x) = F x := by
  obtain ⟨hu, hb⟩ := hF
  apply Nat.eq_of_testBit_eq
  intro i
  rcases hb i with hpass | ⟨c, hc⟩
  · exact hpass _ (hu x hx)
  · rw [hc _ (hu x hx), hc x hx]

/-- Running the writes of a trace a second time changes no register word. -/
theorem run_events_idem (es : List Event) (regs : Regs) :
    run_events es (run_events es regs) = run_events es regs := by
  funext a
  rw [run_events_apply es a (run_events es regs)]
  by_cases hw : written es a = true
  · have h1 : run_events es regs a = word_after es a (readl regs a) := by
      rw [run_events_apply, if_pos hw]
    have hu : is_u32 (word_after es a (readl regs a)) :=
      (bit_stable_word_after es a).1 _ (is_u32_readl regs a)
    have h2 : readl (run_events es regs) a = word_after es a (readl regs a) := by
      unfold readl at *
      rw [h1]
      exact Nat.mod_eq_of_lt hu
    rw [if_pos hw, h2, h1]
    exact bit_stable_idem _ (bit_stable_word_after es a) _ (is_u32_readl regs a)
  · rw [if_neg hw]


/-- The presets are the writes of their trace. -/
theorem presets_as_run_events :
    ∃ L : List Event, (∀ d : stf_dphy, (hstx_res_presets_traced d).trace = d.trace ++ L) ∧
      ∀ regs : Regs, hstx_res_presets regs = run_events L regs :=
  ⟨_, hstx_res_presets_traced_trace, fun _ => rfl⟩

/-- The writes for a matching row are the writes of their trace. -/
theorem program_row_as_run_events (info : stf_dphy_info) (p : m31_dphy_config) :
    ∃ L : List Event,
      (∀ d : stf_dphy, (program_row_traced info p d).trace = d.trace ++ L) ∧
      ∀ regs : Regs, program_row info p regs = run_events L regs :=
  ⟨_, program_row_traced_trace info p, fun _ => rfl⟩

/-- The registers `stf_dphy_configure` leaves are those after a list of writes
that depends on the lane map and the requested bit rate only. -/
theorem configure_as_run_events (info : stf_dphy_info) (r : Nat) :
    ∃ L : List Event, ∀ regs : Regs, (stf_dphy_configure info r regs).2 = run_events L regs := by
  obtain ⟨Lpre, -, hpre⟩ := presets_as_run_events
  cases hm : scan_match (round_bitrate (r % 2 ^ 32)) m31_dphy_configs with
  | none =>
    refine ⟨Lpre, fun regs => ?_⟩
    rw [stf_dphy_configure_of_no_match info r regs hm]
    exact hpre regs
  | some p =>
    obtain ⟨Lrow, -, hrow⟩ := program_row_as_run_events info p
    refine ⟨Lpre ++ Lrow, fun regs => ?_⟩
    rw [stf_dphy_configure_of_match info r regs p hm, run_events_append, ← hpre, ← hrow]

/-- C25: `stf_dphy_configure` is idempotent on the register state: for every
initial register state, lane map and requested bit rate, calling it twice in
succession with the same arguments leaves every register word equal to its
value after the first call, and both calls return 0. -/
theorem C25_configure_idempotent (info : stf_dphy_info) (r : Nat) (regs : Regs) :
    (∀ a, (stf_dphy_configure info r (stf_dphy_configure info r regs).2).2 a =
      (stf_dphy_configure info r regs).2 a) ∧
    (stf_dphy_configure info r regs).1 = 0 ∧
    (stf_dphy_configure info r (stf_dphy_configure info r regs).2).1 = 0 := by
  obtain ⟨L, hL⟩ := configure_as_run_events info r
  refine ⟨fun a => ?_, rfl, rfl⟩
  rw [hL (stf_dphy_configure info r regs).2, hL regs, run_events_idem]

end StfDphy
